import Mathlib

/-!
# M-Pesa / SAP integration: transaction lifecycle

A shallow embedding of the request handlers that read and write the
`mpesa_transactions` table:

* `MpesaController.handleCallback`  (server/mpesa-service/controllers/mpesaController.js)
* `SAPController.syncTransaction`,
  `SAPController.handleCallback`    (server/sap-service/controllers/sapController.js)
* `TransactionController.retrySapSync`, `getReconciliation`
                                    (server/transaction-service/controllers/transactionController.js)
* `ReconciliationService`           (server/mpesa-service/utils/reconciliation.js)
* `MpesaController.stkPush`, `b2cPayment`, the route `POST /stk-push`
                                    (mpesaController.js, server/mpesa-service/index.js)
* `MpesaAPI.makeRequest`            (server/mpesa-service/utils/mpesaAPI.js)
* `stkPushValidation`, `b2cValidation`
                                    (server/mpesa-service/utils/validation.js)
* `validateRequest`, `validatePagination`
                                    (server/shared/middleware/validation.js)
* `formatPhoneNumber`               (server/shared/utils/helpers.js)

The table is a list of rows.  A handler is a function from the table and the
request to the HTTP response, the table afterwards and the list of store
operations it issued.  Requests are typed as the gateway protocol delivers
them; a property that JavaScript may find `undefined` is an `Option`.  Values
are taken to fit their columns (a result code is an `INTEGER`, a string fits
its `STRING` column); the uniqueness of `mpesa_receipt` and of
`checkout_request_id` is modelled.
-/

set_option maxRecDepth 100000

namespace SapMpesa

/-! ## Data model (server/database/models/Transaction.js) -/

/-- Column `status`: `ENUM('PENDING', 'SUCCESS', 'FAILED', 'CANCELLED')`. -/
inductive Status where
  | PENDING
  | SUCCESS
  | FAILED
  | CANCELLED
  deriving DecidableEq, Repr

/-- Column `sap_sync_status`: `ENUM('PENDING', 'SYNCED', 'FAILED')`. -/
inductive SapSyncStatus where
  | PENDING
  | SYNCED
  | FAILED
  deriving DecidableEq, Repr

/-- Column `transaction_type`. -/
inductive TransactionType where
  | STK_PUSH
  | B2C
  | C2B
  | B2B
  | REVERSAL
  deriving DecidableEq, Repr

/-- A scalar JSON value as carried in `CallbackMetadata.Item[i].Value`
(a string such as a receipt number, or a number such as an amount or a
`yyyymmddhhmmss` date). -/
inductive Scalar where
  | str (s : String)
  | num (n : Int)
  deriving DecidableEq, Repr

/-- One element of `CallbackMetadata.Item`; the gateway sends some items
(for example `Balance`) without a `Value`. -/
structure MetadataItem where
  Name : String
  Value : Option Scalar
  deriving DecidableEq, Repr

/-- The object `stkCallback.CallbackMetadata`. -/
structure Metadata where
  Item : Option (List MetadataItem)
  deriving DecidableEq, Repr

/-- The object `Body.stkCallback`. -/
structure StkCallback where
  CheckoutRequestID : String
  ResultCode : Int
  ResultDesc : String
  CallbackMetadata : Option Metadata
  deriving DecidableEq, Repr

/-- The object `req.body.Body`. -/
structure CallbackBody where
  stkCallback : Option StkCallback
  deriving DecidableEq, Repr

/-- The callback envelope `req.body`. -/
structure CallbackRequest where
  Body : Option CallbackBody
  deriving DecidableEq, Repr

/-- A row of `mpesa_transactions`.  `amount` is `DECIMAL(12, 2)`, held in
hundredths.  The two JSON blobs written at initiation are kept serialised;
`callback_payload` is the callback envelope as received.  `created_at` is the
insertion time in milliseconds. -/
structure Transaction where
  id : Nat
  checkout_request_id : Option String
  merchant_request_id : Option String
  conversation_id : Option String
  originator_conversation_id : Option String
  mpesa_receipt : Option Scalar
  amount : Int
  phone_number : String
  account_reference : Option String
  transaction_type : TransactionType
  transaction_date : Option Scalar
  result_code : Option Int
  result_desc : Option String
  status : Status
  sap_reference : Option String
  sap_sync_status : SapSyncStatus
  request_payload : Option String
  response_payload : Option String
  callback_payload : Option CallbackRequest
  retry_count : Nat
  error_message : Option String
  created_at : Nat
  deriving DecidableEq, Repr

/-- The table `mpesa_transactions`. -/
abbrev Store := List Transaction

/-- The object handed to `transaction.update(...)` / `Transaction.update(...)`.
A key that is missing or `undefined` is `none`; the ORM leaves that column as
it is.  Only the columns some handler writes appear. -/
structure Values where
  status : Option Status := none
  mpesa_receipt : Option Scalar := none
  transaction_date : Option Scalar := none
  result_code : Option Int := none
  result_desc : Option String := none
  callback_payload : Option CallbackRequest := none
  sap_reference : Option String := none
  sap_sync_status : Option SapSyncStatus := none
  error_message : Option String := none
  deriving DecidableEq, Repr

/-- Apply the defined keys of `v` to the row. -/
def Transaction.set (t : Transaction) (v : Values) : Transaction :=
  { t with
    status := v.status.getD t.status
    mpesa_receipt := v.mpesa_receipt.orElse (fun _ => t.mpesa_receipt)
    transaction_date := v.transaction_date.orElse (fun _ => t.transaction_date)
    result_code := v.result_code.orElse (fun _ => t.result_code)
    result_desc := v.result_desc.orElse (fun _ => t.result_desc)
    callback_payload := v.callback_payload.orElse (fun _ => t.callback_payload)
    sap_reference := v.sap_reference.orElse (fun _ => t.sap_reference)
    sap_sync_status := v.sap_sync_status.getD t.sap_sync_status
    error_message := v.error_message.orElse (fun _ => t.error_message) }

/-- Lookup `Transaction.findOne` with `where: checkout_request_id`. -/
def findOne (s : Store) (checkoutRequestID : String) : Option Transaction :=
  s.find? (fun t => t.checkout_request_id == some checkoutRequestID)

/-- Lookup `Transaction.findByPk(id)`. -/
def findByPk (s : Store) (id : Nat) : Option Transaction :=
  s.find? (fun t => t.id == id)

/-- The text a `STRING` column holds for a scalar: a string as it is, a
number as its decimal text (`12345` is stored as `'12345'`; whole numbers
below `10^21` in magnitude, which JavaScript writes without an exponent). -/
def Scalar.text : Scalar → String
  | Scalar.str s => s
  | Scalar.num n => toString n

/-- The column `mpesa_receipt` is a `STRING` declared `unique: true`: writing
a receipt whose text another row already holds is refused by the database.
A row keeps the scalar it was written with; the database compares the
texts, so the number `12345` collides with the string `'12345'`. -/
def uniqueViolation (s : Store) (t : Transaction) (v : Values) : Bool :=
  match v.mpesa_receipt with
  | none => false
  | some r =>
    s.any (fun u => u.id != t.id && u.mpesa_receipt.map Scalar.text == some r.text)

/-- Instance method `transaction.update(values)`: writes the row whose primary
key is `transaction.id`; `none` when the database refuses the write (the
call throws). -/
def update (s : Store) (t : Transaction) (v : Values) : Option Store :=
  if uniqueViolation s t v then none
  else some (s.map (fun u => if u.id = t.id then u.set v else u))

/-- Static method `Transaction.update(values, where)`: writes every row the
condition selects. -/
def bulkUpdate (s : Store) (cond : Transaction → Bool) (v : Values) : Store :=
  s.map (fun u => if cond u then u.set v else u)

/-- Store operations a handler issues, in order. -/
inductive StoreOp where
  | findOne (checkoutRequestID : String)
  | findByPk (id : Option Nat)
  | update (id : Nat) (values : Values)
  | bulkUpdate (sapReference : String) (values : Values)
  deriving DecidableEq, Repr

/-! ## Callback handler (mpesaController.js, `handleCallback`) -/

/-- The JSON body `ResultCode, ResultDesc` sent with an HTTP status. -/
structure CallbackResponse where
  status : Nat
  ResultCode : Int
  ResultDesc : String
  deriving DecidableEq, Repr

/-- What a call of `handleCallback` leaves behind. -/
structure CallbackOutcome where
  response : CallbackResponse
  store : Store
  ops : List StoreOp
  deriving DecidableEq, Repr

/-- Response `res.status(400).json(...)` of lines 143-146. -/
def invalidCallbackFormat : CallbackResponse :=
  ⟨400, 1, "Invalid callback format"⟩

/-- Response `res.status(404).json(...)` of lines 159-162. -/
def transactionNotFound : CallbackResponse :=
  ⟨404, 1, "Transaction not found"⟩

/-- Response `res.json(...)` of lines 198-201 (HTTP 200). -/
def callbackProcessed : CallbackResponse :=
  ⟨200, 0, "Callback processed successfully"⟩

/-- Response `res.status(500).json(...)` of the `catch` block, lines 204-207. -/
def errorProcessingCallback : CallbackResponse :=
  ⟨500, 1, "Error processing callback"⟩

/-- Expression `item.find(i => i.Name === name)?.Value`. -/
def valueOf (item : List MetadataItem) (name : String) : Option Scalar :=
  (item.find? (fun i => i.Name == name)).bind (fun i => i.Value)

/-- Values written on a success callback (lines 174-181). -/
def successValues (req : CallbackRequest) (callback : StkCallback)
    (item : List MetadataItem) : Values :=
  { status := some Status.SUCCESS
    mpesa_receipt := valueOf item "MpesaReceiptNumber"
    transaction_date := valueOf item "TransactionDate"
    result_code := some callback.ResultCode
    result_desc := some callback.ResultDesc
    callback_payload := some req }

/-- Values written on a failure callback (lines 187-192). -/
def failureValues (req : CallbackRequest) (callback : StkCallback) : Values :=
  { status := some Status.FAILED
    result_code := some callback.ResultCode
    result_desc := some callback.ResultDesc
    callback_payload := some req }

/-- Method `MpesaController.handleCallback`.  Reading `.Item` of a missing
`CallbackMetadata`, calling `.find` on a missing `Item`, and a refused
database write all throw and end in the `catch` block.  The lookups of
`Amount` and `PhoneNumber` (lines 169, 171) feed nothing and are left out. -/
def handleCallback (s : Store) (req : CallbackRequest) : CallbackOutcome :=
  match req.Body with
  | none => ⟨invalidCallbackFormat, s, []⟩
  | some body =>
    match body.stkCallback with
    | none => ⟨invalidCallbackFormat, s, []⟩
    | some callback =>
      let checkoutRequestID := callback.CheckoutRequestID
      match findOne s checkoutRequestID with
      | none => ⟨transactionNotFound, s, [StoreOp.findOne checkoutRequestID]⟩
      | some transaction =>
        if callback.ResultCode = 0 then
          match callback.CallbackMetadata.bind (fun m => m.Item) with
          | none => ⟨errorProcessingCallback, s, [StoreOp.findOne checkoutRequestID]⟩
          | some item =>
            let values := successValues req callback item
            let ops := [StoreOp.findOne checkoutRequestID, StoreOp.update transaction.id values]
            match update s transaction values with
            | none => ⟨errorProcessingCallback, s, ops⟩
            | some s1 => ⟨callbackProcessed, s1, ops⟩
        else
          let values := failureValues req callback
          let ops := [StoreOp.findOne checkoutRequestID, StoreOp.update transaction.id values]
          match update s transaction values with
          | none => ⟨errorProcessingCallback, s, ops⟩
          | some s1 => ⟨callbackProcessed, s1, ops⟩

/-! ## Ledger sync (sapController.js, transactionController.js) -/

/-- Body of `POST /sync-transaction`. -/
structure SyncRequest where
  transaction_id : Option Nat
  sap_company_code : Option String
  sap_document_type : Option String
  sap_posting_date : Option String
  deriving DecidableEq, Repr

/-- The `process.env` entries read while the document is built. -/
structure SapEnv where
  SAP_CASH_ACCOUNT : Option String
  SAP_REVENUE_ACCOUNT : Option String
  SAP_BUSINESS_AREA : Option String
  SAP_COST_CENTER : Option String
  deriving DecidableEq, Repr

/-- One line of the accounting document. -/
structure DocumentItem where
  Account : Option String
  AmountInTransactionCurrency : Int
  DebitCreditCode : String
  BusinessArea : Option String
  CostCenter : Option String
  Assignment : String
  deriving DecidableEq, Repr

/-- The object `documentData` of lines 33-58. -/
structure DocumentData where
  CompanyCode : Option String
  DocumentType : Option String
  PostingDate : Option String
  DocumentDate : Option String
  Currency : String
  DocumentHeaderText : String
  items : List DocumentItem
  deriving DecidableEq, Repr

/-- What `sapConnector.createAccountingDocument` does: it throws an `Error`
with a message, or returns the response data, whose `documentId` may be
missing. -/
inductive ErpResult where
  | failed (message : String)
  | created (documentId : Option String)
  deriving DecidableEq, Repr

/-- The fields `id, amount, mpesa_receipt` echoed in the sync response. -/
structure SyncedTransaction where
  id : Nat
  amount : Int
  mpesa_receipt : Option Scalar
  deriving DecidableEq, Repr

/-- JSON response of the sync handlers and of the SAP callback handler. -/
structure SyncResponse where
  status : Nat
  success : Bool
  message : String
  sap_reference : Option String := none
  transaction : Option SyncedTransaction := none
  deriving DecidableEq, Repr

/-- What a sync handler leaves behind.  `response = none`: the handler threw
out of its `catch` block and sent no response. -/
structure SyncOutcome where
  response : Option SyncResponse
  store : Store
  ops : List StoreOp
  erpCalls : List DocumentData
  deriving DecidableEq, Repr

/-- Template text of a receipt inside `DocumentHeaderText`. -/
def receiptText : Option Scalar → String
  | none => "null"
  | some (Scalar.str s) => s
  | some (Scalar.num n) => toString n

/-- Expression `transaction.account_reference || transaction.phone_number`. -/
def assignmentOf (t : Transaction) : String :=
  match t.account_reference with
  | none => t.phone_number
  | some r => if r = "" then t.phone_number else r

/-- The object `documentData` built by `syncTransaction`. -/
def buildDocument (env : SapEnv) (req : SyncRequest) (t : Transaction) : DocumentData :=
  { CompanyCode := req.sap_company_code
    DocumentType := req.sap_document_type
    PostingDate := req.sap_posting_date
    DocumentDate := req.sap_posting_date
    Currency := "KES"
    DocumentHeaderText := "M-Pesa Payment - " ++ receiptText t.mpesa_receipt
    items :=
      [ { Account := env.SAP_CASH_ACCOUNT
          AmountInTransactionCurrency := t.amount
          DebitCreditCode := "S"
          BusinessArea := env.SAP_BUSINESS_AREA
          CostCenter := env.SAP_COST_CENTER
          Assignment := assignmentOf t },
        { Account := env.SAP_REVENUE_ACCOUNT
          AmountInTransactionCurrency := t.amount
          DebitCreditCode := "H"
          BusinessArea := env.SAP_BUSINESS_AREA
          CostCenter := env.SAP_COST_CENTER
          Assignment := assignmentOf t } ] }

/-- Response 404 of both sync handlers. -/
def syncNotFound : SyncResponse :=
  { status := 404, success := false, message := "Transaction not found" }

/-- Response 400 for a transaction whose status is not SUCCESS. -/
def syncNotSuccessful : SyncResponse :=
  { status := 400, success := false
    message := "Only successful transactions can be synced with SAP" }

/-- Response 400 for a transaction that is already SYNCED. -/
def syncAlreadySynced : SyncResponse :=
  { status := 400, success := false, message := "Transaction already synced with SAP" }

/-- Values written after the ERP created the document (lines 64-68); the key
`sap_sync_date` names no column of the model and is dropped by the ORM. -/
def syncedValues (documentId : Option String) : Values :=
  { sap_reference := documentId, sap_sync_status := some SapSyncStatus.SYNCED }

/-- Expression `Transaction.findByPk(transaction_id)` for a possibly missing id. -/
def findByPk? (s : Store) (id : Option Nat) : Option Transaction :=
  id.bind (findByPk s)

/-- Method `SAPController.syncTransaction`.  `erp` stands for
`sapConnector.createAccountingDocument`.  When that call throws, the `catch`
block reads `transaction`, which is declared with `const` inside the `try`
block and so is not in scope: the read throws a `ReferenceError`, nothing is
written and no response is sent. -/
def syncTransaction (env : SapEnv) (erp : DocumentData → ErpResult)
    (s : Store) (req : SyncRequest) : SyncOutcome :=
  let lookup := [StoreOp.findByPk req.transaction_id]
  match findByPk? s req.transaction_id with
  | none => ⟨some syncNotFound, s, lookup, []⟩
  | some transaction =>
    if transaction.status ≠ Status.SUCCESS then
      ⟨some syncNotSuccessful, s, lookup, []⟩
    else if transaction.sap_sync_status = SapSyncStatus.SYNCED then
      ⟨some syncAlreadySynced, s, lookup, []⟩
    else
      let documentData := buildDocument env req transaction
      match erp documentData with
      | ErpResult.failed _ => ⟨none, s, lookup, [documentData]⟩
      | ErpResult.created documentId =>
        let values := syncedValues documentId
        let ops := lookup ++ [StoreOp.update transaction.id values]
        match update s transaction values with
        | none => ⟨none, s, ops, [documentData]⟩
        | some s1 =>
          ⟨some { status := 200, success := true
                  message := "Transaction synced with SAP successfully"
                  sap_reference := documentId
                  transaction := some ⟨transaction.id, transaction.amount,
                    transaction.mpesa_receipt⟩ },
            s1, ops, [documentData]⟩

/-- Method `TransactionController.retrySapSync`; `now` is `Date.now()`. -/
def retrySapSync (now : Nat) (s : Store) (id : Option Nat) : SyncOutcome :=
  let lookup := [StoreOp.findByPk id]
  match findByPk? s id with
  | none => ⟨some syncNotFound, s, lookup, []⟩
  | some transaction =>
    if transaction.status ≠ Status.SUCCESS then
      ⟨some syncNotSuccessful, s, lookup, []⟩
    else if transaction.sap_sync_status = SapSyncStatus.SYNCED then
      ⟨some syncAlreadySynced, s, lookup, []⟩
    else
      let values := syncedValues (some ("SAP-" ++ toString now))
      let ops := lookup ++ [StoreOp.update transaction.id values]
      match update s transaction values with
      | none =>
        ⟨some { status := 500, success := false, message := "Internal server error" },
          s, ops, []⟩
      | some s1 =>
        ⟨some { status := 200, success := true
                message := "Transaction synced with SAP successfully"
                sap_reference := (transaction.set values).sap_reference },
          s1, ops, []⟩

/-- The object `data` of an SAP callback. -/
structure SapCallbackData where
  documentId : Option String
  status : Option String
  errorMessage : Option String
  deriving DecidableEq, Repr

/-- Body of the SAP callback. -/
structure SapCallbackRequest where
  event : Option String
  data : Option SapCallbackData
  deriving DecidableEq, Repr

/-- JavaScript truthiness of a possibly missing string. -/
def truthy : Option String → Bool
  | none => false
  | some d => d != ""

/-- Response `success: true` of the SAP callback handler. -/
def sapCallbackProcessed : SyncResponse :=
  { status := 200, success := true, message := "Callback processed successfully" }

/-- Response 500 of the SAP callback handler. -/
def sapCallbackFailed : SyncResponse :=
  { status := 500, success := false, message := "Failed to process SAP callback" }

/-- Method `SAPController.handleCallback`.  In the two document branches a
missing `data` makes `data.documentId` throw. -/
def sapHandleCallback (s : Store) (req : SapCallbackRequest) : SyncOutcome :=
  if req.event = some "DOCUMENT_CREATED" then
    match req.data with
    | none => ⟨some sapCallbackFailed, s, [], []⟩
    | some data =>
      match data.documentId with
      | some d =>
        if truthy (some d) && data.status == some "SUCCESS" then
          let values : Values :=
            { sap_sync_status := some SapSyncStatus.SYNCED, sap_reference := some d }
          ⟨some sapCallbackProcessed,
            bulkUpdate s (fun t => t.sap_reference == some d) values,
            [StoreOp.bulkUpdate d values], []⟩
        else ⟨some sapCallbackProcessed, s, [], []⟩
      | none => ⟨some sapCallbackProcessed, s, [], []⟩
  else if req.event = some "DOCUMENT_ERROR" then
    match req.data with
    | none => ⟨some sapCallbackFailed, s, [], []⟩
    | some data =>
      match data.documentId with
      | some d =>
        if truthy (some d) then
          let values : Values :=
            { sap_sync_status := some SapSyncStatus.FAILED
              error_message := data.errorMessage }
          ⟨some sapCallbackProcessed,
            bulkUpdate s (fun t => t.sap_reference == some d) values,
            [StoreOp.bulkUpdate d values], []⟩
        else ⟨some sapCallbackProcessed, s, [], []⟩
      | none => ⟨some sapCallbackProcessed, s, [], []⟩
  else ⟨some sapCallbackProcessed, s, [], []⟩

/-! ## Sequences of operations -/

/-- One request reaching the system. -/
inductive Operation where
  | callback (req : CallbackRequest)
  | sync (env : SapEnv) (result : ErpResult) (req : SyncRequest)
  | retry (now : Nat) (id : Option Nat)
  | sapCallback (req : SapCallbackRequest)

/-- The table after one request. -/
def step (s : Store) : Operation → Store
  | Operation.callback req => (handleCallback s req).store
  | Operation.sync env result req => (syncTransaction env (fun _ => result) s req).store
  | Operation.retry now id => (retrySapSync now s id).store
  | Operation.sapCallback req => (sapHandleCallback s req).store

/-- The table after a sequence of requests, oldest first. -/
def run (s : Store) (ops : List Operation) : Store :=
  ops.foldl step s

/-- A row as `Transaction.create` of `stkPush` inserts it: status PENDING,
the columns the call does not mention at their defaults. -/
def newPending (id : Nat) (checkoutRequestID merchantRequestID : Option String)
    (amount : Int) (phone : String) (accountReference : Option String)
    (requestPayload responsePayload : Option String) (createdAt : Nat) : Transaction :=
  { id := id
    checkout_request_id := checkoutRequestID
    merchant_request_id := merchantRequestID
    conversation_id := none
    originator_conversation_id := none
    mpesa_receipt := none
    amount := amount
    phone_number := phone
    account_reference := accountReference
    transaction_type := TransactionType.STK_PUSH
    transaction_date := none
    result_code := none
    result_desc := none
    status := Status.PENDING
    sap_reference := none
    sap_sync_status := SapSyncStatus.PENDING
    request_payload := requestPayload
    response_payload := responsePayload
    callback_payload := none
    retry_count := 0
    error_message := none
    created_at := createdAt }

/-! ## JavaScript numbers

Amounts are summed and compared as JavaScript numbers, that is IEEE-754
binary64 values with round-to-nearest, ties-to-even.  Every finite binary64
value is a whole multiple of `2^-1074`; a number is held as that signed
multiple, so sums and differences of two numbers are exact integers before
they are rounded.  Infinities, NaN and the sign of zero are outside this
model: the magnitudes met here (amounts of `DECIMAL(12, 2)`, their sums and
differences) are far below `2^1024`. -/

/-- The number of units of `2^-1074` in 1. -/
def unitsPerOne : Nat := 1 <<< 1074

/-- How many low bits `q` has beyond 53 significant bits (`fuel` bounds the
count; 2200 covers the whole binary64 range). -/
def excessBits : Nat → Nat → Nat
  | 0, _ => 0
  | fuel + 1, q => if q < 9007199254740992 then 0 else excessBits fuel (q / 2) + 1

/-- The binary64 value nearest to `num / den` units, ties to even, in units. -/
def roundNearestEven (num den : Nat) : Nat :=
  let k := excessBits 2200 (num / den)
  let d := den <<< k
  let lo := num / d
  let r := num % d
  let up : Nat := if d < 2 * r then 1 else if 2 * r = d then lo % 2 else 0
  (lo + up) <<< k

/-- A finite JavaScript number, in units of `2^-1074`. -/
structure Double where
  units : Int
  deriving DecidableEq, Repr

/-- The number a decimal literal or decimal string `num / den` denotes. -/
def Double.ofRatio (num : Int) (den : Nat) : Double :=
  if num < 0 then ⟨-(roundNearestEven (num.natAbs * unitsPerOne) den : Nat)⟩
  else ⟨(roundNearestEven (num.natAbs * unitsPerOne) den : Nat)⟩

/-- Rounding of an exact result given in units. -/
def Double.round (x : Int) : Double :=
  if x < 0 then ⟨-(roundNearestEven x.natAbs 1 : Nat)⟩
  else ⟨(roundNearestEven x.natAbs 1 : Nat)⟩

/-- JavaScript `a + b` on numbers. -/
def Double.add (a b : Double) : Double := Double.round (a.units + b.units)

/-- JavaScript `a - b` on numbers. -/
def Double.sub (a b : Double) : Double := Double.round (a.units - b.units)

/-- JavaScript `Math.abs(a)`. -/
def Double.abs (a : Double) : Double := ⟨(a.units.natAbs : Nat)⟩

/-- JavaScript `a > b` on numbers. -/
def Double.gt (a b : Double) : Bool := decide (b.units < a.units)

/-- The number zero. -/
def Double.zero : Double := ⟨0⟩

/-- JavaScript `parseFloat(amount)` of a `DECIMAL(12, 2)` column, which the ORM
hands over as a decimal string; `hundredths` is the amount in hundredths. -/
def parseFloat (hundredths : Int) : Double := Double.ofRatio hundredths 100

/-- The literal `0.01`. -/
def tolerance : Double := Double.ofRatio 1 100

/-- Expression `Math.abs(a - b)` on two numbers. -/
def absDiff (a b : Double) : Double := (a.sub b).abs

/-- Expression `Math.abs(a - b)` on two `DECIMAL` strings, which `-` converts
to numbers first. -/
def decimalAbsDiff (a b : Int) : Double := ((parseFloat a).sub (parseFloat b)).abs

/-! ## Reconciliation (mpesa-service/utils/reconciliation.js,
transactionController.js `getReconciliation`)

Times are milliseconds of local time, so a local day starts at a multiple of
`msPerDay` (days without a clock change). -/

/-- An element of `sapData` or `mpesaData`: the two properties
`findDiscrepancies` reads. -/
structure Entry (α : Type) where
  reference : Option String
  amount : α
  deriving DecidableEq, Repr

/-- An element of the list `findDiscrepancies` returns. -/
inductive Discrepancy (α : Type) where
  | MISSING (reference : Option String) (amount : α) (description : String)
  | AMOUNT_MISMATCH (reference : Option String) (sap_amount mpesa_amount : α)
      (difference : Double)
  deriving DecidableEq, Repr

/-- First loop of `findDiscrepancies` (lines 56-80), one step. -/
def sapStep {α : Type} (diff : α → α → Double) (mpesaData : List (Entry α))
    (discrepancies : List (Discrepancy α)) (sapTransaction : Entry α) :
    List (Discrepancy α) :=
  match mpesaData.find? (fun mp => mp.reference == sapTransaction.reference) with
  | none =>
    discrepancies ++
      [Discrepancy.MISSING sapTransaction.reference sapTransaction.amount
        "Transaction found in SAP but not in M-Pesa"]
  | some mpesaTransaction =>
    if (diff sapTransaction.amount mpesaTransaction.amount).gt tolerance then
      discrepancies ++
        [Discrepancy.AMOUNT_MISMATCH sapTransaction.reference sapTransaction.amount
          mpesaTransaction.amount (diff sapTransaction.amount mpesaTransaction.amount)]
    else discrepancies

/-- Second loop of `findDiscrepancies` (lines 83-96), one step. -/
def mpesaStep {α : Type} (sapData : List (Entry α))
    (discrepancies : List (Discrepancy α)) (mpesaTransaction : Entry α) :
    List (Discrepancy α) :=
  match sapData.find? (fun sap => sap.reference == mpesaTransaction.reference) with
  | none =>
    discrepancies ++
      [Discrepancy.MISSING mpesaTransaction.reference mpesaTransaction.amount
        "Transaction found in M-Pesa but not in SAP"]
  | some _ => discrepancies

/-- Method `ReconciliationService.findDiscrepancies`; `diff a b` stands for
`Math.abs(a - b)` on the amounts. -/
def findDiscrepancies {α : Type} (diff : α → α → Double)
    (sapData mpesaData : List (Entry α)) : List (Discrepancy α) :=
  mpesaData.foldl (mpesaStep sapData) (sapData.foldl (sapStep diff mpesaData) [])

/-- Milliseconds in a day. -/
def msPerDay : Nat := 86400000

/-- Call `setHours(0, 0, 0, 0)` on the instant `date`. -/
def startOfDay (date : Nat) : Nat := date - date % msPerDay

/-- Call `setHours(23, 59, 59, 999)` on the instant `date`. -/
def endOfDay (date : Nat) : Nat := startOfDay date + (msPerDay - 1)

/-- Query `Transaction.findAll` with a filter on the row, `created_at` between
`lo` and `hi` (both ends included) and `order: created_at ASC`. -/
def findAllBetween (s : Store) (cond : Transaction → Bool) (lo hi : Nat) :
    List Transaction :=
  (s.filter (fun t =>
      cond t && (decide (lo ≤ t.created_at) && decide (t.created_at ≤ hi)))).insertionSort
    (fun a b => a.created_at ≤ b.created_at)

/-- Expression `transactions.reduce((sum, tx) => sum + parseFloat(tx.amount), 0)`. -/
def totalAmount (transactions : List Transaction) : Double :=
  transactions.foldl (fun sum tx => sum.add (parseFloat tx.amount)) Double.zero

/-- Statement `acc[key] = (acc[key] || 0) + 1` on an object with keys in
insertion order. -/
def countInto {κ : Type} [DecidableEq κ] : List (κ × Nat) → κ → List (κ × Nat)
  | [], k => [(k, 1)]
  | (k1, n) :: rest, k =>
    if k1 = k then (k1, n + 1) :: rest else (k1, n) :: countInto rest k

/-- Method `groupByStatus`. -/
def groupByStatus (transactions : List Transaction) : List (Status × Nat) :=
  transactions.foldl (fun acc tx => countInto acc tx.status) []

/-- Method `groupByType`. -/
def groupByType (transactions : List Transaction) : List (TransactionType × Nat) :=
  transactions.foldl (fun acc tx => countInto acc tx.transaction_type) []

/-- The object `summary` of `dailyReconciliation`. -/
structure Summary where
  date : Nat
  total_transactions : Nat
  total_amount : Double
  by_status : List (Status × Nat)
  by_type : List (TransactionType × Nat)
  successful_transactions : Nat
  failed_transactions : Nat
  pending_transactions : Nat
  deriving DecidableEq, Repr

/-- What `dailyReconciliation` returns. -/
structure DailyReconciliation where
  summary : Summary
  transactions : List Transaction
  deriving DecidableEq, Repr

/-- Method `ReconciliationService.dailyReconciliation`. -/
def dailyReconciliation (s : Store) (date : Nat) : DailyReconciliation :=
  let transactions := findAllBetween s (fun _ => true) (startOfDay date) (endOfDay date)
  { summary :=
      { date := date
        total_transactions := transactions.length
        total_amount := totalAmount transactions
        by_status := groupByStatus transactions
        by_type := groupByType transactions
        successful_transactions :=
          (transactions.filter (fun tx => tx.status == Status.SUCCESS)).length
        failed_transactions :=
          (transactions.filter (fun tx => tx.status == Status.FAILED)).length
        pending_transactions :=
          (transactions.filter (fun tx => tx.status == Status.PENDING)).length }
    transactions := transactions }

/-- A stored transaction as `findDiscrepancies` reads it: the row has no
`reference` property, and its `amount` is the `DECIMAL` column. -/
def asEntry (t : Transaction) : Entry Int := ⟨none, t.amount⟩

/-- The object `report` of `generateReconciliationReport`. -/
structure Report where
  generated_at : Nat
  report_date : Nat
  summary : Summary
  discrepancies : List (Discrepancy Int)
  transactions : List Transaction
  deriving DecidableEq, Repr

/-- Method `ReconciliationService.generateReconciliationReport`; `now` is
`new Date()`. -/
def generateReconciliationReport (now : Nat) (s : Store) (date : Nat) : Report :=
  let reconciliation := dailyReconciliation s date
  { generated_at := now
    report_date := date
    summary := reconciliation.summary
    discrepancies :=
      findDiscrepancies decimalAbsDiff [] (reconciliation.transactions.map asEntry)
    transactions := reconciliation.transactions }

/-- Option `attributes: exclude` of the query in `getReconciliation`: the rows
come without the three payload columns. -/
def excludePayloads (t : Transaction) : Transaction :=
  { t with request_payload := none, response_payload := none, callback_payload := none }

/-- The object `reconciliation` of the `getReconciliation` response (its
`date` string is left out). -/
structure Reconciliation where
  total_transactions : Nat
  total_amount : Double
  transactions : List Transaction
  deriving DecidableEq, Repr

/-- Method `TransactionController.getReconciliation`, answered with HTTP 200
and `success: true`.  `date` is `new Date(date)` of the query parameter when
it is given, `now` is `new Date()`. -/
def getReconciliation (now : Nat) (s : Store) (date : Option Nat) : Reconciliation :=
  let reconciliationDate := startOfDay (date.getD now)
  let nextDay := reconciliationDate + msPerDay
  let transactions :=
    (findAllBetween s (fun t => t.status == Status.SUCCESS) reconciliationDate nextDay).map
      excludePayloads
  { total_transactions := transactions.length
    total_amount := totalAmount transactions
    transactions := transactions }

/-! ## Phone numbers (mpesaController.js, shared/utils/helpers.js, smsService.js)

Strings are sequences of Unicode characters.  The source works on UTF-16 code
units; the two views agree on the operations below whenever the first
character of the string is in the Basic Multilingual Plane, as every digit
is. -/

/-- JavaScript `s.startsWith(p)`. -/
def startsWith (s p : String) : Bool :=
  decide (s.data.take p.data.length = p.data)

/-- JavaScript `s.substring(1)`. -/
def substring1 (s : String) : String :=
  ⟨s.data.drop 1⟩

/-- The constant `formattedPhone` of `stkPush` and `b2cPayment`:
`phone.startsWith('254') ? phone : '254' + phone.substring(1)`. -/
def formattedPhone (phone : String) : String :=
  if startsWith phone "254" then phone else "254" ++ substring1 phone

/-- JavaScript `s.replace(/\D/g, '')`: the decimal digits of `s`, in order. -/
def digitsOf (s : String) : String :=
  ⟨s.data.filter Char.isDigit⟩

/-- Function `formatPhoneNumber` of `shared/utils/helpers.js`.  `none` is
`null` (as a result) or a missing argument. -/
def formatPhoneNumber (phone : Option String) : Option String :=
  match phone with
  | none => none
  | some p =>
    if p = "" then none
    else
      let digits := digitsOf p
      if startsWith digits "0" then some ("254" ++ substring1 digits)
      else if startsWith digits "7" || startsWith digits "1" then some ("254" ++ digits)
      else some digits

/-- Method `SMSService.formatPhoneNumber`. -/
def smsFormatPhoneNumber (phone : String) : String :=
  let digits := digitsOf phone
  let digits :=
    if startsWith digits "0" then "254" ++ substring1 digits
    else if startsWith digits "7" || startsWith digits "1" then "254" ++ digits
    else digits
  "+" ++ digits

/-- The test `/^254[17]\d{8}$/` of `stkPushValidation`, `b2cValidation` and
the client's `validatePhone`; the chains check a missing property as the empty
string. -/
def matchesPhone (phone : String) : Bool :=
  match phone.data with
  | '2' :: '5' :: '4' :: c :: rest =>
    (c == '1' || c == '7') && rest.length == 8 && rest.all Char.isDigit
  | _ => false

/-! ## Request validation (mpesa-service/utils/validation.js,
shared/middleware/validation.js, client/src/utils/validators.js)

An amount in a request body is a JSON number with at most two decimals, held
in hundredths like the `DECIMAL(12, 2)` column it is stored in.  The
validators turn it into a string and back into the same number before they
compare it. -/

/-- JavaScript `a >= b` on numbers. -/
def Double.ge (a b : Double) : Bool := decide (b.units ≤ a.units)

/-- JavaScript `a <= b` on numbers. -/
def Double.le (a b : Double) : Bool := decide (a.units ≤ b.units)

/-- Validator `isFloat({ min, max })` on a property that holds a number
(`none`: the property is missing, which fails).  `max = none` when the
options have no `max`. -/
def isFloat (min : Int) (max : Option Int) (value : Option Int) : Bool :=
  match value with
  | none => false
  | some hundredths =>
    (parseFloat hundredths).ge (Double.ofRatio min 1)
      && (match max with
          | none => true
          | some m => (parseFloat hundredths).le (Double.ofRatio m 1))

/-- Validator `isLength({ min, max })` on a property that holds a string; a
missing property is checked as the empty string. -/
def isLength (min : Nat) (max : Nat) (value : Option String) : Bool :=
  decide (min ≤ (value.getD "").length) && decide ((value.getD "").length ≤ max)

/-- An element of `validationResult(req).array()`: the field and the message
of a failed chain (the rejected `value` and the `location` are left out). -/
structure ValidationError where
  param : String
  msg : String
  deriving DecidableEq, Repr

/-- One validation chain with a single validator: its error when the
validator fails. -/
def check (ok : Bool) (param msg : String) : List ValidationError :=
  if ok then [] else [⟨param, msg⟩]

/-- The body of `POST /stk-push`. -/
structure StkPushBody where
  amount : Option Int
  phone : Option String
  account_reference : Option String
  transaction_desc : Option String
  callback_url : Option String
  deriving DecidableEq, Repr

/-- The body of `POST /b2c`. -/
structure B2cBody where
  amount : Option Int
  phone : Option String
  remarks : Option String
  occasion : Option String
  deriving DecidableEq, Repr

/-- The chains of `stkPushValidation`, run on a body; `isURL` is the
validator of that name. -/
def stkPushValidation (isURL : String → Bool) (body : StkPushBody) : List ValidationError :=
  check (isFloat 1 none body.amount) "amount" "Amount must be a positive number"
    ++ check (matchesPhone (body.phone.getD "")) "phone" "Phone number must be in format 2547XXXXXXXX"
    ++ check (isLength 1 12 body.account_reference) "account_reference"
        "Account reference must be between 1 and 12 characters"
    ++ check (isLength 1 13 body.transaction_desc) "transaction_desc"
        "Transaction description must be between 1 and 13 characters"
    ++ (match body.callback_url with
        | none => []
        | some url => check (isURL url) "callback_url" "Callback URL must be a valid URL")

/-- The chains of `b2cValidation`, run on a body. -/
def b2cValidation (body : B2cBody) : List ValidationError :=
  check (isFloat 1 (some 70000) body.amount) "amount" "Amount must be between 1 and 70,000"
    ++ check (matchesPhone (body.phone.getD "")) "phone" "Phone number must be in format 2547XXXXXXXX"
    ++ check (isLength 1 100 body.remarks) "remarks"
        "Remarks must be between 1 and 100 characters"
    ++ (match body.occasion with
        | none => []
        | some _ => check (isLength 0 100 body.occasion) "occasion"
            "Occasion must be less than 100 characters")

/-- The client's `validateAmount`: `parseFloat(amount)` is a number greater
than 0 (`none`: the text is not a number). -/
def validateAmount (amount : Option Int) : Bool :=
  match amount with
  | none => false
  | some hundredths => (parseFloat hundredths).gt Double.zero

/-! ## Initiation (mpesa-service/index.js, controllers/mpesaController.js,
utils/mpesaAPI.js) -/

/-- Environment variables the initiation handlers read (`none`: not set). -/
structure MpesaEnv where
  MPESA_BUSINESS_SHORTCODE : Option String
  MPESA_CALLBACK_URL : Option String
  MPESA_INITIATOR_NAME : Option String
  MPESA_QUEUE_TIMEOUT_URL : Option String
  MPESA_RESULT_URL : Option String
  deriving DecidableEq, Repr

/-- What a handler obtains from outside while it serves one request: `now` is
the time of the insert, `timestamp` the digits of `new Date().toISOString()`
without the milliseconds, `password` what `security.generatePassword(timestamp)`
returns, `securityCredential` what `security.getSecurityCredential()` returns
(`none` when that call throws). -/
structure Moment where
  now : Nat
  timestamp : String
  password : String
  securityCredential : Option (Option String)
  deriving DecidableEq, Repr

/-- A request to `POST /stk-push`: the parsed body and its JSON text. -/
structure StkPushRequest where
  body : StkPushBody
  json : String
  deriving DecidableEq, Repr

/-- A request to `POST /b2c`: the parsed body and its JSON text. -/
structure B2cRequest where
  body : B2cBody
  json : String
  deriving DecidableEq, Repr

/-- The object handed to `mpesaAPI.stkPush`. -/
structure StkPushData where
  BusinessShortCode : Option String
  Password : String
  Timestamp : String
  TransactionType : String
  Amount : Option Int
  PartyA : String
  PartyB : Option String
  PhoneNumber : String
  CallBackURL : Option String
  AccountReference : Option String
  TransactionDesc : Option String
  deriving DecidableEq, Repr

/-- The object handed to `mpesaAPI.b2cPayment`. -/
structure B2cData where
  InitiatorName : Option String
  SecurityCredential : Option String
  CommandID : String
  Amount : Option Int
  PartyA : Option String
  PartyB : String
  Remarks : Option String
  QueueTimeOutURL : Option String
  ResultURL : Option String
  Occasion : Option String
  deriving DecidableEq, Repr

/-- The `response.data` of an accepted STK push, with its JSON text. -/
structure StkResponse where
  CheckoutRequestID : String
  MerchantRequestID : String
  ResponseDescription : String
  json : String
  deriving DecidableEq, Repr

/-- The `response.data` of an accepted B2C payment, with its JSON text. -/
structure B2cResponse where
  ConversationID : String
  OriginatorConversationID : String
  ResponseDescription : String
  json : String
  deriving DecidableEq, Repr

/-- How `axios.post` ends: it resolves with `response.data`, or it rejects
with an error that has a `response` (an HTTP error status, whose body may
carry `errorMessage`), only a `request` (nothing came back), or neither. -/
inductive HttpResult (α : Type) where
  | resolved (data : α)
  | rejectedWithResponse (status : Nat) (errorMessage : Option String)
  | rejectedWithoutResponse
  | rejectedBeforeSending
  deriving DecidableEq, Repr

/-- The payment gateway as the service sees it: whether `getAuthToken` obtains
a token, and how the gateway answers each request. -/
structure Gateway where
  authenticated : Bool
  stkpush : StkPushData → HttpResult StkResponse
  b2c : B2cData → HttpResult B2cResponse

/-- Property `response` of a thrown error, as the handlers read it. -/
structure ErrorResponse where
  status : Nat
  errorMessage : Option String
  deriving DecidableEq, Repr

/-- A thrown JavaScript error: its message, and its `response` property when
it has one. -/
structure JsError where
  message : String
  response : Option ErrorResponse
  deriving DecidableEq, Repr

/-- Method `MpesaAPI.makeRequest`: `post` is how `axios.post` ends when it
is called.  A failure of `getAuthToken` is thrown inside the `try` and caught
by the same `catch`.  Every error it throws is a `new Error(message)`, which
has no `response` property. -/
def makeRequest {α : Type} (authenticated : Bool) (post : HttpResult α) : Except JsError α :=
  if authenticated then
    match post with
    | HttpResult.resolved data => Except.ok data
    | HttpResult.rejectedWithResponse _ errorMessage =>
      Except.error
        ⟨if truthy errorMessage then errorMessage.getD "" else "M-Pesa API request failed",
          none⟩
    | HttpResult.rejectedWithoutResponse =>
      Except.error ⟨"No response received from M-Pesa API", none⟩
    | HttpResult.rejectedBeforeSending =>
      Except.error ⟨"Error setting up M-Pesa API request", none⟩
  else Except.error ⟨"Error setting up M-Pesa API request", none⟩

/-- The primary key the database gives the next inserted row. -/
def nextId (s : Store) : Nat :=
  (s.map (fun t => t.id)).foldr max 0 + 1

/-- The column `checkout_request_id` is declared `unique: true`: whether a row
already holds this checkout id. -/
def checkoutTaken (s : Store) (checkoutRequestID : Option String) : Bool :=
  match checkoutRequestID with
  | none => false
  | some c => s.any (fun u => u.checkout_request_id == some c)

/-- Insert of `Transaction.create(row)` and of `new Transaction(row).save()`;
`none` when the database refuses the row (the call throws). -/
def create (s : Store) (row : Transaction) : Option Store :=
  if checkoutTaken s row.checkout_request_id then none else some (s ++ [row])

/-- An element of the `errors` array of `validateRequest` (the rejected
`value` is left out). -/
structure FieldError where
  field : String
  message : String
  deriving DecidableEq, Repr

/-- The JSON bodies the initiation routes answer with. -/
inductive InitiationBody where
  | errors (errors : List ValidationError)
  | validationFailed (message : String) (errors : List FieldError)
  | stkInitiated (checkout_request_id merchant_request_id response_description : String)
      (transaction_id : Option Nat)
  | b2cInitiated (conversation_id originator_conversation_id response_description : String)
      (transaction_id : Nat)
  | failed (message : String)
  | error (error : String)
  deriving DecidableEq, Repr

/-- Property `success` of a body (`none`: the body has no such property). -/
def InitiationBody.success : InitiationBody → Option Bool
  | InitiationBody.errors _ => none
  | InitiationBody.validationFailed _ _ => some false
  | InitiationBody.stkInitiated _ _ _ _ => some true
  | InitiationBody.b2cInitiated _ _ _ _ => some true
  | InitiationBody.failed _ => some false
  | InitiationBody.error _ => none

/-- Property `message` of a body, when it has one. -/
def InitiationBody.message : InitiationBody → Option String
  | InitiationBody.validationFailed message _ => some message
  | InitiationBody.failed message => some message
  | _ => none

/-- What an STK-push handler did: the HTTP status and body it answered with,
the table afterwards, and the calls of `mpesaAPI.stkPush` it made. -/
structure InitiationOutcome where
  status : Nat
  body : InitiationBody
  store : Store
  gatewayCalls : List StkPushData
  deriving DecidableEq, Repr

/-- What `b2cPayment` did. -/
structure B2cOutcome where
  status : Nat
  body : InitiationBody
  store : Store
  gatewayCalls : List B2cData
  deriving DecidableEq, Repr

/-- Middleware `validateRequest` on the errors the chains found: the answer
it sends, or `none` when it calls `next()`. -/
def validateRequest (errors : List ValidationError) : Option (Nat × InitiationBody) :=
  if errors.isEmpty then none
  else some (400, InitiationBody.validationFailed "Validation failed"
    (errors.map (fun error => ⟨error.param, error.msg⟩)))

/-- The argument of `mpesaAPI.stkPush` in `MpesaController.stkPush`. -/
def stkPushData (env : MpesaEnv) (m : Moment) (body : StkPushBody) (phone : String) :
    StkPushData :=
  { BusinessShortCode := env.MPESA_BUSINESS_SHORTCODE
    Password := m.password
    Timestamp := m.timestamp
    TransactionType := "CustomerPayBillOnline"
    Amount := body.amount
    PartyA := formattedPhone phone
    PartyB := env.MPESA_BUSINESS_SHORTCODE
    PhoneNumber := formattedPhone phone
    CallBackURL :=
      if truthy body.callback_url then body.callback_url else env.MPESA_CALLBACK_URL
    AccountReference := body.account_reference
    TransactionDesc :=
      if truthy body.transaction_desc then body.transaction_desc
      else some ("Payment for " ++ body.account_reference.getD "undefined") }

/-- The `catch` of `MpesaController.stkPush`: status and body. -/
def stkPushFailure (error : JsError) : Nat × InitiationBody :=
  match error.response with
  | some response =>
    (response.status, InitiationBody.failed
      (if truthy response.errorMessage then response.errorMessage.getD ""
        else "STK Push failed"))
  | none => (500, InitiationBody.failed "Internal server error")

/-- Method `MpesaController.stkPush`. -/
def stkPush (env : MpesaEnv) (m : Moment) (gateway : Gateway) (s : Store)
    (req : StkPushRequest) : InitiationOutcome :=
  match req.body.phone with
  | none =>
    let failure := stkPushFailure
      ⟨"Cannot read properties of undefined", none⟩
    ⟨failure.1, failure.2, s, []⟩
  | some phone =>
    let data := stkPushData env m req.body phone
    match makeRequest gateway.authenticated (gateway.stkpush data) with
    | Except.error error =>
      ⟨(stkPushFailure error).1, (stkPushFailure error).2, s, [data]⟩
    | Except.ok stkResponse =>
      match req.body.amount with
      | none =>
        let failure := stkPushFailure ⟨"notNull Violation: Transaction.amount cannot be null", none⟩
        ⟨failure.1, failure.2, s, [data]⟩
      | some amount =>
        let transaction := newPending (nextId s) (some stkResponse.CheckoutRequestID)
          (some stkResponse.MerchantRequestID) amount (formattedPhone phone)
          req.body.account_reference (some req.json) (some stkResponse.json) m.now
        match create s transaction with
        | none =>
          let failure := stkPushFailure ⟨"Validation error", none⟩
          ⟨failure.1, failure.2, s, [data]⟩
        | some s1 =>
          ⟨200, InitiationBody.stkInitiated stkResponse.CheckoutRequestID
            stkResponse.MerchantRequestID stkResponse.ResponseDescription
            (some transaction.id), s1, [data]⟩

/-- The `catch` of the route `POST /stk-push` in `index.js`: status and body. -/
def postStkPushFailure (error : JsError) : Nat × InitiationBody :=
  match error.response with
  | some response =>
    (response.status, InitiationBody.error
      (if truthy response.errorMessage then response.errorMessage.getD ""
        else "STK Push failed"))
  | none => (500, InitiationBody.error "Internal server error")

/-- Route `POST /stk-push` of `mpesa-service/index.js`: the chains of
`stkPushValidation` run first, then the handler. -/
def postStkPush (isURL : String → Bool) (env : MpesaEnv) (m : Moment) (gateway : Gateway)
    (s : Store) (req : StkPushRequest) : InitiationOutcome :=
  let errors := stkPushValidation isURL req.body
  if !errors.isEmpty then ⟨400, InitiationBody.errors errors, s, []⟩
  else
    match req.body.phone with
    | none =>
      let failure := postStkPushFailure
        ⟨"Cannot read properties of undefined", none⟩
      ⟨failure.1, failure.2, s, []⟩
    | some phone =>
      let data :=
        { stkPushData env m req.body phone with TransactionDesc := req.body.transaction_desc }
      match makeRequest gateway.authenticated (gateway.stkpush data) with
      | Except.error error =>
        ⟨(postStkPushFailure error).1, (postStkPushFailure error).2, s, [data]⟩
      | Except.ok stkResponse =>
        match req.body.amount with
        | none =>
          let failure := postStkPushFailure
            ⟨"notNull Violation: Transaction.amount cannot be null", none⟩
          ⟨failure.1, failure.2, s, [data]⟩
        | some amount =>
          let transaction := newPending (nextId s) (some stkResponse.CheckoutRequestID)
            (some stkResponse.MerchantRequestID) amount (formattedPhone phone)
            req.body.account_reference (some req.json) (some stkResponse.json) m.now
          match create s transaction with
          | none =>
            let failure := postStkPushFailure ⟨"Validation error", none⟩
            ⟨failure.1, failure.2, s, [data]⟩
          | some s1 =>
            ⟨200, InitiationBody.stkInitiated stkResponse.CheckoutRequestID
              stkResponse.MerchantRequestID stkResponse.ResponseDescription none, s1, [data]⟩

/-- The same route behind the shared middleware, as `routes/mpesaRoutes.js`
mounts it: `stkPushValidation`, then `validateRequest`; `none` when the
request goes on to the handler. -/
def routerStkPushValidation (isURL : String → Bool) (req : StkPushRequest) :
    Option (Nat × InitiationBody) :=
  validateRequest (stkPushValidation isURL req.body)

/-- The argument of `mpesaAPI.b2cPayment` in `MpesaController.b2cPayment`. -/
def b2cData (env : MpesaEnv) (securityCredential : Option String) (body : B2cBody)
    (phone : String) : B2cData :=
  { InitiatorName := env.MPESA_INITIATOR_NAME
    SecurityCredential := securityCredential
    CommandID := "BusinessPayment"
    Amount := body.amount
    PartyA := env.MPESA_BUSINESS_SHORTCODE
    PartyB := formattedPhone phone
    Remarks := body.remarks
    QueueTimeOutURL := env.MPESA_QUEUE_TIMEOUT_URL
    ResultURL := env.MPESA_RESULT_URL
    Occasion := body.occasion }

/-- The `catch` of `MpesaController.b2cPayment`: status and body. -/
def b2cFailure (error : JsError) : Nat × InitiationBody :=
  match error.response with
  | some response =>
    (response.status, InitiationBody.failed
      (if truthy response.errorMessage then response.errorMessage.getD ""
        else "B2C payment failed"))
  | none => (500, InitiationBody.failed "Internal server error")

/-- The row `Transaction.create` of `b2cPayment` inserts. -/
def newB2c (id : Nat) (conversationID originatorConversationID : String) (amount : Int)
    (phone : String) (requestPayload responsePayload : Option String) (createdAt : Nat) :
    Transaction :=
  { newPending id none none amount phone none requestPayload responsePayload createdAt with
    conversation_id := some conversationID
    originator_conversation_id := some originatorConversationID
    transaction_type := TransactionType.B2C }

/-- Method `MpesaController.b2cPayment`. -/
def b2cPayment (env : MpesaEnv) (m : Moment) (gateway : Gateway) (s : Store)
    (req : B2cRequest) : B2cOutcome :=
  match req.body.phone with
  | none =>
    let failure := b2cFailure
      ⟨"Cannot read properties of undefined", none⟩
    ⟨failure.1, failure.2, s, []⟩
  | some phone =>
    match m.securityCredential with
    | none =>
      let failure := b2cFailure ⟨"M-Pesa public key not found", none⟩
      ⟨failure.1, failure.2, s, []⟩
    | some securityCredential =>
      let data := b2cData env securityCredential req.body phone
      match makeRequest gateway.authenticated (gateway.b2c data) with
      | Except.error error => ⟨(b2cFailure error).1, (b2cFailure error).2, s, [data]⟩
      | Except.ok b2cResponse =>
        match req.body.amount with
        | none =>
          let failure := b2cFailure
            ⟨"notNull Violation: Transaction.amount cannot be null", none⟩
          ⟨failure.1, failure.2, s, [data]⟩
        | some amount =>
          let transaction := newB2c (nextId s) b2cResponse.ConversationID
            b2cResponse.OriginatorConversationID amount (formattedPhone phone)
            (some req.json) (some b2cResponse.json) m.now
          match create s transaction with
          | none =>
            let failure := b2cFailure ⟨"Validation error", none⟩
            ⟨failure.1, failure.2, s, [data]⟩
          | some s1 =>
            ⟨200, InitiationBody.b2cInitiated b2cResponse.ConversationID
              b2cResponse.OriginatorConversationID b2cResponse.ResponseDescription
              transaction.id, s1, [data]⟩

/-! ## Pagination (shared/middleware/validation.js) -/

/-- JavaScript white space and line terminators, which `parseInt` skips at the
start of its argument. -/
def isWhiteSpace (c : Char) : Bool :=
  [9, 10, 11, 12, 13, 32, 160, 5760, 8232, 8233, 8239, 8287, 12288, 65279].contains c.toNat
    || (decide (8192 ≤ c.toNat) && decide (c.toNat ≤ 8202))

/-- The value of a character as a digit of the given radix. -/
def digitValue (radix : Nat) (c : Char) : Option Nat :=
  let v :=
    if '0' ≤ c ∧ c ≤ '9' then c.toNat - 48
    else if 'a' ≤ c ∧ c ≤ 'z' then c.toNat - 87
    else if 'A' ≤ c ∧ c ≤ 'Z' then c.toNat - 55
    else radix
  if v < radix then some v else none

/-- The longest run of digits at the start of the text, read in the radix:
the number read so far and how many digits went into it. -/
def readDigits (radix : Nat) : List Char → Nat × Nat → Nat × Nat
  | [], acc => acc
  | c :: rest, (value, count) =>
    match digitValue radix c with
    | none => (value, count)
    | some d => readDigits radix rest (value * radix + d, count + 1)

/-- JavaScript `parseInt(value)` on a query parameter (`none`: the parameter
is missing); the result `none` is `NaN`.  White space is skipped, a sign is
read, `0x` or `0X` switches to radix 16, and the digits that follow are read
as far as they go.  The result is the binary64 number nearest to the digits
read (ties to even), which is the integer itself below `2^53`. -/
def parseInt (value : Option String) : Option Int :=
  match value with
  | none => none
  | some text =>
    let trimmed := text.data.dropWhile isWhiteSpace
    let negative := decide (trimmed.head? = some '-')
    let unsigned :=
      if trimmed.head? = some '-' ∨ trimmed.head? = some '+' then trimmed.drop 1 else trimmed
    let hex := decide (unsigned.take 2 = ['0', 'x']) || decide (unsigned.take 2 = ['0', 'X'])
    let read :=
      if hex then readDigits 16 (unsigned.drop 2) (0, 0) else readDigits 10 unsigned (0, 0)
    if read.2 = 0 then none
    else if negative then some (-(roundNearestEven read.1 1 : Nat))
    else some (roundNearestEven read.1 1 : Nat)

/-- Expression `parseInt(value) || fallback`: `NaN` and 0 are falsy. -/
def parseIntOr (value : Option String) (fallback : Int) : Int :=
  match parseInt value with
  | none => fallback
  | some n => if n = 0 then fallback else n

/-- The query parameters `validatePagination` reads. -/
structure PaginationQuery where
  page : Option String
  limit : Option String
  deriving DecidableEq, Repr

/-- What `validatePagination` does: it answers with a status and a body
`{ success, message }`, or it sets `req.pagination` and calls `next()`. -/
inductive PaginationOutcome where
  | rejected (status : Nat) (success : Bool) (message : String)
  | next (page limit : Int)
  deriving DecidableEq, Repr

/-- Middleware `validatePagination`. -/
def validatePagination (query : PaginationQuery) : PaginationOutcome :=
  let page := parseIntOr query.page 1
  let limit := parseIntOr query.limit 20
  if page < 1 then PaginationOutcome.rejected 400 false "Page must be greater than 0"
  else if limit < 1 ∨ limit > 100 then
    PaginationOutcome.rejected 400 false "Limit must be between 1 and 100"
  else PaginationOutcome.next page limit

/-! ## Example data -/

/-- A freshly initiated STK push with checkout id `ws_CO_1`. -/
def pendingRow : Transaction :=
  newPending 1 (some "ws_CO_1") (some "mr-1") 100000 "254712345678" (some "INV001")
    none none 0

/-- A second freshly initiated STK push, checkout id `ws_CO_2`. -/
def pendingRow2 : Transaction :=
  newPending 2 (some "ws_CO_2") (some "mr-2") 5000 "254711111111" none none none 5

/-- Envelope around one `stkCallback`. -/
def envelope (callback : StkCallback) : CallbackRequest :=
  ⟨some ⟨some callback⟩⟩

/-- The `stkCallback` of a success callback for `ws_CO_1`, with the items the
repository test sends. -/
def successStk : StkCallback :=
  { CheckoutRequestID := "ws_CO_1", ResultCode := 0, ResultDesc := "Success"
    CallbackMetadata := some ⟨some
      [ ⟨"Amount", some (Scalar.num 1000)⟩,
        ⟨"MpesaReceiptNumber", some (Scalar.str "QAX123")⟩,
        ⟨"PhoneNumber", some (Scalar.num 254712345678)⟩ ]⟩ }

/-- A success callback for `ws_CO_1`. -/
def successCallback : CallbackRequest := envelope successStk

/-- The `stkCallback` of a failure callback for `ws_CO_1` (request cancelled
by the user). -/
def failureStk : StkCallback :=
  { CheckoutRequestID := "ws_CO_1", ResultCode := 1032
    ResultDesc := "Request cancelled by user", CallbackMetadata := none }

/-- A failure callback for `ws_CO_1`. -/
def failureCallback : CallbackRequest := envelope failureStk

/-- A callback for `ws_CO_1` with result code 0 and no `CallbackMetadata`. -/
def bareSuccessCallback : CallbackRequest :=
  envelope
    { CheckoutRequestID := "ws_CO_1", ResultCode := 0, ResultDesc := "Success"
      CallbackMetadata := none }

/-- A callback for `ws_CO_1` with result code 0 whose `CallbackMetadata` has
no `Item`. -/
def itemlessSuccessCallback : CallbackRequest :=
  envelope
    { CheckoutRequestID := "ws_CO_1", ResultCode := 0, ResultDesc := "Success"
      CallbackMetadata := some ⟨none⟩ }

/-- A callback for `ws_CO_1` with result code 0 whose items name no
`MpesaReceiptNumber`. -/
def receiptlessSuccessCallback : CallbackRequest :=
  envelope
    { CheckoutRequestID := "ws_CO_1", ResultCode := 0, ResultDesc := "Success"
      CallbackMetadata := some ⟨some
        [ ⟨"Amount", some (Scalar.num 1000)⟩,
          ⟨"PhoneNumber", some (Scalar.num 254712345678)⟩ ]⟩ }

/-- The table after `ws_CO_1` received its success callback. -/
def succeededStore : Store := (handleCallback [pendingRow] successCallback).store

/-- The row `ws_CO_1` after its success callback. -/
def succeededRow : Transaction :=
  { pendingRow with
    status := Status.SUCCESS, mpesa_receipt := some (Scalar.str "QAX123")
    result_code := some 0, result_desc := some "Success"
    callback_payload := some successCallback }

/-- A FAILED transaction whose `sap_sync_status` is nevertheless SYNCED. -/
def failedSyncedRow : Transaction :=
  { pendingRow with
    id := 3, checkout_request_id := some "ws_CO_3", status := Status.FAILED
    sap_sync_status := SapSyncStatus.SYNCED, sap_reference := some "DOC-3" }

/-- A SUCCESS transaction that is already SYNCED. -/
def syncedRow : Transaction :=
  { pendingRow with
    id := 4, checkout_request_id := some "ws_CO_4", status := Status.SUCCESS
    mpesa_receipt := some (Scalar.str "QAX400")
    sap_sync_status := SapSyncStatus.SYNCED, sap_reference := some "DOC-4" }

/-- A table with a pending, a failed-but-synced and a synced transaction. -/
def syncStore : Store := [pendingRow, failedSyncedRow, syncedRow]

/-- An ERP that creates every document under the id `DOC-9`. -/
def erpCreates : DocumentData → ErpResult := fun _ => ErpResult.created (some "DOC-9")

/-- SAP account configuration used in the examples. -/
def exampleEnv : SapEnv :=
  ⟨some "100000", some "400000", some "BA01", some "CC01"⟩

/-- A sync request for the transaction with primary key `id`. -/
def syncRequestFor (id : Nat) : SyncRequest :=
  ⟨some id, some "1000", some "DZ", some "2024-01-15"⟩

/-- The items of `successStk` together with a completion date. -/
def datedItems : List MetadataItem :=
  [ ⟨"Amount", some (Scalar.num 1000)⟩,
    ⟨"MpesaReceiptNumber", some (Scalar.str "QAX123")⟩,
    ⟨"TransactionDate", some (Scalar.num 20240115103000)⟩,
    ⟨"PhoneNumber", some (Scalar.num 254712345678)⟩ ]

/-- The same items in another order. -/
def datedItemsShuffled : List MetadataItem :=
  [ ⟨"TransactionDate", some (Scalar.num 20240115103000)⟩,
    ⟨"PhoneNumber", some (Scalar.num 254712345678)⟩,
    ⟨"MpesaReceiptNumber", some (Scalar.str "QAX123")⟩,
    ⟨"Amount", some (Scalar.num 1000)⟩ ]

/-- A table in which a second transaction already holds the receipt `'12345'`,
next to the pending transaction `ws_CO_1`. -/
def receiptHeldStore : Store :=
  [ pendingRow,
    { pendingRow2 with
      status := Status.SUCCESS, mpesa_receipt := some (Scalar.str "12345")
      result_code := some 0, result_desc := some "Success" } ]

/-- A success callback for `ws_CO_1` whose `MpesaReceiptNumber` is the number
12345. -/
def numericReceiptCallback : CallbackRequest :=
  envelope
    { CheckoutRequestID := "ws_CO_1", ResultCode := 0, ResultDesc := "Success"
      CallbackMetadata := some ⟨some
        [ ⟨"Amount", some (Scalar.num 1000)⟩,
          ⟨"MpesaReceiptNumber", some (Scalar.num 12345)⟩ ]⟩ }

/-- An ERP whose document creation throws. -/
def erpFails : DocumentData → ErpResult :=
  fun _ => ErpResult.failed "SAP document creation failed: Request failed with status code 500"

/-- The table holding only `ws_CO_1` after its success callback. -/
def paidStore : Store := [succeededRow]

/-- SAP callback reporting that document `DOC-9` was created. -/
def documentCreated : SapCallbackRequest :=
  ⟨some "DOCUMENT_CREATED", some ⟨some "DOC-9", some "SUCCESS", none⟩⟩

/-- SAP callback reporting an error on document `DOC-9`. -/
def documentError : SapCallbackRequest :=
  ⟨some "DOCUMENT_ERROR", some ⟨some "DOC-9", none, some "Posting period closed"⟩⟩

/-- The table after `ws_CO_1` was paid, synced as `DOC-9`, reported in error
by SAP and then hit by a failure callback of the gateway. -/
def disputedStore : Store :=
  run [pendingRow]
    [ Operation.callback successCallback,
      Operation.sync exampleEnv (ErpResult.created (some "DOC-9")) (syncRequestFor 1),
      Operation.sapCallback documentError,
      Operation.callback failureCallback ]

/-- Ledger entry `A` of amount 100. -/
def ledgerA : Entry Double := ⟨some "A", Double.ofRatio 100 1⟩

/-- Mobile-money entry `B` of amount 200. -/
def mobileB : Entry Double := ⟨some "B", Double.ofRatio 200 1⟩

/-- Ledger entry `X` of amount 100.00. -/
def ledgerX : Entry Double := ⟨some "X", Double.ofRatio 10000 100⟩

/-- Mobile-money entry `X` of amount 100.005. -/
def mobileXNear : Entry Double := ⟨some "X", Double.ofRatio 100005 1000⟩

/-- Ledger entry `Y` of amount 100.02. -/
def ledgerY : Entry Double := ⟨some "Y", Double.ofRatio 10002 100⟩

/-- Mobile-money entry `Y` of amount 100.00. -/
def mobileY : Entry Double := ⟨some "Y", Double.ofRatio 10000 100⟩

/-- The number JavaScript prints as `0.01999999999999602`. -/
def almostTwoHundredths : Double := Double.ofRatio 1999999999999602 100000000000000000

/-- Local midnight of the example day (2024-01-15), in milliseconds. -/
def exampleDate : Nat := 1705276800000

/-- A transaction of the example day: `pendingRow` with another key, amount,
status and creation time. -/
def dayRow (id : Nat) (checkoutRequestID : String) (amount : Int) (status : Status)
    (createdAt : Nat) : Transaction :=
  { pendingRow with
    id := id, checkout_request_id := some checkoutRequestID, amount := amount
    status := status, created_at := createdAt }

/-- A table in no particular order: three SUCCESS transactions of the example
day with amounts 1000, 2500.50 and 300 (created in this order), a FAILED and a
PENDING one of the same day, and a SUCCESS one created five milliseconds into
the next day. -/
def dayStore : Store :=
  [ dayRow 13 "ws_D_3" 30000 Status.SUCCESS (exampleDate + 10800000),
    dayRow 14 "ws_D_4" 5000 Status.FAILED (exampleDate + 100),
    dayRow 11 "ws_D_1" 100000 Status.SUCCESS (exampleDate + 3600000),
    dayRow 16 "ws_D_6" 99900 Status.SUCCESS (exampleDate + 86400005),
    dayRow 12 "ws_D_2" 250050 Status.SUCCESS (exampleDate + 7200000),
    dayRow 15 "ws_D_5" 7000 Status.PENDING (exampleDate + 200) ]

/-- Two SUCCESS transactions of the example day with amounts 0.10 and 0.20. -/
def dimeStore : Store :=
  [ dayRow 21 "ws_E_1" 10 Status.SUCCESS (exampleDate + 1000),
    dayRow 22 "ws_E_2" 20 Status.SUCCESS (exampleDate + 2000) ]

/-- A FAILED transaction of the example day alone in the table. -/
def failedDayStore : Store :=
  [dayRow 14 "ws_D_4" 5000 Status.FAILED (exampleDate + 100)]

/-- Two SUCCESS transactions around the end of the example day: one created
at 23:59:59.999 of that day, one at 00:00:00.000 of the following day. -/
def midnightStore : Store :=
  [ dayRow 31 "ws_N_1" 100000 Status.SUCCESS (exampleDate + msPerDay - 1),
    dayRow 32 "ws_N_2" 20000 Status.SUCCESS (exampleDate + msPerDay) ]

/-- A day with a SUCCESS, a FAILED, a PENDING and a CANCELLED transaction. -/
def cancelledDayStore : Store :=
  [ dayRow 41 "ws_X_1" 100000 Status.SUCCESS (exampleDate + 1),
    dayRow 42 "ws_X_2" 5000 Status.FAILED (exampleDate + 2),
    dayRow 43 "ws_X_3" 7500 Status.PENDING (exampleDate + 3),
    dayRow 44 "ws_X_4" 2500 Status.CANCELLED (exampleDate + 4) ]

/-- Settings of the initiation handlers in the examples. -/
def exampleMpesaEnv : MpesaEnv :=
  { MPESA_BUSINESS_SHORTCODE := some "174379"
    MPESA_CALLBACK_URL := some "https://example.com/mpesa/callback"
    MPESA_INITIATOR_NAME := some "testapi"
    MPESA_QUEUE_TIMEOUT_URL := some "https://example.com/mpesa/timeout"
    MPESA_RESULT_URL := some "https://example.com/mpesa/result" }

/-- A request served at 10:00:00 of the example day. -/
def exampleMoment : Moment :=
  { now := exampleDate + 36000000
    timestamp := "20240115100000"
    password := "MTc0Mzc5cGFzc2tleTIwMjQwMTE1MTAwMDAw"
    securityCredential := some (some "credential") }

/-- The accepted answer of the repository test's gateway stand-in. -/
def testStkResponse : StkResponse :=
  { CheckoutRequestID := "test_checkout_id"
    MerchantRequestID := "test_merchant_id"
    ResponseDescription := "Success"
    json := "CheckoutRequestID: test_checkout_id, MerchantRequestID: test_merchant_id" }

/-- The accepted B2C answer of the repository test's gateway stand-in. -/
def testB2cResponse : B2cResponse :=
  { ConversationID := "test_conversation_id"
    OriginatorConversationID := "test_originator_id"
    ResponseDescription := "Success"
    json := "ConversationID: test_conversation_id" }

/-- A gateway that accepts every request, as the stand-in of the repository
test does. -/
def acceptingGateway : Gateway :=
  { authenticated := true
    stkpush := fun _ => HttpResult.resolved testStkResponse
    b2c := fun _ => HttpResult.resolved testB2cResponse }

/-- A gateway that answers every request with HTTP 400 and its own
`errorMessage`. -/
def refusingGateway : Gateway :=
  { authenticated := true
    stkpush := fun _ =>
      HttpResult.rejectedWithResponse 400 (some "Bad Request - Invalid PhoneNumber")
    b2c := fun _ =>
      HttpResult.rejectedWithResponse 400 (some "Bad Request - Invalid PhoneNumber") }

/-- A gateway that cannot be reached. -/
def silentGateway : Gateway :=
  { authenticated := true
    stkpush := fun _ => HttpResult.rejectedWithoutResponse
    b2c := fun _ => HttpResult.rejectedWithoutResponse }

/-- A stand-in for the validator `isURL` that accepts `https` addresses. -/
def httpsURL (url : String) : Bool :=
  startsWith url "https://"

/-- The request of the repository test `should initiate STK push
successfully`: amount 1000 to `254712345678`. -/
def testRequest : StkPushRequest :=
  { body :=
      { amount := some 100000, phone := some "254712345678"
        account_reference := some "TEST123", transaction_desc := some "Test payment"
        callback_url := none }
    json := "amount: 1000, phone: 254712345678, account_reference: TEST123" }

/-- The request of the repository test `should fail with invalid phone
number`. -/
def invalidPhoneRequest : StkPushRequest :=
  { body :=
      { amount := some 100000, phone := some "invalid"
        account_reference := some "TEST123", transaction_desc := none
        callback_url := none }
    json := "amount: 1000, phone: invalid, account_reference: TEST123" }

/-- The table after the test request has been served once on an empty table
by the gateway stand-in: one PENDING row with checkout id
`test_checkout_id`. -/
def servedOnceStore : Store :=
  [ newPending 1 (some "test_checkout_id") (some "test_merchant_id") 100000 "254712345678"
      (some "TEST123") (some testRequest.json) (some testStkResponse.json)
      exampleMoment.now ]

/-- The test request with another amount, in hundredths. -/
def requestWithAmount (hundredths : Int) : StkPushRequest :=
  { testRequest with body := { testRequest.body with amount := some hundredths } }

/-- The test request with another phone. -/
def requestWithPhone (phone : String) : StkPushRequest :=
  { testRequest with body := { testRequest.body with phone := some phone } }

/-- A B2C payment of 500 to a phone. -/
def b2cRequestTo (phone : String) : B2cRequest :=
  { body :=
      { amount := some 50000, phone := some phone, remarks := some "Refund"
        occasion := none }
    json := "amount: 500, remarks: Refund" }

/-! ## Predicates used in the statements -/

/-- The row with the four columns a failure callback writes blanked out. -/
def blankCallbackColumns (t : Transaction) : Transaction :=
  { t with status := Status.PENDING, result_code := none, result_desc := none
           callback_payload := none }

/-- The row without its raw callback payload. -/
def dropPayload (t : Transaction) : Transaction :=
  { t with callback_payload := none }

/-- The callback `cb` with `items` as its `CallbackMetadata.Item`. -/
def withItems (cb : StkCallback) (items : List MetadataItem) : StkCallback :=
  { cb with CallbackMetadata := some ⟨some items⟩ }


/-- No entry of `others` has the reference of `e`. -/
def matchesNone {α : Type} (others : List (Entry α)) (e : Entry α) : Bool :=
  others.all (fun o => !(o.reference == e.reference))

/-- The MISSING entry for a ledger entry without a mobile-money match. -/
def missingInMpesa {α : Type} (e : Entry α) : Discrepancy α :=
  Discrepancy.MISSING e.reference e.amount "Transaction found in SAP but not in M-Pesa"

/-- The MISSING entry for a mobile-money entry without a ledger match. -/
def missingInSap {α : Type} (e : Entry α) : Discrepancy α :=
  Discrepancy.MISSING e.reference e.amount "Transaction found in M-Pesa but not in SAP"

/-- The discrepancy is a MISSING entry. -/
def Discrepancy.isMissing {α : Type} : Discrepancy α → Bool
  | Discrepancy.MISSING _ _ _ => true
  | Discrepancy.AMOUNT_MISMATCH _ _ _ _ => false

/-- What the first loop of `findDiscrepancies` appends for one ledger entry. -/
def sapEmits {α : Type} (diff : α → α → Double) (mpesaData : List (Entry α))
    (sapTransaction : Entry α) : List (Discrepancy α) :=
  sapStep diff mpesaData [] sapTransaction

/-- The total is the exact decimal sum of the amounts: `total` counts units of
`2^-1074` and the amounts count hundredths. -/
def exactTotal (total : Double) (transactions : List Transaction) : Bool :=
  decide (total.units * 100 = (transactions.map (fun t => t.amount)).sum * unitsPerOne)

/-- The rows are in ascending order of creation time. -/
def ascending (transactions : List Transaction) : Prop :=
  transactions.Pairwise (fun a b => a.created_at ≤ b.created_at)

/-- The attribute names `sequelize.define('Transaction', ...)` declares
(Transaction.js, lines 5-91). -/
def modelAttributes : List String :=
  [ "id", "checkout_request_id", "merchant_request_id", "conversation_id",
    "originator_conversation_id", "mpesa_receipt", "amount", "phone_number",
    "account_reference", "transaction_type", "transaction_date", "result_code",
    "result_desc", "status", "sap_reference", "sap_sync_status", "request_payload",
    "response_payload", "callback_payload", "retry_count", "error_message" ]

/-- The keys of the object `syncTransaction` hands to `transaction.update`
(sapController.js, lines 64-68). -/
def syncUpdateKeys : List String :=
  ["sap_reference", "sap_sync_status", "sap_sync_date"]

/-- Sum of the amounts of the document lines with the given debit/credit code. -/
def totalWithCode (code : String) (doc : DocumentData) : Int :=
  ((doc.items.filter (fun i => i.DebitCreditCode == code)).map
    (fun i => i.AmountInTransactionCurrency)).sum

/-- The rows of `s` to which one store operation writes
`sap_sync_status = SYNCED`. -/
def syncedTargetsOf (s : Store) : StoreOp → List Transaction
  | StoreOp.update id v =>
    if v.sap_sync_status = some SapSyncStatus.SYNCED then s.filter (fun u => u.id == id)
    else []
  | StoreOp.bulkUpdate d v =>
    if v.sap_sync_status = some SapSyncStatus.SYNCED then
      s.filter (fun u => u.sap_reference == some d)
    else []
  | _ => []

/-- The rows of `s` to which the operations of a handler write
`sap_sync_status = SYNCED`. -/
def syncedTargets (s : Store) (ops : List StoreOp) : List Transaction :=
  (ops.map (syncedTargetsOf s)).flatten

/-- The receipt carried by `item` is, as text, already the `mpesa_receipt` of
a row other than `t`. -/
def receiptTaken (s : Store) (t : Transaction) (item : List MetadataItem) : Bool :=
  uniqueViolation s t { mpesa_receipt := valueOf item "MpesaReceiptNumber" }

/-- The `Item` list of a callback, when `CallbackMetadata.Item` is there. -/
def itemsOf (callback : StkCallback) : Option (List MetadataItem) :=
  callback.CallbackMetadata.bind (fun m => m.Item)

/-- The receipt invariant on one row: `mpesa_receipt` is non-null exactly
when `status` is SUCCESS. -/
def receiptIffSuccess (t : Transaction) : Prop :=
  t.mpesa_receipt ≠ none ↔ t.status = Status.SUCCESS

/-- A request that keeps the receipt invariant: any sync request, any
callback that is rejected before the write, a success callback that names a
`MpesaReceiptNumber` with a value, and a failure callback that reaches a
transaction whose status is not SUCCESS. -/
def admissible (s : Store) : Operation → Bool
  | Operation.callback req =>
    match req.Body.bind (fun b => b.stkCallback) with
    | none => true
    | some cb =>
      match findOne s cb.CheckoutRequestID with
      | none => true
      | some t =>
        if cb.ResultCode = 0 then
          match itemsOf cb with
          | none => true
          | some item => (valueOf item "MpesaReceiptNumber").isSome
        else t.status != Status.SUCCESS
  | _ => true

/-- Every request of the sequence is admissible in the table it reaches. -/
def admissibleRun (s : Store) : List Operation → Bool
  | [] => true
  | op :: ops => admissible s op && admissibleRun (step s op) ops

/-- The table a sync handler leaves is the old one with some rows rewritten
by values that carry neither `status` nor `mpesa_receipt`. -/
def SyncShape (s s1 : Store) : Prop :=
  ∃ (c : Transaction → Bool) (v : Values), v.status = none ∧ v.mpesa_receipt = none
    ∧ s1 = s.map (fun u => if c u then u.set v else u)

/-- Primary keys are distinct and every row satisfies the receipt invariant. -/
def StoreInv (s : Store) : Prop :=
  (s.map (fun u => u.id)).Nodup ∧ ∀ t ∈ s, receiptIffSuccess t

/-! ## Lemmas on the store -/

theorem set_checkout_request_id (t : Transaction) (v : Values) :
    (t.set v).checkout_request_id = t.checkout_request_id := rfl

theorem set_id (t : Transaction) (v : Values) : (t.set v).id = t.id := rfl

theorem findOne_map (s : Store) (c : String) (g : Transaction → Transaction)
    (hg : ∀ u, (g u).checkout_request_id = u.checkout_request_id) :
    findOne (s.map g) c = (findOne s c).map g := by
  unfold findOne
  rw [List.find?_map]
  have : ((fun t : Transaction => t.checkout_request_id == some c) ∘ g)
      = (fun t : Transaction => t.checkout_request_id == some c) := by
    funext u
    simp [Function.comp, hg u]
  rw [this]

theorem findOne_update {s s1 : Store} {t : Transaction} {v : Values} {c : String}
    (h : update s t v = some s1) (hf : findOne s c = some t) :
    findOne s1 c = some (t.set v) := by
  unfold update at h
  split at h
  · exact absurd h (by simp)
  · have hs : s1 = s.map (fun u => if u.id = t.id then u.set v else u) := by
      simpa using h.symm
    rw [hs, findOne_map, hf]
    · simp
    · intro u
      split <;> rfl

theorem uniqueViolation_successValues (s : Store) (t : Transaction) (req : CallbackRequest)
    (cb : StkCallback) (item : List MetadataItem) :
    uniqueViolation s t (successValues req cb item) = receiptTaken s t item := rfl

theorem update_failureValues (s : Store) (t : Transaction) (req : CallbackRequest)
    (cb : StkCallback) :
    update s t (failureValues req cb)
      = some (s.map (fun u => if u.id = t.id then u.set (failureValues req cb) else u)) := by
  simp [update, uniqueViolation, failureValues]

theorem update_successValues (s : Store) (t : Transaction) (req : CallbackRequest)
    (cb : StkCallback) (item : List MetadataItem) (h : receiptTaken s t item = false) :
    update s t (successValues req cb item)
      = some (s.map (fun u => if u.id = t.id then u.set (successValues req cb item) else u)) := by
  simp [update, uniqueViolation_successValues, h]

theorem update_successValues_taken (s : Store) (t : Transaction) (req : CallbackRequest)
    (cb : StkCallback) (item : List MetadataItem) (h : receiptTaken s t item = true) :
    update s t (successValues req cb item) = none := by
  simp [update, uniqueViolation_successValues, h]

theorem handleCallback_success {s : Store} {req : CallbackRequest} {body : CallbackBody}
    {cb : StkCallback} {t : Transaction} {item : List MetadataItem}
    (hB : req.Body = some body) (hC : body.stkCallback = some cb)
    (hf : findOne s cb.CheckoutRequestID = some t) (h0 : cb.ResultCode = 0)
    (hi : itemsOf cb = some item) (hr : receiptTaken s t item = false) :
    handleCallback s req =
      ⟨callbackProcessed,
        s.map (fun u => if u.id = t.id then u.set (successValues req cb item) else u),
        [StoreOp.findOne cb.CheckoutRequestID,
          StoreOp.update t.id (successValues req cb item)]⟩ := by
  have hi2 : cb.CallbackMetadata.bind (fun m => m.Item) = some item := hi
  simp only [handleCallback, hB, hC, hf, h0, if_true, hi2,
    update_successValues s t req cb item hr]

theorem handleCallback_success_taken {s : Store} {req : CallbackRequest}
    {body : CallbackBody} {cb : StkCallback} {t : Transaction} {item : List MetadataItem}
    (hB : req.Body = some body) (hC : body.stkCallback = some cb)
    (hf : findOne s cb.CheckoutRequestID = some t) (h0 : cb.ResultCode = 0)
    (hi : itemsOf cb = some item) (hr : receiptTaken s t item = true) :
    handleCallback s req =
      ⟨errorProcessingCallback, s,
        [StoreOp.findOne cb.CheckoutRequestID,
          StoreOp.update t.id (successValues req cb item)]⟩ := by
  have hi2 : cb.CallbackMetadata.bind (fun m => m.Item) = some item := hi
  simp only [handleCallback, hB, hC, hf, h0, if_true, hi2,
    update_successValues_taken s t req cb item hr]

theorem handleCallback_failure {s : Store} {req : CallbackRequest} {body : CallbackBody}
    {cb : StkCallback} {t : Transaction}
    (hB : req.Body = some body) (hC : body.stkCallback = some cb)
    (hf : findOne s cb.CheckoutRequestID = some t) (h0 : cb.ResultCode ≠ 0) :
    handleCallback s req =
      ⟨callbackProcessed,
        s.map (fun u => if u.id = t.id then u.set (failureValues req cb) else u),
        [StoreOp.findOne cb.CheckoutRequestID,
          StoreOp.update t.id (failureValues req cb)]⟩ := by
  simp only [handleCallback, hB, hC, hf, h0, if_false, update_failureValues]

/-! ## C1 -/

/-- C1 (as stated, refuted): a callback with `ResultCode` 0 and no
`CallbackMetadata` matches the stored PENDING transaction `ws_CO_1`, yet the
handler answers 500 and the transaction is still PENDING with no
`result_code` and no `result_desc`.  The same happens when the callback
carries the receipt 12345 and another transaction already holds the receipt
`'12345'`: the write is refused. -/
theorem c1_success_without_metadata_stays_pending :
    findOne [pendingRow] "ws_CO_1" = some pendingRow
    ∧ pendingRow.status = Status.PENDING
    ∧ (handleCallback [pendingRow] bareSuccessCallback).response = errorProcessingCallback
    ∧ findOne (handleCallback [pendingRow] bareSuccessCallback).store "ws_CO_1"
        = some pendingRow
    ∧ pendingRow.result_code = none ∧ pendingRow.result_desc = none
    ∧ findOne receiptHeldStore "ws_CO_1" = some pendingRow
    ∧ (handleCallback receiptHeldStore numericReceiptCallback).response
        = errorProcessingCallback
    ∧ (handleCallback receiptHeldStore numericReceiptCallback).store = receiptHeldStore := by
  decide

/-- C1 (amended): for every callback envelope that contains `Body.stkCallback`
and whose `CheckoutRequestID` matches a stored PENDING transaction, provided
that a callback with `ResultCode` 0 carries `CallbackMetadata.Item` and its
receipt is not held by another transaction, `handleCallback` leaves that
transaction with status SUCCESS when `ResultCode` is 0 and FAILED when it is
nonzero, and with the callback's `ResultCode` and `ResultDesc` as
`result_code` and `result_desc`. -/
theorem c1_callback_sets_status_and_result (s : Store) (req : CallbackRequest)
    (body : CallbackBody) (cb : StkCallback) (t : Transaction)
    (hB : req.Body = some body) (hC : body.stkCallback = some cb)
    (hf : findOne s cb.CheckoutRequestID = some t)
    (_hp : t.status = Status.PENDING)
    (hm : cb.ResultCode = 0 → ∃ item, itemsOf cb = some item ∧ receiptTaken s t item = false) :
    ∃ t1, findOne (handleCallback s req).store cb.CheckoutRequestID = some t1
      ∧ (cb.ResultCode = 0 → t1.status = Status.SUCCESS)
      ∧ (cb.ResultCode ≠ 0 → t1.status = Status.FAILED)
      ∧ t1.result_code = some cb.ResultCode
      ∧ t1.result_desc = some cb.ResultDesc := by
  by_cases h0 : cb.ResultCode = 0
  · obtain ⟨item, hi, hr⟩ := hm h0
    have hi2 : cb.CallbackMetadata.bind (fun m => m.Item) = some item := hi
    refine ⟨t.set (successValues req cb item), ?_, ?_, ?_, ?_, ?_⟩
    · have hu := update_successValues s t req cb item hr
      simp only [handleCallback, hB, hC, hf, h0, if_true, hi2, hu]
      exact findOne_update hu hf
    · intro _; rfl
    · intro hne; exact absurd h0 hne
    · rfl
    · rfl
  · refine ⟨t.set (failureValues req cb), ?_, ?_, ?_, ?_, ?_⟩
    · have hu := update_failureValues s t req cb
      simp only [handleCallback, hB, hC, hf, h0, if_false, hu]
      exact findOne_update hu hf
    · intro h; exact absurd h h0
    · intro _; rfl
    · rfl
    · rfl

/-- C1 witness: the success callback of the repository test applied to the
pending transaction `ws_CO_1`. -/
theorem c1_callback_sets_status_and_result_witness :
    findOne [pendingRow] successStk.CheckoutRequestID = some pendingRow
    ∧ pendingRow.status = Status.PENDING
    ∧ ∃ t1, findOne (handleCallback [pendingRow] successCallback).store
          successStk.CheckoutRequestID = some t1
        ∧ (successStk.ResultCode = 0 → t1.status = Status.SUCCESS)
        ∧ (successStk.ResultCode ≠ 0 → t1.status = Status.FAILED)
        ∧ t1.result_code = some successStk.ResultCode
        ∧ t1.result_desc = some successStk.ResultDesc :=
  ⟨by decide, rfl,
    c1_callback_sets_status_and_result [pendingRow] successCallback ⟨some successStk⟩
      successStk pendingRow rfl rfl (by decide) rfl (fun _ => ⟨_, rfl, by decide⟩)⟩

/-! ## C2 -/

theorem set_status_of_none (t : Transaction) (v : Values) (hv : v.status = none) :
    (t.set v).status = t.status := by
  simp [Transaction.set, hv]

theorem set_mpesa_receipt_of_none (t : Transaction) (v : Values)
    (hv : v.mpesa_receipt = none) : (t.set v).mpesa_receipt = t.mpesa_receipt := by
  simp [Transaction.set, hv]

theorem syncShape_refl (s : Store) : SyncShape s s :=
  ⟨fun _ => false, {}, rfl, rfl, by simp⟩

theorem syncShape_bulkUpdate (s : Store) (c : Transaction → Bool) (v : Values)
    (h1 : v.status = none) (h2 : v.mpesa_receipt = none) :
    SyncShape s (bulkUpdate s c v) :=
  ⟨c, v, h1, h2, rfl⟩

theorem syncShape_update {s s1 : Store} {t : Transaction} {v : Values}
    (h1 : v.status = none) (h2 : v.mpesa_receipt = none) (h : update s t v = some s1) :
    SyncShape s s1 := by
  refine ⟨fun u => decide (u.id = t.id), v, h1, h2, ?_⟩
  unfold update at h
  split at h
  · exact absurd h (by simp)
  · simpa using h.symm

theorem syncTransaction_shape (env : SapEnv) (erp : DocumentData → ErpResult) (s : Store)
    (req : SyncRequest) : SyncShape s (syncTransaction env erp s req).store := by
  unfold syncTransaction
  simp only []
  split
  · exact syncShape_refl s
  · split
    · exact syncShape_refl s
    · split
      · exact syncShape_refl s
      · split
        · exact syncShape_refl s
        · split
          · exact syncShape_refl s
          · next h => exact syncShape_update rfl rfl h

theorem retrySapSync_shape (now : Nat) (s : Store) (id : Option Nat) :
    SyncShape s (retrySapSync now s id).store := by
  unfold retrySapSync
  simp only []
  split
  · exact syncShape_refl s
  · split
    · exact syncShape_refl s
    · split
      · exact syncShape_refl s
      · split
        · exact syncShape_refl s
        · next h => exact syncShape_update rfl rfl h

theorem sapHandleCallback_shape (s : Store) (req : SapCallbackRequest) :
    SyncShape s (sapHandleCallback s req).store := by
  unfold sapHandleCallback
  split
  · split
    · exact syncShape_refl s
    · split
      · split
        · exact syncShape_bulkUpdate s _ _ rfl rfl
        · exact syncShape_refl s
      · exact syncShape_refl s
  · split
    · split
      · exact syncShape_refl s
      · split
        · split
          · exact syncShape_bulkUpdate s _ _ rfl rfl
          · exact syncShape_refl s
        · exact syncShape_refl s
    · exact syncShape_refl s

theorem syncShape_id_status {s s1 : Store} (h : SyncShape s s1) :
    s1.map (fun u => (u.id, u.status)) = s.map (fun u => (u.id, u.status)) := by
  obtain ⟨c, v, h1, _, rfl⟩ := h
  rw [List.map_map]
  apply List.map_congr_left
  intro u _
  simp only [Function.comp]
  split
  · simp [set_id, set_status_of_none u v h1]
  · rfl

/-- C2 (as stated, refuted): the transaction `ws_CO_1` is SUCCESS after its
success callback; a later failure callback for the same checkout id is
acknowledged with 200 and leaves it FAILED. -/
theorem c2_failure_callback_overwrites_success :
    (findOne succeededStore "ws_CO_1").map (fun t => t.status) = some Status.SUCCESS
    ∧ (handleCallback succeededStore failureCallback).response = callbackProcessed
    ∧ (findOne (handleCallback succeededStore failureCallback).store "ws_CO_1").map
        (fun t => t.status) = some Status.FAILED := by
  decide

/-- C2 (amended): `syncTransaction`, `retrySapSync` and the SAP callback
handler change the status of no transaction, terminal or not: the table
holds the same ids with the same statuses, row by row, after the operation
as before it.  (`handleCallback` is left out: it has no guard on the
current status.) -/
theorem c2_sync_operations_keep_status (s : Store) :
    (∀ env erp req, (syncTransaction env erp s req).store.map (fun u => (u.id, u.status))
        = s.map (fun u => (u.id, u.status)))
    ∧ (∀ now id, (retrySapSync now s id).store.map (fun u => (u.id, u.status))
        = s.map (fun u => (u.id, u.status)))
    ∧ (∀ req, (sapHandleCallback s req).store.map (fun u => (u.id, u.status))
        = s.map (fun u => (u.id, u.status))) :=
  ⟨fun env erp req => syncShape_id_status (syncTransaction_shape env erp s req),
   fun now id => syncShape_id_status (retrySapSync_shape now s id),
   fun req => syncShape_id_status (sapHandleCallback_shape s req)⟩

/-! ## C3 -/

theorem storeInv_map {s : Store} (g : Transaction → Transaction)
    (hid : ∀ u, (g u).id = u.id)
    (hg : ∀ u ∈ s, receiptIffSuccess u → receiptIffSuccess (g u))
    (h : StoreInv s) : StoreInv (s.map g) := by
  refine ⟨?_, ?_⟩
  · have : (s.map g).map (fun u => u.id) = s.map (fun u => u.id) := by
      rw [List.map_map]
      apply List.map_congr_left
      intro u _
      exact hid u
    rw [this]
    exact h.1
  · intro t ht
    obtain ⟨u, hu, rfl⟩ := List.mem_map.mp ht
    exact hg u hu (h.2 u hu)

theorem storeInv_syncShape {s s1 : Store} (hs : SyncShape s s1) (h : StoreInv s) :
    StoreInv s1 := by
  obtain ⟨c, v, h1, h2, rfl⟩ := hs
  apply storeInv_map _ _ _ h
  · intro u
    split <;> rfl
  · intro u _ hu
    split
    · unfold receiptIffSuccess at *
      rw [set_status_of_none u v h1, set_mpesa_receipt_of_none u v h2]
      exact hu
    · exact hu

theorem storeInv_update {s s1 : Store} {t : Transaction} {v : Values} {c : String}
    (hf : findOne s c = some t) (hu : update s t v = some s1)
    (hg : receiptIffSuccess (t.set v)) (h : StoreInv s) : StoreInv s1 := by
  have ht : t ∈ s := List.mem_of_find?_eq_some hf
  unfold update at hu
  split at hu
  · exact absurd hu (by simp)
  · have hs : s1 = s.map (fun u => if u.id = t.id then u.set v else u) := by
      simpa using hu.symm
    rw [hs]
    apply storeInv_map _ _ _ h
    · intro u
      split <;> rfl
    · intro u hmem hgood
      split
      · next hid =>
        have : u = t := List.inj_on_of_nodup_map h.1 hmem ht hid
        rw [this]
        exact hg
      · exact hgood

theorem storeInv_handleCallback {s : Store} {req : CallbackRequest}
    (ha : admissible s (Operation.callback req) = true) (h : StoreInv s) :
    StoreInv (handleCallback s req).store := by
  cases hB : req.Body with
  | none => simpa only [handleCallback, hB] using h
  | some body =>
    cases hC : body.stkCallback with
    | none => simpa only [handleCallback, hB, hC] using h
    | some cb =>
      cases hf : findOne s cb.CheckoutRequestID with
      | none => simpa only [handleCallback, hB, hC, hf] using h
      | some t =>
        have ht : t ∈ s := List.mem_of_find?_eq_some hf
        have hgt := h.2 t ht
        simp only [admissible, hB, hC, Option.bind, hf] at ha
        by_cases h0 : cb.ResultCode = 0
        · simp only [h0, if_true] at ha
          cases hi : cb.CallbackMetadata.bind (fun m => m.Item) with
          | none => simpa only [handleCallback, hB, hC, hf, h0, if_true, hi] using h
          | some item =>
            cases hu : update s t (successValues req cb item) with
            | none => simpa only [handleCallback, hB, hC, hf, h0, if_true, hi, hu] using h
            | some s1 =>
              simp only [handleCallback, hB, hC, hf, h0, if_true, hi, hu]
              apply storeInv_update hf hu _ h
              have hi2 : itemsOf cb = some item := hi
              rw [hi2] at ha
              obtain ⟨r, hr⟩ := Option.isSome_iff_exists.mp ha
              unfold receiptIffSuccess
              simp [Transaction.set, successValues, hr]
        · simp only [h0, if_false, bne_iff_ne, ne_eq] at ha
          have hnone : t.mpesa_receipt = none := by
            unfold receiptIffSuccess at hgt
            by_contra hne
            exact ha (hgt.mp hne)
          cases hu : update s t (failureValues req cb) with
          | none => simpa only [handleCallback, hB, hC, hf, h0, if_false, hu] using h
          | some s1 =>
            simp only [handleCallback, hB, hC, hf, h0, if_false, hu]
            apply storeInv_update hf hu _ h
            unfold receiptIffSuccess
            simp [Transaction.set, failureValues, hnone]

theorem storeInv_step {s : Store} {op : Operation} (ha : admissible s op = true)
    (h : StoreInv s) : StoreInv (step s op) := by
  cases op with
  | callback req => exact storeInv_handleCallback ha h
  | sync env result req => exact storeInv_syncShape (syncTransaction_shape env _ s req) h
  | retry now id => exact storeInv_syncShape (retrySapSync_shape now s id) h
  | sapCallback req => exact storeInv_syncShape (sapHandleCallback_shape s req) h

theorem storeInv_run (ops : List Operation) : ∀ s : Store, admissibleRun s ops = true →
    StoreInv s → StoreInv (run s ops) := by
  induction ops with
  | nil => intro s _ h; exact h
  | cons op ops ih =>
    intro s ha h
    simp only [admissibleRun, Bool.and_eq_true] at ha
    exact ih (step s op) ha.2 (storeInv_step ha.1 h)

/-- C3 (as stated, refuted): from the new PENDING transaction `ws_CO_1`, a
success callback that names no `MpesaReceiptNumber` leads to status SUCCESS
with a null receipt; and a success callback followed by a failure callback
leads to status FAILED with the receipt `QAX123` still set. -/
theorem c3_receipt_invariant_broken :
    (run [pendingRow] [Operation.callback receiptlessSuccessCallback]).map
        (fun t => (t.status, t.mpesa_receipt)) = [(Status.SUCCESS, none)]
    ∧ (run [pendingRow]
        [Operation.callback successCallback, Operation.callback failureCallback]).map
        (fun t => (t.status, t.mpesa_receipt))
          = [(Status.FAILED, some (Scalar.str "QAX123"))] := by
  decide

/-- C3 (amended): in every state reachable from newly created PENDING
transactions (distinct ids, no receipt) by any sequence of sync operations
and of callbacks in which every success callback names a `MpesaReceiptNumber`
with a value and no failure callback reaches a transaction that is already
SUCCESS, `mpesa_receipt` is non-null if and only if `status` is SUCCESS. -/
theorem c3_receipt_iff_success_on_admissible_runs (s0 : Store) (ops : List Operation)
    (hid : (s0.map (fun u => u.id)).Nodup)
    (h0 : ∀ t ∈ s0, t.status = Status.PENDING ∧ t.mpesa_receipt = none)
    (ha : admissibleRun s0 ops = true) :
    ∀ t ∈ run s0 ops, (t.mpesa_receipt ≠ none ↔ t.status = Status.SUCCESS) := by
  have hinv : StoreInv s0 := by
    refine ⟨hid, ?_⟩
    intro t ht
    obtain ⟨hp, hr⟩ := h0 t ht
    unfold receiptIffSuccess
    rw [hp, hr]
    simp
  exact (storeInv_run ops s0 ha hinv).2

/-- C3 witness: two new PENDING transactions; the first receives a failure
callback, then a success callback with a receipt, and is then synced. -/
theorem c3_receipt_iff_success_on_admissible_runs_witness :
    ([pendingRow, pendingRow2].map (fun u => u.id)).Nodup
    ∧ (∀ t ∈ [pendingRow, pendingRow2], t.status = Status.PENDING ∧ t.mpesa_receipt = none)
    ∧ admissibleRun [pendingRow, pendingRow2]
        [Operation.callback failureCallback, Operation.callback successCallback,
          Operation.retry 1700000000000 (some 1)] = true
    ∧ ∀ t ∈ run [pendingRow, pendingRow2]
        [Operation.callback failureCallback, Operation.callback successCallback,
          Operation.retry 1700000000000 (some 1)],
        (t.mpesa_receipt ≠ none ↔ t.status = Status.SUCCESS) :=
  ⟨by decide, by decide, by decide,
    c3_receipt_iff_success_on_admissible_runs [pendingRow, pendingRow2]
      [Operation.callback failureCallback, Operation.callback successCallback,
        Operation.retry 1700000000000 (some 1)]
      (by decide) (by decide) (by decide)⟩

/-! ## C4 -/

theorem orElse_orElse_self {α : Type} (o : Option α) (x : Option α) :
    (o.orElse fun _ => o.orElse fun _ => x) = o.orElse fun _ => x := by
  cases o <;> rfl

theorem getD_getD_self {α : Type} (o : Option α) (x : α) :
    o.getD (o.getD x) = o.getD x := by
  cases o <;> rfl

theorem set_set (t : Transaction) (v : Values) : (t.set v).set v = t.set v := by
  simp [Transaction.set, orElse_orElse_self, getD_getD_self]

theorem update_idem {s s1 : Store} {t : Transaction} {v : Values}
    (h : update s t v = some s1) : update s1 (t.set v) v = some s1 := by
  unfold update at h
  split at h
  · exact absurd h (by simp)
  · next hv =>
    have hs : s1 = s.map (fun u => if u.id = t.id then u.set v else u) := by
      simpa using h.symm
    have hv2 : uniqueViolation s1 (t.set v) v = uniqueViolation s t v := by
      unfold uniqueViolation
      cases v.mpesa_receipt with
      | none => rfl
      | some r =>
        simp only [hs, List.any_map, set_id]
        congr 1
        funext u
        simp only [Function.comp]
        split
        · next hid => simp [set_id, hid]
        · rfl
    unfold update
    rw [hv2, if_neg hv, hs, List.map_map]
    congr 1
    apply List.map_congr_left
    intro u _
    simp only [Function.comp, set_id]
    split
    · next hid => simp [set_id, hid, set_set]
    · next hid => simp [hid]

/-- C4: callback processing is idempotent.  For every table and every callback
envelope, handling the same envelope a second time on the table the first
call left returns the same response, issues the same store operations and
leaves the same table as the first call. -/
theorem c4_handleCallback_idempotent (s : Store) (req : CallbackRequest) :
    handleCallback (handleCallback s req).store req = handleCallback s req := by
  cases hB : req.Body with
  | none => simp only [handleCallback, hB]
  | some body =>
    cases hC : body.stkCallback with
    | none => simp only [handleCallback, hB, hC]
    | some cb =>
      cases hf : findOne s cb.CheckoutRequestID with
      | none => simp only [handleCallback, hB, hC, hf]
      | some t =>
        by_cases h0 : cb.ResultCode = 0
        · cases hi : cb.CallbackMetadata.bind (fun m => m.Item) with
          | none => simp only [handleCallback, hB, hC, hf, h0, if_true, hi]
          | some item =>
            cases hu : update s t (successValues req cb item) with
            | none => simp only [handleCallback, hB, hC, hf, h0, if_true, hi, hu]
            | some s1 =>
              simp only [handleCallback, hB, hC, hf, h0, if_true, hi, hu,
                findOne_update hu hf, update_idem hu, set_id]
        · cases hu : update s t (failureValues req cb) with
          | none => simp only [handleCallback, hB, hC, hf, h0, if_false, hu]
          | some s1 =>
            simp only [handleCallback, hB, hC, hf, h0, if_false, hu,
              findOne_update hu hf, update_idem hu, set_id]

/-! ## C5 -/

/-- C5: for every request body that lacks `Body` or lacks `Body.stkCallback`,
`handleCallback` answers HTTP 400 with `ResultCode` 1 and `ResultDesc`
'Invalid callback format', issues no store operation (no lookup, no write)
and leaves the table as it was. -/
theorem c5_malformed_callback_rejected (s : Store) (req : CallbackRequest)
    (h : req.Body = none ∨ ∃ body, req.Body = some body ∧ body.stkCallback = none) :
    (handleCallback s req).response = ⟨400, 1, "Invalid callback format"⟩
    ∧ (handleCallback s req).ops = []
    ∧ (handleCallback s req).store = s := by
  rcases h with hB | ⟨body, hB, hC⟩
  · simp only [handleCallback, hB, invalidCallbackFormat, and_self]
  · simp only [handleCallback, hB, hC, invalidCallbackFormat, and_self]

/-- C5 witness: an empty body, on a table holding one pending transaction. -/
theorem c5_malformed_callback_rejected_witness :
    ((⟨none⟩ : CallbackRequest).Body = none
      ∨ ∃ body, (⟨none⟩ : CallbackRequest).Body = some body ∧ body.stkCallback = none)
    ∧ (handleCallback [pendingRow] ⟨none⟩).response = ⟨400, 1, "Invalid callback format"⟩
    ∧ (handleCallback [pendingRow] ⟨none⟩).ops = []
    ∧ (handleCallback [pendingRow] ⟨none⟩).store = [pendingRow] :=
  ⟨Or.inl rfl, c5_malformed_callback_rejected [pendingRow] ⟨none⟩ (Or.inl rfl)⟩

/-! ## C6 -/

/-- C6: for every well-formed callback whose `CheckoutRequestID` matches no
stored transaction, `handleCallback` answers HTTP 404 with `ResultCode` 1
('Transaction not found'); its only store operation is the lookup, and the
table is unchanged: no record is created and none is modified. -/
theorem c6_unknown_checkout_rejected (s : Store) (req : CallbackRequest)
    (body : CallbackBody) (cb : StkCallback)
    (hB : req.Body = some body) (hC : body.stkCallback = some cb)
    (hf : findOne s cb.CheckoutRequestID = none) :
    (handleCallback s req).response = ⟨404, 1, "Transaction not found"⟩
    ∧ (handleCallback s req).ops = [StoreOp.findOne cb.CheckoutRequestID]
    ∧ (handleCallback s req).store = s := by
  simp only [handleCallback, hB, hC, hf, transactionNotFound, and_self]

/-- C6 witness: the success callback for `ws_CO_1` on a table that only holds
`ws_CO_2`. -/
theorem c6_unknown_checkout_rejected_witness :
    findOne [pendingRow2] successStk.CheckoutRequestID = none
    ∧ (handleCallback [pendingRow2] successCallback).response
        = ⟨404, 1, "Transaction not found"⟩
    ∧ (handleCallback [pendingRow2] successCallback).ops
        = [StoreOp.findOne successStk.CheckoutRequestID]
    ∧ (handleCallback [pendingRow2] successCallback).store = [pendingRow2] :=
  ⟨by decide,
    c6_unknown_checkout_rejected [pendingRow2] successCallback ⟨some successStk⟩ successStk
      rfl rfl (by decide)⟩

/-! ## C7 -/

theorem blankCallbackColumns_set_failureValues (u : Transaction) (req : CallbackRequest)
    (cb : StkCallback) :
    blankCallbackColumns (u.set (failureValues req cb)) = blankCallbackColumns u := rfl

/-- C7: for every callback with a nonzero `ResultCode` that matches a stored
transaction, `handleCallback` acknowledges it and changes only `status`,
`result_code`, `result_desc` and `callback_payload`: the matched transaction
becomes the old row with exactly these four columns rewritten, so its
`mpesa_receipt` and `transaction_date` are as before, and every row of the
table agrees with the old row outside these four columns. -/
theorem c7_failure_callback_frame (s : Store) (req : CallbackRequest)
    (body : CallbackBody) (cb : StkCallback) (t : Transaction)
    (hB : req.Body = some body) (hC : body.stkCallback = some cb)
    (hf : findOne s cb.CheckoutRequestID = some t)
    (h0 : cb.ResultCode ≠ 0) :
    (handleCallback s req).response = callbackProcessed
    ∧ findOne (handleCallback s req).store cb.CheckoutRequestID
        = some { t with status := Status.FAILED
                        result_code := some cb.ResultCode
                        result_desc := some cb.ResultDesc
                        callback_payload := some req }
    ∧ (∀ t1, findOne (handleCallback s req).store cb.CheckoutRequestID = some t1 →
        t1.mpesa_receipt = t.mpesa_receipt ∧ t1.transaction_date = t.transaction_date)
    ∧ (handleCallback s req).store.map blankCallbackColumns = s.map blankCallbackColumns := by
  have hu := update_failureValues s t req cb
  have hfind := findOne_update hu hf
  simp only [handleCallback, hB, hC, hf, h0, if_false, hu, true_and]
  refine ⟨hfind, ?_, ?_⟩
  · intro t1 ht1
    rw [hfind] at ht1
    cases ht1
    exact ⟨rfl, rfl⟩
  · rw [List.map_map]
    apply List.map_congr_left
    intro u _
    simp only [Function.comp]
    split
    · exact blankCallbackColumns_set_failureValues u req cb
    · rfl

/-- C7 witness: the failure callback for `ws_CO_1` arriving after its success
callback; the receipt `QAX123` stays. -/
theorem c7_failure_callback_frame_witness :
    findOne succeededStore failureStk.CheckoutRequestID = some succeededRow
    ∧ failureStk.ResultCode ≠ 0
    ∧ (∀ t1, findOne (handleCallback succeededStore failureCallback).store
          failureStk.CheckoutRequestID = some t1 →
        t1.mpesa_receipt = succeededRow.mpesa_receipt
        ∧ t1.transaction_date = succeededRow.transaction_date) :=
  ⟨by decide, by decide,
    (c7_failure_callback_frame succeededStore failureCallback ⟨some failureStk⟩ failureStk
      succeededRow rfl rfl (by decide) (by decide)).2.2.1⟩

/-! ## C8 -/

theorem find?_name_perm {l1 l2 : List MetadataItem} (hp : l1.Perm l2)
    (hn : (l1.map (fun i => i.Name)).Nodup) (name : String) :
    l1.find? (fun i => i.Name == name) = l2.find? (fun i => i.Name == name) := by
  cases h1 : l1.find? (fun i => i.Name == name) with
  | none =>
    symm
    rw [List.find?_eq_none] at h1 ⊢
    intro x hx
    exact h1 x (hp.mem_iff.mpr hx)
  | some x =>
    have hx1 : x ∈ l1 := List.mem_of_find?_eq_some h1
    have hpx := List.find?_some h1
    cases h2 : l2.find? (fun i => i.Name == name) with
    | none =>
      rw [List.find?_eq_none] at h2
      exact absurd hpx (h2 x (hp.mem_iff.mp hx1))
    | some y =>
      have hy1 : y ∈ l1 := hp.mem_iff.mpr (List.mem_of_find?_eq_some h2)
      have hpy := List.find?_some h2
      have hxy : x.Name = y.Name := by
        simp only [beq_iff_eq] at hpx hpy
        rw [hpx, hpy]
      rw [List.inj_on_of_nodup_map hn hx1 hy1 hxy]

theorem valueOf_perm {l1 l2 : List MetadataItem} (hp : l1.Perm l2)
    (hn : (l1.map (fun i => i.Name)).Nodup) (name : String) :
    valueOf l1 name = valueOf l2 name := by
  unfold valueOf
  rw [find?_name_perm hp hn name]

theorem valueOf_of_mem {l : List MetadataItem} (hn : (l.map (fun i => i.Name)).Nodup)
    {name : String} {v : Option Scalar} (h : (⟨name, v⟩ : MetadataItem) ∈ l) :
    valueOf l name = v := by
  unfold valueOf
  cases h1 : l.find? (fun i => i.Name == name) with
  | none =>
    rw [List.find?_eq_none] at h1
    exact absurd (by simp) (h1 _ h)
  | some x =>
    have hx1 : x ∈ l := List.mem_of_find?_eq_some h1
    have hpx := List.find?_some h1
    simp only [beq_iff_eq] at hpx
    have : x = ⟨name, v⟩ := List.inj_on_of_nodup_map hn hx1 h hpx
    rw [this]
    rfl

theorem dropPayload_set_successValues (u : Transaction) (req1 req2 : CallbackRequest)
    (cb1 cb2 : StkCallback) (l1 l2 : List MetadataItem)
    (hc : cb1.ResultCode = cb2.ResultCode) (hd : cb1.ResultDesc = cb2.ResultDesc)
    (hv : ∀ name, valueOf l1 name = valueOf l2 name) :
    dropPayload (u.set (successValues req1 cb1 l1))
      = dropPayload (u.set (successValues req2 cb2 l2)) := by
  simp [dropPayload, Transaction.set, successValues, hc, hd, hv]

theorem dropPayload_set_failureValues (u : Transaction) (req1 req2 : CallbackRequest)
    (cb1 cb2 : StkCallback)
    (hc : cb1.ResultCode = cb2.ResultCode) (hd : cb1.ResultDesc = cb2.ResultDesc) :
    dropPayload (u.set (failureValues req1 cb1))
      = dropPayload (u.set (failureValues req2 cb2)) := by
  simp [dropPayload, Transaction.set, failureValues, hc, hd]

theorem handleCallback_withItems_perm (s : Store) (cb : StkCallback)
    (items1 items2 : List MetadataItem)
    (hv : ∀ name, valueOf items1 name = valueOf items2 name) :
    (handleCallback s (envelope (withItems cb items1))).response
        = (handleCallback s (envelope (withItems cb items2))).response
    ∧ (handleCallback s (envelope (withItems cb items1))).store.map dropPayload
        = (handleCallback s (envelope (withItems cb items2))).store.map dropPayload := by
  have hr : ∀ t, receiptTaken s t items1 = receiptTaken s t items2 := by
    intro t
    simp only [receiptTaken, hv]
  cases hf : findOne s cb.CheckoutRequestID with
  | none => simp [handleCallback, envelope, withItems, hf]
  | some t =>
    have hf1 : findOne s (withItems cb items1).CheckoutRequestID = some t := hf
    have hf2 : findOne s (withItems cb items2).CheckoutRequestID = some t := hf
    by_cases h0 : cb.ResultCode = 0
    · have h01 : (withItems cb items1).ResultCode = 0 := h0
      have h02 : (withItems cb items2).ResultCode = 0 := h0
      cases ht : receiptTaken s t items2 with
      | true =>
        have e1 : handleCallback s (envelope (withItems cb items1)) = _ :=
          handleCallback_success_taken rfl rfl hf1 h01 rfl ((hr t).trans ht)
        have e2 : handleCallback s (envelope (withItems cb items2)) = _ :=
          handleCallback_success_taken rfl rfl hf2 h02 rfl ht
        rw [e1, e2]
        exact ⟨rfl, rfl⟩
      | false =>
        have e1 : handleCallback s (envelope (withItems cb items1)) = _ :=
          handleCallback_success rfl rfl hf1 h01 rfl ((hr t).trans ht)
        have e2 : handleCallback s (envelope (withItems cb items2)) = _ :=
          handleCallback_success rfl rfl hf2 h02 rfl ht
        rw [e1, e2]
        refine ⟨rfl, ?_⟩
        simp only [List.map_map]
        apply List.map_congr_left
        intro u _
        simp only [Function.comp]
        split
        · exact dropPayload_set_successValues u _ _ _ _ _ _ rfl rfl hv
        · rfl
    · have h01 : (withItems cb items1).ResultCode ≠ 0 := h0
      have h02 : (withItems cb items2).ResultCode ≠ 0 := h0
      have e1 : handleCallback s (envelope (withItems cb items1)) = _ :=
        handleCallback_failure rfl rfl hf1 h01
      have e2 : handleCallback s (envelope (withItems cb items2)) = _ :=
        handleCallback_failure rfl rfl hf2 h02
      rw [e1, e2]
      refine ⟨rfl, ?_⟩
      simp only [List.map_map]
      apply List.map_congr_left
      intro u _
      simp only [Function.comp]
      split
      · exact dropPayload_set_failureValues u _ _ _ _ rfl rfl
      · rfl

/-- C8 (as stated, refuted): the same four items with distinct names in two
orders leave the transaction `ws_CO_1` with different `callback_payload`
fields, because the envelope is stored as received; the two tables differ.
And when another transaction already holds the receipt `'12345'`, a callback
whose `MpesaReceiptNumber` is 12345 is answered with 500 and the transaction
keeps no receipt. -/
theorem c8_payload_keeps_the_order_received :
    datedItems.Perm datedItemsShuffled
    ∧ (datedItems.map (fun i => i.Name)).Nodup
    ∧ (findOne (handleCallback [pendingRow]
          (envelope (withItems successStk datedItems))).store "ws_CO_1").map
          (fun t => t.callback_payload)
        = some (some (envelope (withItems successStk datedItems)))
    ∧ (findOne (handleCallback [pendingRow]
          (envelope (withItems successStk datedItemsShuffled))).store "ws_CO_1").map
          (fun t => t.callback_payload)
        = some (some (envelope (withItems successStk datedItemsShuffled)))
    ∧ envelope (withItems successStk datedItems)
        ≠ envelope (withItems successStk datedItemsShuffled)
    ∧ (handleCallback [pendingRow] (envelope (withItems successStk datedItems))).store
        ≠ (handleCallback [pendingRow]
            (envelope (withItems successStk datedItemsShuffled))).store
    ∧ (handleCallback receiptHeldStore numericReceiptCallback).response
        = errorProcessingCallback
    ∧ (findOne (handleCallback receiptHeldStore numericReceiptCallback).store "ws_CO_1").map
          (fun t => t.mpesa_receipt) = some none := by
  decide

/-- C8 (amended): on a success callback the receipt and the completion date
are looked up by item name, not by position.  For two `Item` lists that are permutations
of each other and have distinct names, the handler gives the same response and
leaves tables that agree in every column except the raw `callback_payload`
(which stores the envelope as received); and when the callback matches a
transaction, has `ResultCode` 0 and its receipt is not held by another
transaction, the stored `mpesa_receipt` is the `Value` of the item named
`MpesaReceiptNumber` and the stored `transaction_date` the `Value` of the item
named `TransactionDate`. -/
theorem c8_items_looked_up_by_name (s : Store) (cb : StkCallback)
    (items1 items2 : List MetadataItem)
    (hp : items1.Perm items2) (hn : (items1.map (fun i => i.Name)).Nodup) :
    (handleCallback s (envelope (withItems cb items1))).response
        = (handleCallback s (envelope (withItems cb items2))).response
    ∧ (handleCallback s (envelope (withItems cb items1))).store.map dropPayload
        = (handleCallback s (envelope (withItems cb items2))).store.map dropPayload
    ∧ (∀ t, findOne s cb.CheckoutRequestID = some t → cb.ResultCode = 0 →
        receiptTaken s t items1 = false →
        ∃ t1, findOne (handleCallback s (envelope (withItems cb items1))).store
              cb.CheckoutRequestID = some t1
          ∧ t1.status = Status.SUCCESS
          ∧ (∀ v, (⟨"MpesaReceiptNumber", some v⟩ : MetadataItem) ∈ items1 →
              t1.mpesa_receipt = some v)
          ∧ (∀ v, (⟨"TransactionDate", some v⟩ : MetadataItem) ∈ items1 →
              t1.transaction_date = some v)) := by
  obtain ⟨h1, h2⟩ := handleCallback_withItems_perm s cb items1 items2
    (fun name => valueOf_perm hp hn name)
  refine ⟨h1, h2, ?_⟩
  intro t hf h0 hr
  have hf1 : findOne s (withItems cb items1).CheckoutRequestID = some t := hf
  have h01 : (withItems cb items1).ResultCode = 0 := h0
  have e1 : handleCallback s (envelope (withItems cb items1)) = _ :=
    handleCallback_success rfl rfl hf1 h01 rfl hr
  have hu := update_successValues s t (envelope (withItems cb items1))
    (withItems cb items1) items1 hr
  refine ⟨t.set (successValues (envelope (withItems cb items1)) (withItems cb items1) items1),
    ?_, rfl, ?_, ?_⟩
  · rw [e1]
    exact findOne_update hu hf
  · intro v hv
    simp [Transaction.set, successValues, valueOf_of_mem hn hv]
  · intro v hv
    simp [Transaction.set, successValues, valueOf_of_mem hn hv]

/-- C8 witness: the items of a success callback for `ws_CO_1` in two orders. -/
theorem c8_items_looked_up_by_name_witness :
    datedItems.Perm datedItemsShuffled
    ∧ (datedItems.map (fun i => i.Name)).Nodup
    ∧ (handleCallback [pendingRow] (envelope (withItems successStk datedItems))).store.map
          dropPayload
        = (handleCallback [pendingRow]
            (envelope (withItems successStk datedItemsShuffled))).store.map dropPayload :=
  ⟨by decide, by decide,
    (c8_items_looked_up_by_name [pendingRow] successStk datedItems datedItemsShuffled
      (by decide) (by decide)).2.1⟩

/-! ## C9 -/

/-- C9 (as stated, refuted): a callback with `ResultCode` 0 whose
`CallbackMetadata` has no `Item` contains `Body.stkCallback` and matches the
stored transaction `ws_CO_1`, yet the handler answers HTTP 500 with
`ResultCode` 1, 'Error processing callback'.  So does a success callback
with the receipt 12345 when another transaction already holds the receipt
`'12345'`. -/
theorem c9_itemless_success_not_acknowledged :
    findOne [pendingRow] "ws_CO_1" = some pendingRow
    ∧ (handleCallback [pendingRow] itemlessSuccessCallback).response
        = ⟨500, 1, "Error processing callback"⟩
    ∧ findOne receiptHeldStore "ws_CO_1" = some pendingRow
    ∧ (handleCallback receiptHeldStore numericReceiptCallback).response
        = ⟨500, 1, "Error processing callback"⟩ := by
  decide

/-- C9 (amended): for every callback envelope that contains `Body.stkCallback`
and whose `CheckoutRequestID` matches a stored transaction, provided that a
callback with `ResultCode` 0 carries `CallbackMetadata.Item` and its receipt is
not held by another transaction, the handler acknowledges with HTTP 200 and
the envelope `ResultCode` 0, 'Callback processed successfully', whether the
callback reports success or failure. -/
theorem c9_matched_callback_acknowledged (s : Store) (req : CallbackRequest)
    (body : CallbackBody) (cb : StkCallback) (t : Transaction)
    (hB : req.Body = some body) (hC : body.stkCallback = some cb)
    (hf : findOne s cb.CheckoutRequestID = some t)
    (hm : cb.ResultCode = 0 → ∃ item, itemsOf cb = some item ∧ receiptTaken s t item = false) :
    (handleCallback s req).response = ⟨200, 0, "Callback processed successfully"⟩ := by
  by_cases h0 : cb.ResultCode = 0
  · obtain ⟨item, hi, hr⟩ := hm h0
    rw [handleCallback_success hB hC hf h0 hi hr]
    rfl
  · rw [handleCallback_failure hB hC hf h0]
    rfl

/-- C9 witness: the success callback of the repository test for the pending
transaction `ws_CO_1`, on a table where another transaction holds another
receipt, so that the callback's items are there and its receipt `QAX123` is
free; and the failure callback for the same transaction. -/
theorem c9_matched_callback_acknowledged_witness :
    findOne receiptHeldStore successStk.CheckoutRequestID = some pendingRow
    ∧ successStk.ResultCode = 0
    ∧ (∃ item, itemsOf successStk = some item
        ∧ receiptTaken receiptHeldStore pendingRow item = false)
    ∧ (handleCallback receiptHeldStore successCallback).response
        = ⟨200, 0, "Callback processed successfully"⟩
    ∧ findOne [pendingRow] failureStk.CheckoutRequestID = some pendingRow
    ∧ (handleCallback [pendingRow] failureCallback).response
        = ⟨200, 0, "Callback processed successfully"⟩ :=
  ⟨by decide, rfl, ⟨_, rfl, by decide⟩,
    c9_matched_callback_acknowledged receiptHeldStore successCallback ⟨some successStk⟩
      successStk pendingRow rfl rfl (by decide) (fun _ => ⟨_, rfl, by decide⟩),
    by decide,
    c9_matched_callback_acknowledged [pendingRow] failureCallback ⟨some failureStk⟩
      failureStk pendingRow rfl rfl (by decide) (fun h => absurd h (by decide))⟩

/-! ## C10 -/

/-- C10: `syncTransaction` checks its preconditions in a fixed order and the
first failure wins.  A missing transaction yields 404 'Transaction not found';
otherwise a transaction whose status is not SUCCESS yields 400 'Only
successful transactions can be synced with SAP', whatever its
`sap_sync_status`; otherwise a transaction whose `sap_sync_status` is SYNCED
yields 400 'Transaction already synced with SAP'.  In all three cases the only
store operation is the lookup, no ERP call is made and the table is
unchanged.  `retrySapSync` checks the same preconditions in the same order. -/
theorem c10_sync_preconditions_in_order (env : SapEnv) (erp : DocumentData → ErpResult)
    (now : Nat) (s : Store) (req : SyncRequest) :
    (findByPk? s req.transaction_id = none →
      syncTransaction env erp s req
          = ⟨some syncNotFound, s, [StoreOp.findByPk req.transaction_id], []⟩
      ∧ retrySapSync now s req.transaction_id
          = ⟨some syncNotFound, s, [StoreOp.findByPk req.transaction_id], []⟩)
    ∧ (∀ t, findByPk? s req.transaction_id = some t → t.status ≠ Status.SUCCESS →
      syncTransaction env erp s req
          = ⟨some syncNotSuccessful, s, [StoreOp.findByPk req.transaction_id], []⟩
      ∧ retrySapSync now s req.transaction_id
          = ⟨some syncNotSuccessful, s, [StoreOp.findByPk req.transaction_id], []⟩)
    ∧ (∀ t, findByPk? s req.transaction_id = some t → t.status = Status.SUCCESS →
      t.sap_sync_status = SapSyncStatus.SYNCED →
      syncTransaction env erp s req
          = ⟨some syncAlreadySynced, s, [StoreOp.findByPk req.transaction_id], []⟩
      ∧ retrySapSync now s req.transaction_id
          = ⟨some syncAlreadySynced, s, [StoreOp.findByPk req.transaction_id], []⟩) := by
  refine ⟨?_, ?_, ?_⟩
  · intro h
    simp only [syncTransaction, retrySapSync, h, and_self]
  · intro t h hs
    simp only [syncTransaction, retrySapSync, h, hs, ne_eq, not_false_eq_true, if_true,
      and_self]
  · intro t h hs hy
    simp only [syncTransaction, retrySapSync, h, hs, hy, ne_eq, not_true_eq_false, if_false,
      if_true, and_self]

/-- C10 witness: on a table with a pending, a failed-but-SYNCED and a
SUCCESS-and-SYNCED transaction, a sync of an unknown id is answered 404, a
sync of the failed-but-SYNCED one is answered with the not-successful error,
and a sync of the SUCCESS-and-SYNCED one with the already-synced error. -/
theorem c10_sync_preconditions_in_order_witness :
    (findByPk? syncStore (some 9) = none
      ∧ (syncTransaction exampleEnv erpCreates syncStore (syncRequestFor 9)).response
          = some ⟨404, false, "Transaction not found", none, none⟩)
    ∧ (findByPk? syncStore (some 3) = some failedSyncedRow
      ∧ failedSyncedRow.status ≠ Status.SUCCESS
      ∧ failedSyncedRow.sap_sync_status = SapSyncStatus.SYNCED
      ∧ syncTransaction exampleEnv erpCreates syncStore (syncRequestFor 3)
          = ⟨some syncNotSuccessful, syncStore, [StoreOp.findByPk (some 3)], []⟩)
    ∧ (findByPk? syncStore (some 4) = some syncedRow
      ∧ syncedRow.status = Status.SUCCESS
      ∧ syncedRow.sap_sync_status = SapSyncStatus.SYNCED
      ∧ syncTransaction exampleEnv erpCreates syncStore (syncRequestFor 4)
          = ⟨some syncAlreadySynced, syncStore, [StoreOp.findByPk (some 4)], []⟩) :=
  ⟨⟨by decide,
      congrArg SyncOutcome.response
        ((c10_sync_preconditions_in_order exampleEnv erpCreates 0 syncStore
          (syncRequestFor 9)).1 (by decide)).1⟩,
    ⟨by decide, by decide, by decide,
      ((c10_sync_preconditions_in_order exampleEnv erpCreates 0 syncStore
        (syncRequestFor 3)).2.1 failedSyncedRow (by decide) (by decide)).1⟩,
    ⟨by decide, by decide, by decide,
      ((c10_sync_preconditions_in_order exampleEnv erpCreates 0 syncStore
        (syncRequestFor 4)).2.2 syncedRow (by decide) (by decide) (by decide)).1⟩⟩

/-! ## Lemmas on the sync handlers -/

theorem findByPk_map (s : Store) (id : Nat) (g : Transaction → Transaction)
    (hg : ∀ u, (g u).id = u.id) :
    findByPk (s.map g) id = (findByPk s id).map g := by
  unfold findByPk
  rw [List.find?_map]
  have : ((fun t : Transaction => t.id == id) ∘ g) = (fun t : Transaction => t.id == id) := by
    funext u
    simp [Function.comp, hg u]
  rw [this]

theorem findByPk?_map (s : Store) (id : Option Nat) (g : Transaction → Transaction)
    (hg : ∀ u, (g u).id = u.id) :
    findByPk? (s.map g) id = (findByPk? s id).map g := by
  cases id with
  | none => rfl
  | some i => exact findByPk_map s i g hg

theorem findByPk?_id {s : Store} {id : Option Nat} {t : Transaction}
    (h : findByPk? s id = some t) : id = some t.id := by
  cases id with
  | none => exact absurd h (by simp [findByPk?])
  | some i =>
    have := List.find?_some (show List.find? (fun u : Transaction => u.id == i) s = some t from h)
    simp only [beq_iff_eq] at this
    rw [this]

theorem update_syncedValues (s : Store) (t : Transaction) (d : Option String) :
    update s t (syncedValues d)
      = some (s.map (fun u => if u.id = t.id then u.set (syncedValues d) else u)) := by
  simp [update, uniqueViolation, syncedValues]

theorem syncTransaction_created {env : SapEnv} {erp : DocumentData → ErpResult} {s : Store}
    {req : SyncRequest} {t : Transaction} {d : Option String}
    (hf : findByPk? s req.transaction_id = some t) (hs : t.status = Status.SUCCESS)
    (hn : t.sap_sync_status ≠ SapSyncStatus.SYNCED)
    (he : erp (buildDocument env req t) = ErpResult.created d) :
    syncTransaction env erp s req =
      ⟨some { status := 200, success := true
              message := "Transaction synced with SAP successfully"
              sap_reference := d
              transaction := some ⟨t.id, t.amount, t.mpesa_receipt⟩ },
        s.map (fun u => if u.id = t.id then u.set (syncedValues d) else u),
        [StoreOp.findByPk req.transaction_id, StoreOp.update t.id (syncedValues d)],
        [buildDocument env req t]⟩ := by
  simp only [syncTransaction, hf, hs, ne_eq, not_true_eq_false, if_false, hn, he,
    update_syncedValues, List.cons_append, List.nil_append]

theorem syncTransaction_failed {env : SapEnv} {erp : DocumentData → ErpResult} {s : Store}
    {req : SyncRequest} {t : Transaction} {m : String}
    (hf : findByPk? s req.transaction_id = some t) (hs : t.status = Status.SUCCESS)
    (hn : t.sap_sync_status ≠ SapSyncStatus.SYNCED)
    (he : erp (buildDocument env req t) = ErpResult.failed m) :
    syncTransaction env erp s req =
      ⟨none, s, [StoreOp.findByPk req.transaction_id], [buildDocument env req t]⟩ := by
  simp only [syncTransaction, hf, hs, ne_eq, not_true_eq_false, if_false, hn, he]

theorem syncTransaction_synced {env : SapEnv} {erp : DocumentData → ErpResult} {s : Store}
    {req : SyncRequest} {t : Transaction}
    (hf : findByPk? s req.transaction_id = some t) (hs : t.status = Status.SUCCESS)
    (hy : t.sap_sync_status = SapSyncStatus.SYNCED) :
    syncTransaction env erp s req =
      ⟨some syncAlreadySynced, s, [StoreOp.findByPk req.transaction_id], []⟩ := by
  simp only [syncTransaction, hf, hs, hy, ne_eq, not_true_eq_false, if_false, if_true]

/-! ## C11 -/

/-- C11: for every SUCCESS transaction that is not yet SYNCED, when the ERP
creates the document on the first sync, a second sync of the same
transaction (whatever the ERP would answer) returns 400 'Transaction already
synced with SAP', makes no ERP call, issues no write and leaves the table,
and so `sap_reference` and `sap_sync_status`, as the first call set them: the
first call is the only transition to SYNCED. -/
theorem c11_second_sync_already_synced (env env2 : SapEnv)
    (erp erp2 : DocumentData → ErpResult) (s : Store) (req req2 : SyncRequest)
    (t : Transaction) (d : Option String)
    (hf : findByPk? s req.transaction_id = some t) (hs : t.status = Status.SUCCESS)
    (hn : t.sap_sync_status ≠ SapSyncStatus.SYNCED)
    (he : erp (buildDocument env req t) = ErpResult.created d)
    (hid : req2.transaction_id = req.transaction_id) :
    (syncTransaction env erp s req).ops
        = [StoreOp.findByPk req.transaction_id, StoreOp.update t.id (syncedValues d)]
    ∧ findByPk? (syncTransaction env erp s req).store req.transaction_id
        = some { t with sap_reference := d.orElse (fun _ => t.sap_reference)
                        sap_sync_status := SapSyncStatus.SYNCED }
    ∧ syncTransaction env2 erp2 (syncTransaction env erp s req).store req2
        = ⟨some syncAlreadySynced, (syncTransaction env erp s req).store,
            [StoreOp.findByPk req.transaction_id], []⟩ := by
  have h1 := syncTransaction_created hf hs hn he
  have hfind : findByPk? (syncTransaction env erp s req).store req.transaction_id
      = some (t.set (syncedValues d)) := by
    rw [h1]
    simp only []
    rw [findByPk?_map, hf]
    · simp
    · intro u
      split <;> rfl
  refine ⟨by rw [h1], ?_, ?_⟩
  · rw [hfind]
    rfl
  · have hfind2 : findByPk? (syncTransaction env erp s req).store req2.transaction_id
        = some (t.set (syncedValues d)) := by
      rw [hid]
      exact hfind
    have hs2 : (t.set (syncedValues d)).status = Status.SUCCESS := hs
    have hy2 : (t.set (syncedValues d)).sap_sync_status = SapSyncStatus.SYNCED := rfl
    rw [syncTransaction_synced hfind2 hs2 hy2, hid]

/-- C11 witness: `ws_CO_1`, paid and not yet synced, is synced twice with an
ERP that answers `DOC-9`. -/
theorem c11_second_sync_already_synced_witness :
    findByPk? paidStore (syncRequestFor 1).transaction_id = some succeededRow
    ∧ succeededRow.status = Status.SUCCESS
    ∧ succeededRow.sap_sync_status ≠ SapSyncStatus.SYNCED
    ∧ syncTransaction exampleEnv erpCreates
          (syncTransaction exampleEnv erpCreates paidStore (syncRequestFor 1)).store
          (syncRequestFor 1)
        = ⟨some syncAlreadySynced,
            (syncTransaction exampleEnv erpCreates paidStore (syncRequestFor 1)).store,
            [StoreOp.findByPk (some 1)], []⟩ :=
  ⟨by decide, by decide, by decide,
    (c11_second_sync_already_synced exampleEnv exampleEnv erpCreates erpCreates paidStore
      (syncRequestFor 1) (syncRequestFor 1) succeededRow (some "DOC-9")
      (by decide) (by decide) (by decide) rfl rfl).2.2⟩

/-! ## C12 -/

/-- C12 (the code at the failing input): `ws_CO_1` is SUCCESS and not yet
SYNCED, and the ERP call throws.  The handler sends no response and writes
nothing: the row still has `sap_sync_status = PENDING` and no
`error_message`. -/
theorem c12_failed_erp_call_leaves_no_trace :
    findByPk? paidStore (some 1) = some succeededRow
    ∧ succeededRow.status = Status.SUCCESS
    ∧ succeededRow.sap_sync_status = SapSyncStatus.PENDING
    ∧ (syncTransaction exampleEnv erpFails paidStore (syncRequestFor 1)).response = none
    ∧ (syncTransaction exampleEnv erpFails paidStore (syncRequestFor 1)).ops
        = [StoreOp.findByPk (some 1)]
    ∧ (syncTransaction exampleEnv erpFails paidStore (syncRequestFor 1)).store = paidStore
    ∧ (findByPk? (syncTransaction exampleEnv erpFails paidStore (syncRequestFor 1)).store
          (some 1)).map (fun u => (u.sap_sync_status, u.error_message))
        = some (SapSyncStatus.PENDING, none) := by
  decide

/-! ## C13 -/

/-- C13 (the code at the failing input): `ws_CO_1` is SUCCESS and not yet
SYNCED, and the ERP returns `DOC-9`.  The row afterwards is the old row with
`sap_reference = DOC-9` and `sap_sync_status = SYNCED` and nothing else
changed; of the three keys handed to `transaction.update`, `sap_sync_date`
is not an attribute of the model, so no sync date is stored. -/
theorem c13_sync_stores_no_sync_date :
    findByPk? (syncTransaction exampleEnv erpCreates paidStore (syncRequestFor 1)).store
        (some 1)
      = some { succeededRow with sap_reference := some "DOC-9"
                                 sap_sync_status := SapSyncStatus.SYNCED }
    ∧ syncUpdateKeys.filter (fun k => modelAttributes.contains k)
        = ["sap_reference", "sap_sync_status"]
    ∧ "sap_sync_date" ∉ modelAttributes := by
  decide

/-! ## C14 -/

/-- C14: the accounting document `syncTransaction` submits for a SUCCESS
transaction that is not yet SYNCED has exactly two items: a debit line
(`DebitCreditCode` 'S') on the configured cash account and a credit line
('H') on the configured revenue account.  Both carry the transaction's
amount, so the debit total equals the credit total, and both carry as
`Assignment` the transaction's `account_reference`, or its `phone_number`
when `account_reference` is absent. -/
theorem c14_document_is_balanced (env : SapEnv) (erp : DocumentData → ErpResult)
    (s : Store) (req : SyncRequest) (t : Transaction)
    (hf : findByPk? s req.transaction_id = some t) (hs : t.status = Status.SUCCESS)
    (hn : t.sap_sync_status ≠ SapSyncStatus.SYNCED) :
    (syncTransaction env erp s req).erpCalls = [buildDocument env req t]
    ∧ (buildDocument env req t).items =
        [ { Account := env.SAP_CASH_ACCOUNT, AmountInTransactionCurrency := t.amount
            DebitCreditCode := "S", BusinessArea := env.SAP_BUSINESS_AREA
            CostCenter := env.SAP_COST_CENTER, Assignment := assignmentOf t },
          { Account := env.SAP_REVENUE_ACCOUNT, AmountInTransactionCurrency := t.amount
            DebitCreditCode := "H", BusinessArea := env.SAP_BUSINESS_AREA
            CostCenter := env.SAP_COST_CENTER, Assignment := assignmentOf t } ]
    ∧ totalWithCode "S" (buildDocument env req t) = t.amount
    ∧ totalWithCode "H" (buildDocument env req t) = t.amount
    ∧ (t.account_reference = none → assignmentOf t = t.phone_number)
    ∧ (∀ r, t.account_reference = some r → r ≠ "" → assignmentOf t = r) := by
  refine ⟨?_, rfl, ?_, ?_, ?_, ?_⟩
  · cases he : erp (buildDocument env req t) with
    | failed m => rw [syncTransaction_failed hf hs hn he]
    | created d => rw [syncTransaction_created hf hs hn he]
  · simp [totalWithCode, buildDocument]
  · simp [totalWithCode, buildDocument]
  · intro h
    simp [assignmentOf, h]
  · intro r h hr
    simp [assignmentOf, h, hr]

/-- C14 witness: the document submitted for `ws_CO_1` (amount 1000.00,
account reference `INV001`). -/
theorem c14_document_is_balanced_witness :
    findByPk? paidStore (syncRequestFor 1).transaction_id = some succeededRow
    ∧ succeededRow.status = Status.SUCCESS
    ∧ succeededRow.sap_sync_status ≠ SapSyncStatus.SYNCED
    ∧ totalWithCode "S" (buildDocument exampleEnv (syncRequestFor 1) succeededRow) = 100000
    ∧ totalWithCode "H" (buildDocument exampleEnv (syncRequestFor 1) succeededRow) = 100000 :=
  ⟨by decide, by decide, by decide,
    (c14_document_is_balanced exampleEnv erpCreates paidStore (syncRequestFor 1) succeededRow
      (by decide) (by decide) (by decide)).2.2.1,
    (c14_document_is_balanced exampleEnv erpCreates paidStore (syncRequestFor 1) succeededRow
      (by decide) (by decide) (by decide)).2.2.2.1⟩

/-! ## C15 -/

theorem findByPk?_mem {s : Store} {id : Option Nat} {t : Transaction}
    (h : findByPk? s id = some t) : t ∈ s := by
  cases id with
  | none => exact absurd h (by simp [findByPk?])
  | some i =>
    exact List.mem_of_find?_eq_some
      (show List.find? (fun u : Transaction => u.id == i) s = some t from h)

theorem syncTransaction_not_success {env : SapEnv} {erp : DocumentData → ErpResult}
    {s : Store} {req : SyncRequest} {t : Transaction}
    (hf : findByPk? s req.transaction_id = some t) (hs : t.status ≠ Status.SUCCESS) :
    syncTransaction env erp s req =
      ⟨some syncNotSuccessful, s, [StoreOp.findByPk req.transaction_id], []⟩ := by
  simp only [syncTransaction, hf, hs, ne_eq, not_false_eq_true, if_true]

theorem syncTransaction_targets {s : Store} (hid : (s.map (fun u => u.id)).Nodup)
    (env : SapEnv) (erp : DocumentData → ErpResult) (req : SyncRequest) :
    ∀ u ∈ syncedTargets s (syncTransaction env erp s req).ops, u.status = Status.SUCCESS := by
  intro u hu
  cases hf : findByPk? s req.transaction_id with
  | none => simp [syncTransaction, hf, syncedTargets, syncedTargetsOf] at hu
  | some t =>
    by_cases hs : t.status = Status.SUCCESS
    · by_cases hy : t.sap_sync_status = SapSyncStatus.SYNCED
      · rw [syncTransaction_synced hf hs hy] at hu
        simp [syncedTargets, syncedTargetsOf] at hu
      · cases he : erp (buildDocument env req t) with
        | failed m =>
          rw [syncTransaction_failed hf hs hy he] at hu
          simp [syncedTargets, syncedTargetsOf] at hu
        | created d =>
          rw [syncTransaction_created hf hs hy he] at hu
          simp [syncedTargets, syncedTargetsOf, syncedValues] at hu
          have : u = t := List.inj_on_of_nodup_map hid hu.1 (findByPk?_mem hf) hu.2
          rw [this]
          exact hs
    · rw [syncTransaction_not_success hf hs] at hu
      simp [syncedTargets, syncedTargetsOf] at hu

theorem retrySapSync_written {now : Nat} {s : Store} {id : Option Nat} {t : Transaction}
    (hf : findByPk? s id = some t) (hs : t.status = Status.SUCCESS)
    (hn : t.sap_sync_status ≠ SapSyncStatus.SYNCED) :
    (retrySapSync now s id).ops
      = [StoreOp.findByPk id,
          StoreOp.update t.id (syncedValues (some ("SAP-" ++ toString now)))] := by
  simp only [retrySapSync, hf, hs, ne_eq, not_true_eq_false, if_false, hn,
    update_syncedValues, List.cons_append, List.nil_append]

theorem retrySapSync_targets {s : Store} (hid : (s.map (fun u => u.id)).Nodup)
    (now : Nat) (id : Option Nat) :
    ∀ u ∈ syncedTargets s (retrySapSync now s id).ops, u.status = Status.SUCCESS := by
  intro u hu
  cases hf : findByPk? s id with
  | none => simp [retrySapSync, hf, syncedTargets, syncedTargetsOf] at hu
  | some t =>
    by_cases hs : t.status = Status.SUCCESS
    · by_cases hy : t.sap_sync_status = SapSyncStatus.SYNCED
      · simp [retrySapSync, hf, hs, hy, syncedTargets, syncedTargetsOf] at hu
      · rw [retrySapSync_written hf hs hy] at hu
        simp [syncedTargets, syncedTargetsOf, syncedValues] at hu
        have : u = t := List.inj_on_of_nodup_map hid hu.1 (findByPk?_mem hf) hu.2
        rw [this]
        exact hs
    · simp [retrySapSync, hf, hs, syncedTargets, syncedTargetsOf] at hu

theorem sapHandleCallback_targets (s : Store) (req : SapCallbackRequest) :
    ∀ u ∈ syncedTargets s (sapHandleCallback s req).ops,
      u ∈ s ∧ req.event = some "DOCUMENT_CREATED"
        ∧ ∃ d, req.data.bind (fun x => x.documentId) = some d ∧ u.sap_reference = some d := by
  intro u hu
  unfold sapHandleCallback at hu
  split at hu
  · next hev =>
    split at hu
    · simp [syncedTargets] at hu
    · next data hdata =>
      split at hu
      · next d hd =>
        split at hu
        · simp [syncedTargets, syncedTargetsOf] at hu
          exact ⟨hu.1, hev, d, by simp [hdata, hd], hu.2⟩
        · simp [syncedTargets] at hu
      · simp [syncedTargets] at hu
  · split at hu
    · split at hu
      · simp [syncedTargets] at hu
      · split at hu
        · split at hu
          · simp [syncedTargets, syncedTargetsOf] at hu
          · simp [syncedTargets] at hu
        · simp [syncedTargets] at hu
    · simp [syncedTargets] at hu

/-- C15 (as stated, refuted): `ws_CO_1` was paid, synced as `DOC-9`, reported
in error by SAP and then turned FAILED by a gateway failure callback.  A
later SAP callback `DOCUMENT_CREATED` for `DOC-9` writes
`sap_sync_status = SYNCED` to it while its status is FAILED. -/
theorem c15_sap_callback_syncs_failed_transaction :
    disputedStore.map (fun u => (u.status, u.sap_sync_status, u.sap_reference))
        = [(Status.FAILED, SapSyncStatus.FAILED, some "DOC-9")]
    ∧ (syncedTargets disputedStore (sapHandleCallback disputedStore documentCreated).ops).map
        (fun u => u.status) = [Status.FAILED]
    ∧ (sapHandleCallback disputedStore documentCreated).store.map
        (fun u => (u.status, u.sap_sync_status)) = [(Status.FAILED, SapSyncStatus.SYNCED)] := by
  decide

/-- C15 (amended): in a table with distinct primary keys, every transaction
to which `syncTransaction` or `retrySapSync` writes `sap_sync_status =
SYNCED` has status SUCCESS at the time of the write.  The SAP callback
handler writes SYNCED only in its `DOCUMENT_CREATED` branch and only to the
stored transactions whose `sap_reference` equals the callback's
`documentId`, without looking at their status; they all have status SUCCESS
when every stored transaction that holds a `sap_reference` has. -/
theorem c15_synced_only_written_to_success (s : Store)
    (hid : (s.map (fun u => u.id)).Nodup) :
    (∀ env erp req, ∀ u ∈ syncedTargets s (syncTransaction env erp s req).ops,
        u.status = Status.SUCCESS)
    ∧ (∀ now id, ∀ u ∈ syncedTargets s (retrySapSync now s id).ops,
        u.status = Status.SUCCESS)
    ∧ (∀ req, ∀ u ∈ syncedTargets s (sapHandleCallback s req).ops,
        u ∈ s ∧ req.event = some "DOCUMENT_CREATED"
          ∧ ∃ d, req.data.bind (fun x => x.documentId) = some d ∧ u.sap_reference = some d)
    ∧ ((∀ u ∈ s, u.sap_reference ≠ none → u.status = Status.SUCCESS) →
        ∀ req, ∀ u ∈ syncedTargets s (sapHandleCallback s req).ops,
          u.status = Status.SUCCESS) := by
  refine ⟨fun env erp req => syncTransaction_targets hid env erp req,
    fun now id => retrySapSync_targets hid now id,
    fun req => sapHandleCallback_targets s req, ?_⟩
  intro hall req u hu
  obtain ⟨hmem, _, d, _, hd⟩ := sapHandleCallback_targets s req u hu
  exact hall u hmem (by rw [hd]; simp)

/-- C15 witness: the table with a pending, a failed-but-synced and a synced
transaction has distinct primary keys; syncing the pending one writes SYNCED
to no transaction. -/
theorem c15_synced_only_written_to_success_witness :
    (syncStore.map (fun u => u.id)).Nodup
    ∧ ∀ u ∈ syncedTargets syncStore
        (syncTransaction exampleEnv erpCreates syncStore (syncRequestFor 1)).ops,
        u.status = Status.SUCCESS :=
  ⟨by decide,
    (c15_synced_only_written_to_success syncStore (by decide)).1 exampleEnv erpCreates
      (syncRequestFor 1)⟩

/-! ## Lemmas on `findDiscrepancies` -/

theorem find?_reference_eq_none {α : Type} (others : List (Entry α)) (e : Entry α) :
    others.find? (fun o => o.reference == e.reference) = none ↔ matchesNone others e = true := by
  simp [matchesNone, List.find?_eq_none]

theorem find?_reference_isSome {α : Type} {others : List (Entry α)} {e m : Entry α}
    (h : others.find? (fun o => o.reference == e.reference) = some m) :
    matchesNone others e = false := by
  cases hm : matchesNone others e with
  | false => rfl
  | true =>
    rw [(find?_reference_eq_none others e).mpr hm] at h
    exact absurd h (by simp)

theorem sapStep_eq_append {α : Type} (diff : α → α → Double) (mpesaData : List (Entry α))
    (acc : List (Discrepancy α)) (e : Entry α) :
    sapStep diff mpesaData acc e = acc ++ sapEmits diff mpesaData e := by
  unfold sapEmits sapStep
  split
  · simp
  · split <;> simp

theorem foldl_sapStep {α : Type} (diff : α → α → Double) (mpesaData : List (Entry α))
    (sapData : List (Entry α)) (acc : List (Discrepancy α)) :
    sapData.foldl (sapStep diff mpesaData) acc
      = acc ++ (sapData.map (sapEmits diff mpesaData)).flatten := by
  induction sapData generalizing acc with
  | nil => simp
  | cons e rest ih =>
    simp only [List.foldl_cons, List.map_cons, List.flatten_cons]
    rw [ih, sapStep_eq_append, List.append_assoc]

theorem foldl_mpesaStep {α : Type} (sapData : List (Entry α))
    (mpesaData : List (Entry α)) (acc : List (Discrepancy α)) :
    mpesaData.foldl (mpesaStep sapData) acc
      = acc ++ (mpesaData.filter (matchesNone sapData)).map missingInSap := by
  induction mpesaData generalizing acc with
  | nil => simp
  | cons e rest ih =>
    simp only [List.foldl_cons]
    rw [ih]
    unfold mpesaStep
    split
    · next h =>
      have hm := (find?_reference_eq_none sapData e).mp h
      simp [List.filter_cons, hm, missingInSap]
    · next m h =>
      have hm := find?_reference_isSome h
      simp [List.filter_cons, hm]

theorem findDiscrepancies_eq {α : Type} (diff : α → α → Double)
    (sapData mpesaData : List (Entry α)) :
    findDiscrepancies diff sapData mpesaData
      = (sapData.map (sapEmits diff mpesaData)).flatten
        ++ (mpesaData.filter (matchesNone sapData)).map missingInSap := by
  unfold findDiscrepancies
  rw [foldl_mpesaStep, foldl_sapStep, List.nil_append]

theorem filter_isMissing_sapEmits {α : Type} (diff : α → α → Double)
    (mpesaData sapData : List (Entry α)) :
    ((sapData.map (sapEmits diff mpesaData)).flatten).filter Discrepancy.isMissing
      = (sapData.filter (matchesNone mpesaData)).map missingInMpesa := by
  induction sapData with
  | nil => simp
  | cons e rest ih =>
    simp only [List.map_cons, List.flatten_cons, List.filter_append, ih]
    unfold sapEmits sapStep
    split
    · next h =>
      have hm := (find?_reference_eq_none mpesaData e).mp h
      simp [List.filter_cons, hm, missingInMpesa, Discrepancy.isMissing]
    · next m h =>
      have hm := find?_reference_isSome h
      split <;> simp [List.filter_cons, hm, Discrepancy.isMissing]

theorem filter_isMissing_missingInSap {α : Type} (l : List (Entry α)) :
    (l.map missingInSap).filter Discrepancy.isMissing = l.map missingInSap := by
  induction l with
  | nil => rfl
  | cons e rest ih => simp [List.filter_cons, missingInSap, Discrepancy.isMissing]

/-! ## C16 -/

/-- C16: discrepancy detection is symmetric.  For every ledger list and every
mobile-money list, the MISSING entries of `findDiscrepancies` are, in order,
one entry for each ledger entry whose reference matches no mobile-money entry
followed by one entry for each mobile-money entry whose reference matches no
ledger entry, and no others.  For ledger `A` (100) and mobile-money `B` (200)
the result is exactly these two MISSING entries and no AMOUNT_MISMATCH. -/
theorem c16_missing_entries_symmetric :
    (∀ (α : Type) (diff : α → α → Double) (sapData mpesaData : List (Entry α)),
      (findDiscrepancies diff sapData mpesaData).filter Discrepancy.isMissing
        = (sapData.filter (matchesNone mpesaData)).map missingInMpesa
          ++ (mpesaData.filter (matchesNone sapData)).map missingInSap)
    ∧ findDiscrepancies absDiff [ledgerA] [mobileB]
        = [ Discrepancy.MISSING (some "A") (Double.ofRatio 100 1)
              "Transaction found in SAP but not in M-Pesa",
            Discrepancy.MISSING (some "B") (Double.ofRatio 200 1)
              "Transaction found in M-Pesa but not in SAP" ] := by
  refine ⟨?_, ?_⟩
  · intro α diff sapData mpesaData
    rw [findDiscrepancies_eq, List.filter_append, filter_isMissing_sapEmits,
      filter_isMissing_missingInSap]
  · rw [findDiscrepancies_eq]
    rfl

/-! ## C18 -/

/-- C18: with no ledger data, `findDiscrepancies([], M)` returns exactly one
MISSING entry per element of `M`, in the order of `M`, with that element's
reference and amount, and no AMOUNT_MISMATCH entry.
`generateReconciliationReport` returns this list for the day's transactions
together with the summary and the transactions of `dailyReconciliation`. -/
theorem c18_everything_missing_without_ledger :
    (∀ (α : Type) (diff : α → α → Double) (mpesaData : List (Entry α)),
      findDiscrepancies diff [] mpesaData
        = mpesaData.map (fun e => Discrepancy.MISSING e.reference e.amount
            "Transaction found in M-Pesa but not in SAP"))
    ∧ (∀ (now : Nat) (s : Store) (date : Nat),
      (generateReconciliationReport now s date).discrepancies
          = (dailyReconciliation s date).transactions.map
              (fun t => Discrepancy.MISSING none t.amount
                "Transaction found in M-Pesa but not in SAP")
      ∧ (generateReconciliationReport now s date).summary
          = (dailyReconciliation s date).summary
      ∧ (generateReconciliationReport now s date).transactions
          = (dailyReconciliation s date).transactions) := by
  have h : ∀ (α : Type) (diff : α → α → Double) (mpesaData : List (Entry α)),
      findDiscrepancies diff [] mpesaData
        = mpesaData.map (fun e => Discrepancy.MISSING e.reference e.amount
            "Transaction found in M-Pesa but not in SAP") := by
    intro α diff mpesaData
    rw [findDiscrepancies_eq]
    have hall : mpesaData.filter (matchesNone []) = mpesaData := by
      apply List.filter_eq_self.mpr
      intro e _
      rfl
    rw [hall]
    rfl
  refine ⟨h, ?_⟩
  intro now s date
  refine ⟨?_, rfl, rfl⟩
  simp only [generateReconciliationReport, h, List.map_map]
  rfl

/-! ## C17 -/

theorem mem_sapEmits_mismatch {α : Type} {diff : α → α → Double}
    {mpesaData : List (Entry α)} {e : Entry α} {d : Discrepancy α}
    (hd : d ∈ sapEmits diff mpesaData e) (hm : d.isMissing = false) :
    ∃ m, mpesaData.find? (fun o => o.reference == e.reference) = some m
      ∧ (diff e.amount m.amount).gt tolerance = true
      ∧ d = Discrepancy.AMOUNT_MISMATCH e.reference e.amount m.amount
              (diff e.amount m.amount) := by
  unfold sapEmits sapStep at hd
  split at hd
  · simp only [List.nil_append, List.mem_singleton] at hd
    rw [hd] at hm
    exact absurd hm (by simp [Discrepancy.isMissing])
  · next m h =>
    split at hd
    · next hg =>
      simp only [List.nil_append, List.mem_singleton] at hd
      exact ⟨m, h, hg, hd⟩
    · exact absurd hd (by simp)

theorem sapEmits_of_exceeds {α : Type} {diff : α → α → Double}
    {mpesaData : List (Entry α)} {e m : Entry α}
    (h : mpesaData.find? (fun o => o.reference == e.reference) = some m)
    (hg : (diff e.amount m.amount).gt tolerance = true) :
    sapEmits diff mpesaData e
      = [Discrepancy.AMOUNT_MISMATCH e.reference e.amount m.amount
          (diff e.amount m.amount)] := by
  simp [sapEmits, sapStep, h, hg]

theorem mem_findDiscrepancies_mismatch {α : Type} {diff : α → α → Double}
    {sapData mpesaData : List (Entry α)} {d : Discrepancy α}
    (hd : d ∈ findDiscrepancies diff sapData mpesaData) (hm : d.isMissing = false) :
    ∃ e ∈ sapData, ∃ m, mpesaData.find? (fun o => o.reference == e.reference) = some m
      ∧ (diff e.amount m.amount).gt tolerance = true
      ∧ d = Discrepancy.AMOUNT_MISMATCH e.reference e.amount m.amount
              (diff e.amount m.amount) := by
  rw [findDiscrepancies_eq, List.mem_append] at hd
  rcases hd with hd | hd
  · simp only [List.mem_flatten, List.mem_map] at hd
    obtain ⟨l, ⟨e, he, rfl⟩, hdl⟩ := hd
    exact ⟨e, he, mem_sapEmits_mismatch hdl hm⟩
  · simp only [List.mem_map] at hd
    obtain ⟨e, _, rfl⟩ := hd
    exact absurd hm (by simp [missingInSap, Discrepancy.isMissing])

/-- C17 (as stated, refuted): ledger amount 100.02 against mobile-money amount
100.00 raises one AMOUNT_MISMATCH, but the difference it carries is the
number `0.01999999999999602`, not `0.02`. -/
theorem c17_difference_is_not_two_hundredths :
    findDiscrepancies absDiff [ledgerY] [mobileY]
        = [Discrepancy.AMOUNT_MISMATCH (some "Y") (Double.ofRatio 10002 100)
            (Double.ofRatio 10000 100) almostTwoHundredths]
    ∧ almostTwoHundredths ≠ Double.ofRatio 2 100 := by
  decide

/-- C17 (amended): for every ledger entry and the mobile-money entry found for
its reference, `findDiscrepancies` emits an AMOUNT_MISMATCH entry if and only
if `Math.abs` of the difference of the two amounts, as computed on JavaScript
numbers, exceeds `0.01`; that entry carries the reference, both amounts and
this computed difference, and there are no other AMOUNT_MISMATCH entries.
On JavaScript numbers 100.00 against 100.005 raises none, and 100.02 against
100.00 raises one whose difference is `0.01999999999999602`. -/
theorem c17_amount_mismatch_beyond_tolerance :
    (∀ (α : Type) (diff : α → α → Double) (sapData mpesaData : List (Entry α)),
      (∀ e ∈ sapData, ∀ m,
        mpesaData.find? (fun o => o.reference == e.reference) = some m →
        ((diff e.amount m.amount).gt tolerance = true ↔
          Discrepancy.AMOUNT_MISMATCH e.reference e.amount m.amount
            (diff e.amount m.amount) ∈ findDiscrepancies diff sapData mpesaData))
      ∧ (∀ d ∈ findDiscrepancies diff sapData mpesaData, d.isMissing = false →
        ∃ e ∈ sapData, ∃ m,
          mpesaData.find? (fun o => o.reference == e.reference) = some m
          ∧ (diff e.amount m.amount).gt tolerance = true
          ∧ d = Discrepancy.AMOUNT_MISMATCH e.reference e.amount m.amount
                  (diff e.amount m.amount)))
    ∧ findDiscrepancies absDiff [ledgerX] [mobileXNear] = []
    ∧ findDiscrepancies absDiff [ledgerY] [mobileY]
        = [Discrepancy.AMOUNT_MISMATCH (some "Y") (Double.ofRatio 10002 100)
            (Double.ofRatio 10000 100) almostTwoHundredths] := by
  refine ⟨?_, by decide, by decide⟩
  intro α diff sapData mpesaData
  refine ⟨?_, fun d hd hm => mem_findDiscrepancies_mismatch hd hm⟩
  intro e he m hf
  constructor
  · intro hg
    rw [findDiscrepancies_eq, List.mem_append]
    left
    simp only [List.mem_flatten, List.mem_map]
    exact ⟨_, ⟨e, he, rfl⟩, by rw [sapEmits_of_exceeds hf hg]; simp⟩
  · intro hd
    obtain ⟨e1, _, m1, _, hg1, heq⟩ := mem_findDiscrepancies_mismatch hd rfl
    injection heq with _ h2 h3 _
    rw [h2, h3]
    exact hg1

/-- C17 witness: ledger `Y` (100.02) finds mobile-money `Y` (100.00); the
computed difference exceeds `0.01` and the entry is in the result. -/
theorem c17_amount_mismatch_beyond_tolerance_witness :
    ledgerY ∈ [ledgerY]
    ∧ [mobileY].find? (fun o => o.reference == ledgerY.reference) = some mobileY
    ∧ ((absDiff ledgerY.amount mobileY.amount).gt tolerance = true ↔
        Discrepancy.AMOUNT_MISMATCH ledgerY.reference ledgerY.amount mobileY.amount
          (absDiff ledgerY.amount mobileY.amount)
          ∈ findDiscrepancies absDiff [ledgerY] [mobileY]) :=
  ⟨by simp, by decide,
    (c17_amount_mismatch_beyond_tolerance.1 Double absDiff [ledgerY] [mobileY]).1
      ledgerY (by simp) mobileY (by decide)⟩

/-! ## Lemmas on JavaScript numbers -/

theorem excessBits_le (j : Nat) : ∀ (fuel a : Nat), a < 9007199254740992 →
    excessBits fuel (a * 2 ^ j) ≤ j := by
  induction j with
  | zero =>
    intro fuel a ha
    cases fuel with
    | zero => simp [excessBits]
    | succ f => simp [excessBits, ha]
  | succ j ih =>
    intro fuel a ha
    cases fuel with
    | zero => simp [excessBits]
    | succ f =>
      unfold excessBits
      split
      · exact Nat.zero_le _
      · have h2 : a * 2 ^ (j + 1) / 2 = a * 2 ^ j := by
          rw [pow_succ, ← Nat.mul_assoc]
          exact Nat.mul_div_cancel _ (by norm_num)
        rw [h2]
        exact Nat.succ_le_succ (ih f a ha)

theorem roundNearestEven_exact (a j den : Nat) (ha : a < 9007199254740992) (hden : 0 < den) :
    roundNearestEven (a * 2 ^ j * den) den = a * 2 ^ j := by
  unfold roundNearestEven
  have hq : a * 2 ^ j * den / den = a * 2 ^ j := Nat.mul_div_cancel _ hden
  simp only [hq]
  have hk := excessBits_le j 2200 a ha
  generalize excessBits 2200 (a * 2 ^ j) = k at hk
  obtain ⟨i, rfl⟩ := Nat.exists_eq_add_of_le hk
  have hm : a * 2 ^ (k + i) = a * 2 ^ i * 2 ^ k := by
    rw [pow_add]; ring
  have hd : den <<< k = den * 2 ^ k := Nat.shiftLeft_eq _ _
  have hnum : a * 2 ^ (k + i) * den = a * 2 ^ i * (den * 2 ^ k) := by
    rw [hm]; ring
  have hdpos : 0 < den * 2 ^ k := Nat.mul_pos hden (by positivity)
  rw [hd, hnum, Nat.mul_div_cancel _ hdpos, Nat.mul_mod_left]
  have h1 : ¬ den * 2 ^ k < 2 * 0 := by simp
  have h2 : ¬ 2 * 0 = den * 2 ^ k := by omega
  simp only [h1, h2, if_false, Nat.add_zero, Nat.shiftLeft_eq]
  rw [hm]

theorem roundNearestEven_shift (n den j : Nat) (hn : n < 9007199254740992) (hden : 0 < den) :
    roundNearestEven (n * den * (1 <<< j)) den = n * (1 <<< j) := by
  have h := roundNearestEven_exact n j den hn hden
  have e1 : n * den * (1 <<< j) = n * 2 ^ j * den := by
    rw [Nat.shiftLeft_eq]; ring
  have e2 : n * (1 <<< j) = n * 2 ^ j := by
    rw [Nat.shiftLeft_eq]; ring
  rw [e1, e2]
  exact h

theorem roundNearestEven_whole (n den : Nat) (hn : n < 9007199254740992) (hden : 0 < den) :
    roundNearestEven (n * den * unitsPerOne) den = n * unitsPerOne :=
  roundNearestEven_shift n den 1074 hn hden

theorem parseFloat_whole (n : Nat) (hn : n < 9007199254740992) :
    parseFloat ((100 * n : Nat) : Int) = ⟨((n * unitsPerOne : Nat) : Int)⟩ := by
  unfold parseFloat Double.ofRatio
  have hneg : ¬ (((100 * n : Nat) : Int) < 0) := by omega
  rw [if_neg hneg, Int.natAbs_ofNat, Nat.mul_comm 100 n,
    roundNearestEven_whole n 100 hn (by norm_num)]

theorem add_whole (a b : Nat) (h : a + b < 9007199254740992) :
    Double.add ⟨((a * unitsPerOne : Nat) : Int)⟩ ⟨((b * unitsPerOne : Nat) : Int)⟩
      = ⟨(((a + b) * unitsPerOne : Nat) : Int)⟩ := by
  unfold Double.add Double.round
  have e : ((a * unitsPerOne : Nat) : Int) + ((b * unitsPerOne : Nat) : Int)
      = (((a + b) * 1 * unitsPerOne : Nat) : Int) := by
    push_cast; ring
  simp only [e]
  have hneg : ¬ ((((a + b) * 1 * unitsPerOne : Nat) : Int) < 0) := by omega
  rw [if_neg hneg, Int.natAbs_ofNat, roundNearestEven_whole (a + b) 1 h (by norm_num)]

theorem foldl_whole (l : List Transaction) : ∀ (S : Nat),
    (∀ t ∈ l, 0 ≤ t.amount ∧ (100 : Int) ∣ t.amount) →
    (S : Int) * 100 + (l.map (fun t => t.amount)).sum < 100 * 9007199254740992 →
    (l.foldl (fun (sum : Double) (tx : Transaction) => sum.add (parseFloat tx.amount))
        ⟨((S * unitsPerOne : Nat) : Int)⟩).units * 100
      = ((S : Int) * 100 + (l.map (fun t => t.amount)).sum) * unitsPerOne := by
  induction l with
  | nil =>
    intro S _ _
    simp only [List.foldl_nil, List.map_nil, List.sum_nil, add_zero]
    push_cast; ring
  | cons t rest ih =>
    intro S hall hlt
    obtain ⟨h0, n', hn'⟩ := hall t (List.mem_cons_self _ _)
    have hrest : ∀ u ∈ rest, 0 ≤ u.amount ∧ (100 : Int) ∣ u.amount :=
      fun u hu => hall u (List.mem_cons_of_mem _ hu)
    have hsum0 : 0 ≤ (rest.map (fun t => t.amount)).sum := by
      apply List.sum_nonneg
      intro x hx
      obtain ⟨u, hu, rfl⟩ := List.mem_map.mp hx
      exact (hrest u hu).1
    obtain ⟨n, rfl⟩ : ∃ n : Nat, n' = (n : Int) := ⟨n'.toNat, by omega⟩
    simp only [List.map_cons, List.sum_cons] at hlt
    have hn : n < 9007199254740992 := by omega
    have hSn : S + n < 9007199254740992 := by omega
    have ht : t.amount = ((100 * n : Nat) : Int) := by rw [hn']; push_cast; ring
    simp only [List.foldl_cons, List.map_cons, List.sum_cons]
    rw [ht, parseFloat_whole n hn, add_whole S n hSn]
    rw [ih (S + n) hrest (by push_cast; omega)]
    push_cast; ring

theorem totalAmount_whole (l : List Transaction)
    (hall : ∀ t ∈ l, 0 ≤ t.amount ∧ (100 : Int) ∣ t.amount)
    (hlt : (l.map (fun t => t.amount)).sum < 100 * 9007199254740992) :
    (totalAmount l).units * 100 = (l.map (fun t => t.amount)).sum * unitsPerOne := by
  have h := foldl_whole l 0 hall (by simpa using hlt)
  simpa [totalAmount, Double.zero] using h

/-! ## Lemmas on the reconciliation queries -/

theorem mem_findAllBetween {s : Store} {cond : Transaction → Bool} {lo hi : Nat}
    {t : Transaction} :
    t ∈ findAllBetween s cond lo hi
      ↔ t ∈ s ∧ cond t = true ∧ lo ≤ t.created_at ∧ t.created_at ≤ hi := by
  unfold findAllBetween
  rw [List.mem_insertionSort, List.mem_filter]
  simp

theorem ascending_findAllBetween (s : Store) (cond : Transaction → Bool) (lo hi : Nat) :
    ascending (findAllBetween s cond lo hi) := by
  haveI : IsTotal Transaction (fun a b => a.created_at ≤ b.created_at) :=
    ⟨fun a b => Nat.le_total a.created_at b.created_at⟩
  haveI : IsTrans Transaction (fun a b => a.created_at ≤ b.created_at) :=
    ⟨fun _ _ _ hab hbc => Nat.le_trans hab hbc⟩
  exact List.sorted_insertionSort (fun a b : Transaction => a.created_at ≤ b.created_at) _

theorem findAllBetween_filter (s : Store) (cond : Transaction → Bool) (lo hi : Nat) :
    findAllBetween (s.filter cond) cond lo hi = findAllBetween s cond lo hi := by
  unfold findAllBetween
  rw [List.filter_filter]
  congr 1
  apply List.filter_congr
  intro t _
  cases cond t <;> simp

/-! ## C19 -/

/-- C19 (as stated, refuted): for a day with two SUCCESS transactions of
amounts 0.10 and 0.20 the report counts 2 transactions, but its
`total_amount` is the number `0.30000000000000004`, which is neither the
exact decimal sum 0.30 nor the number `0.3`. -/
theorem c19_total_amount_drifts :
    (getReconciliation 0 dimeStore (some exampleDate)).total_transactions = 2
    ∧ (getReconciliation 0 dimeStore (some exampleDate)).total_amount
        = Double.ofRatio 30000000000000004 100000000000000000
    ∧ exactTotal (getReconciliation 0 dimeStore (some exampleDate)).total_amount
        (getReconciliation 0 dimeStore (some exampleDate)).transactions = false
    ∧ (getReconciliation 0 dimeStore (some exampleDate)).total_amount
        ≠ Double.ofRatio 30 100 := by
  decide

/-- C19 (amended): for every list of transactions selected for a date, in
`getReconciliation` and in `dailyReconciliation`, `total_transactions` equals
the number of transactions and `total_amount` is the sum of the amounts
accumulated from 0 in list order on JavaScript numbers.  That sum equals the
exact decimal sum whenever every amount is a whole non-negative number and
the exact sum is below `2^53`.  For amounts 1000, 2500.50 and 300 the report
has `total_transactions = 3` and `total_amount = 3800.50`, exactly. -/
theorem c19_totals_of_the_selected_transactions :
    (∀ (now : Nat) (s : Store) (date : Option Nat),
      (getReconciliation now s date).total_transactions
          = (getReconciliation now s date).transactions.length
      ∧ (getReconciliation now s date).total_amount
          = totalAmount (getReconciliation now s date).transactions)
    ∧ (∀ (s : Store) (date : Nat),
      (dailyReconciliation s date).summary.total_transactions
          = (dailyReconciliation s date).transactions.length
      ∧ (dailyReconciliation s date).summary.total_amount
          = totalAmount (dailyReconciliation s date).transactions)
    ∧ (∀ transactions : List Transaction,
      (∀ t ∈ transactions, 0 ≤ t.amount ∧ (100 : Int) ∣ t.amount) →
      (transactions.map (fun t => t.amount)).sum < 100 * 9007199254740992 →
      exactTotal (totalAmount transactions) transactions = true)
    ∧ (getReconciliation 0 dayStore (some exampleDate)).transactions.map
          (fun t => t.amount) = [100000, 250050, 30000]
    ∧ (getReconciliation 0 dayStore (some exampleDate)).total_transactions = 3
    ∧ (getReconciliation 0 dayStore (some exampleDate)).total_amount
        = Double.ofRatio 380050 100
    ∧ exactTotal (getReconciliation 0 dayStore (some exampleDate)).total_amount
        (getReconciliation 0 dayStore (some exampleDate)).transactions = true := by
  refine ⟨fun _ _ _ => ⟨rfl, rfl⟩, fun _ _ => ⟨rfl, rfl⟩, ?_, by decide, by decide,
    by decide, by decide⟩
  intro transactions hall hlt
  simp only [exactTotal, decide_eq_true_eq]
  exact totalAmount_whole transactions hall hlt

/-- C19 witness: three whole amounts 1000, 300 and 50. -/
theorem c19_totals_of_the_selected_transactions_witness :
    (∀ t ∈ [dayRow 11 "ws_D_1" 100000 Status.SUCCESS 0,
          dayRow 13 "ws_D_3" 30000 Status.SUCCESS 1, dayRow 14 "ws_D_4" 5000 Status.FAILED 2],
        0 ≤ t.amount ∧ (100 : Int) ∣ t.amount)
    ∧ exactTotal
        (totalAmount [dayRow 11 "ws_D_1" 100000 Status.SUCCESS 0,
          dayRow 13 "ws_D_3" 30000 Status.SUCCESS 1, dayRow 14 "ws_D_4" 5000 Status.FAILED 2])
        [dayRow 11 "ws_D_1" 100000 Status.SUCCESS 0,
          dayRow 13 "ws_D_3" 30000 Status.SUCCESS 1, dayRow 14 "ws_D_4" 5000 Status.FAILED 2]
        = true :=
  ⟨by decide,
    c19_totals_of_the_selected_transactions.2.2.1 _ (by decide) (by decide)⟩

/-! ## C20 -/

/-- C20 (as stated, refuted): `ReconciliationService.dailyReconciliation`, for
a day whose only transaction is FAILED, counts it in `total_transactions`,
adds its amount 50 into `total_amount` and returns it in its list. -/
theorem c20_daily_reconciliation_counts_failed :
    (dailyReconciliation failedDayStore exampleDate).summary.total_transactions = 1
    ∧ (dailyReconciliation failedDayStore exampleDate).summary.total_amount
        = Double.ofRatio 50 1
    ∧ (dailyReconciliation failedDayStore exampleDate).transactions.map
        (fun t => t.status) = [Status.FAILED] := by
  decide

/-- C20 (amended): every transaction that `getReconciliation` counts in
`total_transactions`, adds into `total_amount` or returns in its list has
status SUCCESS, the list is ordered by creation time ascending, and the
PENDING, FAILED and CANCELLED transactions contribute nothing: the answer is
the same as on the table without them.  `dailyReconciliation` also returns
its list ordered by creation time ascending, but it selects the day's
transactions of every status and counts them all. -/
theorem c20_reconciliation_selects_success (s : Store) :
    (∀ (now : Nat) (date : Option Nat),
      (∀ t ∈ (getReconciliation now s date).transactions, t.status = Status.SUCCESS)
      ∧ ascending (getReconciliation now s date).transactions
      ∧ getReconciliation now (s.filter (fun t => t.status == Status.SUCCESS)) date
          = getReconciliation now s date)
    ∧ (∀ date : Nat,
      ascending (dailyReconciliation s date).transactions
      ∧ (∀ t, t ∈ (dailyReconciliation s date).transactions
          ↔ t ∈ s ∧ startOfDay date ≤ t.created_at ∧ t.created_at ≤ endOfDay date)) := by
  refine ⟨?_, ?_⟩
  · intro now date
    refine ⟨?_, ?_, ?_⟩
    · intro t ht
      simp only [getReconciliation, List.mem_map] at ht
      obtain ⟨u, hu, rfl⟩ := ht
      have := (mem_findAllBetween.mp hu).2.1
      simpa [excludePayloads] using this
    · simp only [getReconciliation]
      exact List.Pairwise.map excludePayloads (fun _ _ h => h)
        (ascending_findAllBetween s _ _ _)
    · simp only [getReconciliation, findAllBetween_filter]
  · intro date
    refine ⟨ascending_findAllBetween s _ _ _, ?_⟩
    intro t
    simp only [dailyReconciliation]
    rw [mem_findAllBetween]
    simp

/-! ## Lemmas on the comparison of amounts -/

theorem excessBits_le_of_lt (j : Nat) : ∀ (fuel q : Nat), q < 9007199254740992 * 2 ^ j →
    excessBits fuel q ≤ j := by
  induction j with
  | zero =>
    intro fuel q hq
    cases fuel with
    | zero => simp [excessBits]
    | succ f =>
      have hq2 : q < 9007199254740992 := by simpa using hq
      simp [excessBits, hq2]
  | succ j ih =>
    intro fuel q hq
    cases fuel with
    | zero => simp [excessBits]
    | succ f =>
      unfold excessBits
      split
      · exact Nat.zero_le _
      · have h2 : q / 2 < 9007199254740992 * 2 ^ j := by
          rw [pow_succ] at hq
          omega
        exact Nat.succ_le_succ (ih f (q / 2) h2)

theorem excessBits_lower : ∀ (fuel q : Nat), 0 < excessBits fuel q →
    4503599627370496 * 2 ^ excessBits fuel q ≤ q := by
  intro fuel
  induction fuel with
  | zero => intro q h; simp [excessBits] at h
  | succ f ih =>
    intro q h
    unfold excessBits at h ⊢
    split
    · rename_i hq
      simp [hq] at h
    · rename_i hq
      rcases Nat.eq_zero_or_pos (excessBits f (q / 2)) with h0 | hpos
      · rw [h0]
        omega
      · have := ih (q / 2) hpos
        rw [pow_succ]
        omega

theorem roundNearestEven_le (num den c j : Nat) (hden : 0 < den)
    (hc : c < 9007199254740992) (h : num ≤ c * 2 ^ j * den) :
    roundNearestEven num den ≤ c * 2 ^ j := by
  have hq : num / den ≤ c * 2 ^ j := by
    apply Nat.div_le_of_le_mul
    rw [Nat.mul_comm]
    exact h
  have hq2 : num / den < 9007199254740992 * 2 ^ j := by
    have hp : 0 < 2 ^ j := by positivity
    calc num / den ≤ c * 2 ^ j := hq
      _ < 9007199254740992 * 2 ^ j := Nat.mul_lt_mul_of_pos_right hc hp
  have hk := excessBits_le_of_lt j 2200 (num / den) hq2
  unfold roundNearestEven
  generalize excessBits 2200 (num / den) = k at hk
  obtain ⟨i, rfl⟩ := Nat.exists_eq_add_of_le hk
  simp only [Nat.shiftLeft_eq]
  have hdpos : 0 < den * 2 ^ k := Nat.mul_pos hden (by positivity)
  have hB : c * 2 ^ (k + i) = c * 2 ^ i * 2 ^ k := by rw [pow_add]; ring
  have hnum : num ≤ den * 2 ^ k * (c * 2 ^ i) := by
    calc num ≤ c * 2 ^ (k + i) * den := h
      _ = den * 2 ^ k * (c * 2 ^ i) := by rw [hB]; ring
  have hlo : num / (den * 2 ^ k) ≤ c * 2 ^ i := Nat.div_le_of_le_mul hnum
  rw [hB]
  apply Nat.mul_le_mul_right
  rcases Nat.lt_or_eq_of_le hlo with hlt | heq
  · have hup : (if den * 2 ^ k < 2 * (num % (den * 2 ^ k)) then 1
        else if 2 * (num % (den * 2 ^ k)) = den * 2 ^ k then num / (den * 2 ^ k) % 2 else 0)
        ≤ 1 := by
      split_ifs
      · exact Nat.le_refl _
      · exact Nat.le_of_lt_succ (Nat.mod_lt _ (by norm_num))
      · exact Nat.zero_le _
    omega
  · have hge : den * 2 ^ k * (num / (den * 2 ^ k)) ≤ num := Nat.mul_div_le _ _
    rw [heq] at hge
    have hnumeq : num = den * 2 ^ k * (c * 2 ^ i) := Nat.le_antisymm hnum hge
    have hr : num % (den * 2 ^ k) = 0 := by
      rw [hnumeq]
      exact Nat.mul_mod_right _ _
    rw [hr]
    have h1 : ¬ den * 2 ^ k < 2 * 0 := by simp
    have h2 : ¬ 2 * 0 = den * 2 ^ k := by omega
    simp only [h1, h2, if_false, Nat.add_zero]
    exact hlo

theorem roundNearestEven_ge (num den c j : Nat) (hden : 0 < den)
    (hc : c ≤ 9007199254740992) (h : c * 2 ^ j * den ≤ num) :
    c * 2 ^ j ≤ roundNearestEven num den := by
  have hlow := excessBits_lower 2200 (num / den)
  unfold roundNearestEven
  generalize excessBits 2200 (num / den) = k at hlow
  simp only [Nat.shiftLeft_eq]
  have hdpos : 0 < den * 2 ^ k := Nat.mul_pos hden (by positivity)
  have hmono : num / (den * 2 ^ k) * 2 ^ k
      ≤ (num / (den * 2 ^ k) + (if den * 2 ^ k < 2 * (num % (den * 2 ^ k)) then 1
        else if 2 * (num % (den * 2 ^ k)) = den * 2 ^ k then num / (den * 2 ^ k) % 2 else 0))
        * 2 ^ k :=
    Nat.mul_le_mul_right _ (Nat.le_add_right _ _)
  refine Nat.le_trans ?_ hmono
  by_cases hkj : k ≤ j
  · obtain ⟨i, rfl⟩ := Nat.exists_eq_add_of_le hkj
    have hB : c * 2 ^ (k + i) = c * 2 ^ i * 2 ^ k := by rw [pow_add]; ring
    rw [hB]
    apply Nat.mul_le_mul_right
    rw [Nat.le_div_iff_mul_le hdpos]
    calc c * 2 ^ i * (den * 2 ^ k) = c * 2 ^ (k + i) * den := by rw [hB]; ring
      _ ≤ num := h
  · have hk : j + 1 ≤ k := by omega
    have hkpos : 0 < k := by omega
    have h52 := hlow hkpos
    have hpk : 0 < 2 ^ k := by positivity
    have hlo : 4503599627370496 ≤ num / (den * 2 ^ k) := by
      rw [← Nat.div_div_eq_div_mul, Nat.le_div_iff_mul_le hpk]
      exact h52
    have hpow : 2 ^ (j + 1) ≤ 2 ^ k := Nat.pow_le_pow_right (by norm_num) hk
    calc c * 2 ^ j ≤ 9007199254740992 * 2 ^ j := Nat.mul_le_mul_right _ hc
      _ = 4503599627370496 * 2 ^ (j + 1) := by rw [pow_succ]; ring
      _ ≤ 4503599627370496 * 2 ^ k := Nat.mul_le_mul_left _ hpow
      _ ≤ num / (den * 2 ^ k) * 2 ^ k := Nat.mul_le_mul_right _ hlo

theorem shift_split (i : Nat) : 1 <<< (i + 7) = 128 * 2 ^ i := by
  rw [Nat.shiftLeft_eq, pow_add]; ring

theorem hundredths_ge_shift (i c n : Nat) (hc : 0 < c) (hc2 : 128 * c < 9007199254740992) :
    c * (1 <<< (i + 7)) ≤ roundNearestEven (n * (1 <<< (i + 7))) 100 ↔ 100 * c ≤ n := by
  rw [shift_split]
  constructor
  · intro h
    by_contra hn
    have hn2 : n + 1 ≤ 100 * c := by omega
    have hp : 0 < 2 ^ i := by positivity
    have hle := roundNearestEven_le (n * (128 * 2 ^ i)) 100 (128 * c - 1) i (by norm_num)
      (by omega) (by
        have e1 : n * (128 * 2 ^ i) = (128 * n) * 2 ^ i := by ring
        have e2 : (128 * c - 1) * 2 ^ i * 100 = ((128 * c - 1) * 100) * 2 ^ i := by ring
        rw [e1, e2]
        apply Nat.mul_le_mul_right
        omega)
    have hlt : (128 * c - 1) * 2 ^ i < c * (128 * 2 ^ i) := by
      have e3 : c * (128 * 2 ^ i) = (128 * c) * 2 ^ i := by ring
      rw [e3]
      exact Nat.mul_lt_mul_of_pos_right (by omega) hp
    omega
  · intro h
    have hge := roundNearestEven_ge (n * (128 * 2 ^ i)) 100 (128 * c) i (by norm_num)
      (by omega) (by
        have e1 : n * (128 * 2 ^ i) = (128 * n) * 2 ^ i := by ring
        have e2 : 128 * c * 2 ^ i * 100 = (128 * (100 * c)) * 2 ^ i := by ring
        rw [e1, e2]
        apply Nat.mul_le_mul_right
        omega)
    have e3 : c * (128 * 2 ^ i) = 128 * c * 2 ^ i := by ring
    rw [e3]
    exact hge

theorem hundredths_le_shift (i c n : Nat) (hc2 : 128 * c + 1 < 9007199254740992) :
    roundNearestEven (n * (1 <<< (i + 7))) 100 ≤ c * (1 <<< (i + 7)) ↔ n ≤ 100 * c := by
  rw [shift_split]
  constructor
  · intro h
    by_contra hn
    have hn2 : 100 * c + 1 ≤ n := by omega
    have hp : 0 < 2 ^ i := by positivity
    have hge := roundNearestEven_ge (n * (128 * 2 ^ i)) 100 (128 * c + 1) i (by norm_num)
      (by omega) (by
        have e1 : n * (128 * 2 ^ i) = (128 * n) * 2 ^ i := by ring
        have e2 : (128 * c + 1) * 2 ^ i * 100 = ((128 * c + 1) * 100) * 2 ^ i := by ring
        rw [e1, e2]
        apply Nat.mul_le_mul_right
        omega)
    have hlt : c * (128 * 2 ^ i) < (128 * c + 1) * 2 ^ i := by
      have e3 : c * (128 * 2 ^ i) = (128 * c) * 2 ^ i := by ring
      rw [e3]
      exact Nat.mul_lt_mul_of_pos_right (by omega) hp
    omega
  · intro h
    have hle := roundNearestEven_le (n * (128 * 2 ^ i)) 100 (128 * c) i (by norm_num)
      (by omega) (by
        have e1 : n * (128 * 2 ^ i) = (128 * n) * 2 ^ i := by ring
        have e2 : 128 * c * 2 ^ i * 100 = (128 * (100 * c)) * 2 ^ i := by ring
        rw [e1, e2]
        apply Nat.mul_le_mul_right
        omega)
    have e3 : c * (128 * 2 ^ i) = 128 * c * 2 ^ i := by ring
    rw [e3]
    exact hle

theorem hundredths_pos_shift (i n : Nat) :
    0 < roundNearestEven (n * (1 <<< (i + 7))) 100 ↔ 0 < n := by
  rw [shift_split]
  have hp : 0 < 2 ^ i := by positivity
  constructor
  · intro h
    by_contra hn
    have hn0 : n = 0 := by omega
    subst hn0
    have hle := roundNearestEven_le (0 * (128 * 2 ^ i)) 100 0 i (by norm_num) (by norm_num)
      (by simp)
    omega
  · intro h
    have hge := roundNearestEven_ge (n * (128 * 2 ^ i)) 100 1 i (by norm_num) (by norm_num)
      (by
        have e1 : n * (128 * 2 ^ i) = (128 * n) * 2 ^ i := by ring
        have e2 : 1 * 2 ^ i * 100 = 100 * 2 ^ i := by ring
        rw [e1, e2]
        apply Nat.mul_le_mul_right
        omega)
    omega

/-- The literal of a whole number below `2^53` is that number. -/
theorem ofRatio_whole (c : Nat) (hc : c < 9007199254740992) :
    Double.ofRatio (c : Int) 1 = ⟨((c * unitsPerOne : Nat) : Int)⟩ := by
  unfold Double.ofRatio
  have hneg : ¬ ((c : Int) < 0) := by omega
  rw [if_neg hneg, Int.natAbs_ofNat]
  have h := roundNearestEven_whole c 1 hc (by norm_num)
  rw [Nat.mul_one] at h
  rw [h]

theorem parseFloat_units_nonpos (h : Int) (hh : h ≤ 0) : (parseFloat h).units ≤ 0 := by
  unfold parseFloat Double.ofRatio
  by_cases hneg : h < 0
  · rw [if_pos hneg]
    simp
  · have h0 : h = 0 := by omega
    subst h0
    rw [if_neg hneg]
    have := (hundredths_pos_shift 1067 0).not.mpr (by norm_num)
    have e : roundNearestEven (Int.natAbs 0 * unitsPerOne) 100 = 0 := by
      have : ¬ 0 < roundNearestEven (0 * (1 <<< (1067 + 7))) 100 := this
      have e2 : Int.natAbs 0 = 0 := rfl
      rw [e2]
      exact Nat.eq_zero_of_not_pos this
    rw [e]
    simp

theorem unitsPerOne_pos : 0 < unitsPerOne := by
  have h : 0 < 1 <<< (1067 + 7) := by
    rw [shift_split]; positivity
  exact h

/-- Comparison of an amount with the bound 1 of `isFloat({ min: 1 })`. -/
theorem parseFloat_ge (c : Nat) (hc : 0 < c) (hc2 : 128 * c < 9007199254740992) (h : Int) :
    (parseFloat h).ge (Double.ofRatio (c : Int) 1) = true ↔ 100 * (c : Int) ≤ h := by
  rw [ofRatio_whole c (by omega)]
  simp only [Double.ge, decide_eq_true_eq]
  by_cases hh : h ≤ 0
  · have h1 := parseFloat_units_nonpos h hh
    have h2 : 0 < c * unitsPerOne := Nat.mul_pos hc unitsPerOne_pos
    constructor
    · intro h3; omega
    · intro h3; omega
  · obtain ⟨n, rfl⟩ : ∃ n : Nat, h = (n : Int) := ⟨h.toNat, by omega⟩
    unfold parseFloat Double.ofRatio
    have hneg : ¬ ((n : Int) < 0) := by omega
    rw [if_neg hneg, Int.natAbs_ofNat]
    dsimp only
    have key : c * unitsPerOne ≤ roundNearestEven (n * unitsPerOne) 100 ↔ 100 * c ≤ n :=
      hundredths_ge_shift 1067 c n hc hc2
    constructor
    · intro h3
      have := key.mp (by exact_mod_cast h3)
      exact_mod_cast this
    · intro h3
      have := key.mpr (by exact_mod_cast h3)
      exact_mod_cast this

theorem parseFloat_le (c : Nat) (hc2 : 128 * c + 1 < 9007199254740992) (h : Int) :
    (parseFloat h).le (Double.ofRatio (c : Int) 1) = true ↔ h ≤ 100 * (c : Int) := by
  rw [ofRatio_whole c (by omega)]
  simp only [Double.le, decide_eq_true_eq]
  by_cases hh : h ≤ 0
  · have h1 := parseFloat_units_nonpos h hh
    constructor
    · intro _; omega
    · intro _
      have : (0 : Int) ≤ ((c * unitsPerOne : Nat) : Int) := Int.ofNat_nonneg _
      omega
  · obtain ⟨n, rfl⟩ : ∃ n : Nat, h = (n : Int) := ⟨h.toNat, by omega⟩
    unfold parseFloat Double.ofRatio
    have hneg : ¬ ((n : Int) < 0) := by omega
    rw [if_neg hneg, Int.natAbs_ofNat]
    dsimp only
    have key : roundNearestEven (n * unitsPerOne) 100 ≤ c * unitsPerOne ↔ n ≤ 100 * c :=
      hundredths_le_shift 1067 c n hc2
    constructor
    · intro h3
      have := key.mp (by exact_mod_cast h3)
      exact_mod_cast this
    · intro h3
      have := key.mpr (by exact_mod_cast h3)
      exact_mod_cast this

theorem parseFloat_pos (h : Int) : (parseFloat h).gt Double.zero = true ↔ 0 < h := by
  simp only [Double.gt, Double.zero, decide_eq_true_eq]
  by_cases hh : h ≤ 0
  · have h1 := parseFloat_units_nonpos h hh
    constructor
    · intro h3; omega
    · intro h3; omega
  · obtain ⟨n, rfl⟩ : ∃ n : Nat, h = (n : Int) := ⟨h.toNat, by omega⟩
    unfold parseFloat Double.ofRatio
    have hneg : ¬ ((n : Int) < 0) := by omega
    rw [if_neg hneg, Int.natAbs_ofNat]
    dsimp only
    have key : 0 < roundNearestEven (n * unitsPerOne) 100 ↔ 0 < n :=
      hundredths_pos_shift 1067 n
    constructor
    · intro h3
      have := key.mp (by exact_mod_cast h3)
      exact_mod_cast this
    · intro h3
      have := key.mpr (by exact_mod_cast h3)
      exact_mod_cast this

theorem isFloat_min (h : Int) : isFloat 1 none (some h) = true ↔ 100 ≤ h := by
  unfold isFloat
  simp only [Bool.and_true]
  have := parseFloat_ge 1 (by norm_num) (by norm_num) h
  simpa using this

theorem isFloat_min_max (h : Int) :
    isFloat 1 (some 70000) (some h) = true ↔ 100 ≤ h ∧ h ≤ 7000000 := by
  unfold isFloat
  simp only [Bool.and_eq_true]
  have h1 := parseFloat_ge 1 (by norm_num) (by norm_num) h
  have h2 := parseFloat_le 70000 (by norm_num) h
  constructor
  · rintro ⟨ha, hb⟩
    exact ⟨by simpa using h1.mp (by simpa using ha), by simpa using h2.mp (by simpa using hb)⟩
  · rintro ⟨ha, hb⟩
    exact ⟨by simpa using h1.mpr (by simpa using ha), by simpa using h2.mpr (by simpa using hb)⟩

theorem validateAmount_iff (h : Int) : validateAmount (some h) = true ↔ 0 < h := by
  unfold validateAmount
  exact parseFloat_pos h

/-! ## Lemmas on phone numbers -/

theorem startsWith_iff (s p : String) :
    startsWith s p = true ↔ s.data.take p.data.length = p.data := by
  simp [startsWith]

theorem digitsOf_data (s : String) : (digitsOf s).data = s.data.filter Char.isDigit := rfl

theorem data_lit254 : ("254" : String).data = ['2', '5', '4'] := rfl

theorem startsWith_cons (c : Char) (rest : List Char) (d : Char) :
    startsWith ⟨c :: rest⟩ ⟨[d]⟩ = decide (c = d) := by
  simp [startsWith]

theorem digitsOf_of_digits (l : List Char) (h : ∀ x ∈ l, x.isDigit = true) :
    digitsOf ⟨l⟩ = ⟨l⟩ := by
  unfold digitsOf
  congr 1
  exact List.filter_eq_self.mpr h

/-- A non-empty string of digits that starts with none of 0, 7 and 1 is left
as it is. -/
theorem formatPhoneNumber_fixed (c : Char) (rest : List Char)
    (hall : ∀ x ∈ c :: rest, x.isDigit = true) (h0 : c ≠ '0') (h7 : c ≠ '7') (h1 : c ≠ '1') :
    formatPhoneNumber (some ⟨c :: rest⟩) = some ⟨c :: rest⟩ := by
  have hne : (⟨c :: rest⟩ : String) ≠ "" := by
    intro h
    have := congrArg String.data h
    simp at this
  have e0 : ("0" : String) = ⟨['0']⟩ := rfl
  have e7 : ("7" : String) = ⟨['7']⟩ := rfl
  have e1 : ("1" : String) = ⟨['1']⟩ := rfl
  unfold formatPhoneNumber
  simp only [if_neg hne, digitsOf_of_digits _ hall, e0, e7, e1, startsWith_cons]
  simp [h0, h7, h1]

/-- What `formatPhoneNumber` returns for a non-empty string, by the digits in it. -/
theorem formatPhoneNumber_of_digits (p : String) (hp : p ≠ "") :
    formatPhoneNumber (some p) =
      match (digitsOf p).data with
      | [] => some ""
      | c :: rest =>
        if c = '0' then some ⟨'2' :: '5' :: '4' :: rest⟩
        else if c = '7' ∨ c = '1' then some ⟨'2' :: '5' :: '4' :: c :: rest⟩
        else some ⟨c :: rest⟩ := by
  have e0 : ("0" : String) = ⟨['0']⟩ := rfl
  have e7 : ("7" : String) = ⟨['7']⟩ := rfl
  have e1 : ("1" : String) = ⟨['1']⟩ := rfl
  unfold formatPhoneNumber
  simp only [if_neg hp]
  cases hd : (digitsOf p).data with
  | nil =>
    have hd2 : digitsOf p = "" := String.ext hd
    simp only [hd2]
    decide
  | cons c rest =>
    have hd2 : digitsOf p = ⟨c :: rest⟩ := String.ext hd
    simp only [hd2, e0, e7, e1, startsWith_cons, substring1]
    by_cases h0 : c = '0'
    · simp [h0]
      rfl
    · by_cases h71 : c = '7' ∨ c = '1'
      · simp only [h0, h71]
        rcases h71 with h | h <;> simp [h] <;> rfl
      · have h7 : c ≠ '7' := fun h => h71 (Or.inl h)
        have h1 : c ≠ '1' := fun h => h71 (Or.inr h)
        simp [h0, h7, h1]

theorem digitsOf_all (p : String) : ∀ x ∈ (digitsOf p).data, x.isDigit = true := by
  intro x hx
  rw [digitsOf_data] at hx
  exact (List.mem_filter.mp hx).2

/-- When a second application of `formatPhoneNumber` changes nothing. -/
theorem formatPhoneNumber_twice (p : String) :
    formatPhoneNumber (formatPhoneNumber (some p)) = formatPhoneNumber (some p)
      ↔ (p = "" ∨ digitsOf p ≠ "") := by
  by_cases hp : p = ""
  · subst hp
    simp only [true_or, iff_true]
    decide
  · rw [formatPhoneNumber_of_digits p hp]
    have hall := digitsOf_all p
    cases hd : (digitsOf p).data with
    | nil =>
      have hd2 : digitsOf p = "" := String.ext hd
      simp only [hd2, hp, ne_eq, not_true_eq_false, or_self, iff_false]
      decide
    | cons c rest =>
      rw [hd] at hall
      have hne : digitsOf p ≠ "" := by
        intro h
        rw [h] at hd
        exact List.noConfusion hd
      simp only [hne, ne_eq, not_false_eq_true, or_true, iff_true]
      have hrest : ∀ x ∈ rest, x.isDigit = true :=
        fun x hx => hall x (List.mem_cons_of_mem _ hx)
      by_cases h0 : c = '0'
      · simp only [h0, if_true]
        apply formatPhoneNumber_fixed '2' ('5' :: '4' :: rest) _ (by decide) (by decide)
          (by decide)
        intro x hx
        simp only [List.mem_cons] at hx
        rcases hx with rfl | rfl | rfl | hx
        · decide
        · decide
        · decide
        · exact hrest x hx
      · by_cases h71 : c = '7' ∨ c = '1'
        · simp only [h0, h71, if_true, if_false]
          apply formatPhoneNumber_fixed '2' ('5' :: '4' :: c :: rest) _ (by decide) (by decide)
            (by decide)
          intro x hx
          simp only [List.mem_cons] at hx
          rcases hx with rfl | rfl | rfl | hx
          · decide
          · decide
          · decide
          · exact hall x (List.mem_cons.mpr hx)
        · have h7 : c ≠ '7' := fun h => h71 (Or.inl h)
          have h1 : c ≠ '1' := fun h => h71 (Or.inr h)
          simp only [h0, h71, if_false]
          exact formatPhoneNumber_fixed c rest hall h0 h7 h1

/-- On a non-empty string of digits the inline normalisation and the shared
helper agree exactly when the string starts with 254 or with 0. -/
theorem formattedPhone_eq_formatPhoneNumber_iff (p : String) (hp : p ≠ "")
    (hall : ∀ x ∈ p.data, x.isDigit = true) :
    some (formattedPhone p) = formatPhoneNumber (some p)
      ↔ (startsWith p "254" = true ∨ startsWith p "0" = true) := by
  rw [formatPhoneNumber_of_digits p hp]
  obtain ⟨l⟩ := p
  have e0 : ("0" : String) = ⟨['0']⟩ := rfl
  have e254 : ("254" : String) = ⟨['2', '5', '4']⟩ := rfl
  rw [digitsOf_of_digits l hall]
  cases l with
  | nil => exact absurd rfl hp
  | cons c rest =>
    simp only [e0, startsWith_cons, decide_eq_true_eq]
    unfold formattedPhone
    by_cases h254 : startsWith ⟨c :: rest⟩ "254" = true
    · have hc : c = '2' := by
        rw [startsWith_iff] at h254
        simp only [data_lit254] at h254
        have := congrArg List.head? h254
        simpa using this
      have h0 : c ≠ '0' := by rw [hc]; decide
      have h71 : ¬ (c = '7' ∨ c = '1') := by rw [hc]; decide
      simp only [h254, if_true, h0, h71, if_false, true_or]
    · have hlen : ∀ (a b : List Char), a.length ≠ b.length → (⟨a⟩ : String) ≠ ⟨b⟩ := by
        intro a b hab h
        exact hab (congrArg (fun s => s.data.length) h)
      simp only [h254, if_false, Bool.false_eq_true, false_or, e254, substring1]
      have eapp : (⟨['2', '5', '4']⟩ : String) ++ ⟨List.drop 1 (c :: rest)⟩
          = ⟨'2' :: '5' :: '4' :: rest⟩ := rfl
      rw [eapp]
      by_cases h0 : c = '0'
      · simp only [h0, if_true]
      · by_cases h71 : c = '7' ∨ c = '1'
        · simp only [h0, h71, if_true, if_false, iff_false]
          intro h
          exact hlen _ _ (by simp only [List.length_cons]; omega) (Option.some.inj h)
        · simp only [h0, h71, if_false, iff_false]
          intro h
          exact hlen _ _ (by simp only [List.length_cons]; omega) (Option.some.inj h)

/-! ## C21 -/

/-- C21 (code at the failing input): a SUCCESS transaction created at
00:00:00.000 of the day after the example day, one millisecond after the end
of the example day's window, is returned by `getReconciliation` for the
example day, and again for the following day, so it is counted in two
reports.  `dailyReconciliation` leaves it out of the example day: for every
table and date it selects exactly the transactions created from 00:00:00.000
to 23:59:59.999 of the day. -/
theorem c21_next_midnight_is_reported_twice :
    endOfDay exampleDate + 1 = exampleDate + msPerDay
    ∧ startOfDay (exampleDate + msPerDay) = exampleDate + msPerDay
    ∧ (getReconciliation 0 midnightStore (some exampleDate)).transactions.map
        (fun t => (t.id, t.created_at))
        = [(31, exampleDate + msPerDay - 1), (32, exampleDate + msPerDay)]
    ∧ (getReconciliation 0 midnightStore (some exampleDate)).total_transactions = 2
    ∧ (getReconciliation 0 midnightStore (some (exampleDate + msPerDay))).transactions.map
        (fun t => (t.id, t.created_at)) = [(32, exampleDate + msPerDay)]
    ∧ (dailyReconciliation midnightStore exampleDate).transactions.map
        (fun t => (t.id, t.created_at)) = [(31, exampleDate + msPerDay - 1)]
    ∧ (∀ (s : Store) (date : Nat) (t : Transaction),
        t ∈ (dailyReconciliation s date).transactions
          ↔ t ∈ s ∧ startOfDay date ≤ t.created_at ∧ t.created_at ≤ endOfDay date) := by
  refine ⟨by decide, by decide, by decide, by decide, by decide, by decide, ?_⟩
  intro s date t
  simp only [dailyReconciliation]
  rw [mem_findAllBetween]
  simp

/-! ## Lemmas on `parseInt` -/

/-- Above `2^53` the result of `parseInt` is rounded to binary64, below it is
the integer read. -/
theorem parseInt_rounds :
    parseInt (some "9007199254740993") = some 9007199254740992
    ∧ parseInt (some "9007199254740992") = some 9007199254740992
    ∧ parseInt (some "9007199254740995") = some 9007199254740996
    ∧ parseInt (some "-9007199254740993") = some (-9007199254740992)
    ∧ parseInt (some "9007199254740991") = some 9007199254740991
    ∧ parseInt (some "0x20000000000001") = some 9007199254740992 := by
  decide

/-! ## C27 -/

/-- C27 (code at the failing input): `validatePagination` does not reject
`page=0`: `parseInt('0') || 1` is 1, so the request is passed on with
`req.pagination.page = 1`; likewise `limit=0` is passed on with limit 20.  A
negative page and a limit above 100 are rejected with HTTP 400, absent
parameters give page 1 and limit 20, and the repository test's `page=1`,
`limit=10` is passed on as requested.  Whatever the query, a request that is
passed on has `page >= 1` and `1 <= limit <= 100`, and a rejection is a 400
with `success: false`. -/
theorem c27_page_zero_is_passed_on :
    validatePagination ⟨some "0", some "10"⟩ = PaginationOutcome.next 1 10
    ∧ validatePagination ⟨some "1", some "0"⟩ = PaginationOutcome.next 1 20
    ∧ validatePagination ⟨some "-1", some "10"⟩
        = PaginationOutcome.rejected 400 false "Page must be greater than 0"
    ∧ validatePagination ⟨some "1", some "101"⟩
        = PaginationOutcome.rejected 400 false "Limit must be between 1 and 100"
    ∧ validatePagination ⟨some "1", some "-5"⟩
        = PaginationOutcome.rejected 400 false "Limit must be between 1 and 100"
    ∧ validatePagination ⟨none, none⟩ = PaginationOutcome.next 1 20
    ∧ validatePagination ⟨some "1", some "10"⟩ = PaginationOutcome.next 1 10
    ∧ validatePagination ⟨some "3", some "100"⟩ = PaginationOutcome.next 3 100
    ∧ (∀ query : PaginationQuery,
        (∃ page limit, validatePagination query = PaginationOutcome.next page limit
            ∧ 1 ≤ page ∧ 1 ≤ limit ∧ limit ≤ 100)
        ∨ (∃ message, validatePagination query
            = PaginationOutcome.rejected 400 false message)) := by
  refine ⟨by decide, by decide, by decide, by decide, by decide, by decide, by decide,
    by decide, ?_⟩
  intro query
  unfold validatePagination
  by_cases hp : parseIntOr query.page 1 < 1
  · exact Or.inr ⟨"Page must be greater than 0", by simp only [hp, if_true]⟩
  · by_cases hl : parseIntOr query.limit 20 < 1 ∨ parseIntOr query.limit 20 > 100
    · exact Or.inr ⟨"Limit must be between 1 and 100",
        by simp only [hp, hl, if_true, if_false]⟩
    · refine Or.inl ⟨parseIntOr query.page 1, parseIntOr query.limit 20, ?_, ?_, ?_, ?_⟩
      · simp only [hp, hl, if_false]
      · omega
      · omega
      · omega

/-! ## C28 -/

/-- C28 (code at the failing input): for `712345678` the inline normalisation
of `stkPush` and `b2cPayment` drops the leading 7 and gives `25412345678`,
while the shared helper `formatPhoneNumber` gives `254712345678` (and the SMS
helper `+254712345678`).  The two agree on `0712345678` and on
`254712345678`; on a non-empty string of digits they agree exactly when it
starts with 254 or with 0. -/
theorem c28_inline_normalisation_drops_a_digit :
    formattedPhone "712345678" = "25412345678"
    ∧ formatPhoneNumber (some "712345678") = some "254712345678"
    ∧ smsFormatPhoneNumber "712345678" = "+254712345678"
    ∧ some (formattedPhone "0712345678") = formatPhoneNumber (some "0712345678")
    ∧ some (formattedPhone "254712345678") = formatPhoneNumber (some "254712345678")
    ∧ (∀ p : String, p ≠ "" → (∀ x ∈ p.data, x.isDigit = true) →
        (some (formattedPhone p) = formatPhoneNumber (some p)
          ↔ (startsWith p "254" = true ∨ startsWith p "0" = true))) := by
  refine ⟨by decide, by decide, by decide, by decide, by decide, ?_⟩
  intro p hp hall
  exact formattedPhone_eq_formatPhoneNumber_iff p hp hall

/-! ## C29 -/

/-- C29 (as stated, refuted): for the string `abc`, which holds no digit,
`formatPhoneNumber` returns the empty string, and applied to that it
returns `null`. -/
theorem c29_digitless_string_is_not_fixed :
    formatPhoneNumber (some "abc") = some ""
    ∧ formatPhoneNumber (formatPhoneNumber (some "abc")) = none
    ∧ formatPhoneNumber (formatPhoneNumber (some "abc")) ≠ formatPhoneNumber (some "abc") := by
  decide

/-- C29 (amended): `formatPhoneNumber(formatPhoneNumber(p))` equals
`formatPhoneNumber(p)` for every string `p` that is empty or holds at least
one decimal digit, and for no other string. -/
theorem c29_format_phone_number_idempotent_on_digits (p : String) :
    formatPhoneNumber (formatPhoneNumber (some p)) = formatPhoneNumber (some p)
      ↔ (p = "" ∨ digitsOf p ≠ "") :=
  formatPhoneNumber_twice p

/-! ## Lemmas on the summary counts -/

theorem countInto_sum {κ : Type} [DecidableEq κ] (acc : List (κ × Nat)) (k : κ) :
    ((countInto acc k).map Prod.snd).sum = (acc.map Prod.snd).sum + 1 := by
  induction acc with
  | nil => simp [countInto]
  | cons head rest ih =>
    obtain ⟨k1, n⟩ := head
    unfold countInto
    split_ifs
    · simp only [List.map_cons, List.sum_cons]
      omega
    · simp only [List.map_cons, List.sum_cons, ih]
      omega

theorem foldl_countInto_sum {α κ : Type} [DecidableEq κ] (f : α → κ) (l : List α) :
    ∀ acc : List (κ × Nat),
      ((l.foldl (fun acc x => countInto acc (f x)) acc).map Prod.snd).sum
        = (acc.map Prod.snd).sum + l.length := by
  induction l with
  | nil => intro acc; simp
  | cons x rest ih =>
    intro acc
    simp only [List.foldl_cons, List.length_cons]
    rw [ih, countInto_sum]
    omega

theorem status_partition (l : List Transaction) :
    (l.filter (fun tx => tx.status == Status.SUCCESS)).length
      + (l.filter (fun tx => tx.status == Status.FAILED)).length
      + (l.filter (fun tx => tx.status == Status.PENDING)).length
      + (l.filter (fun tx => tx.status == Status.CANCELLED)).length = l.length := by
  induction l with
  | nil => simp
  | cons t rest ih =>
    cases hs : t.status <;> simp [List.filter_cons, hs] <;> omega

theorem cancelled_none (l : List Transaction) :
    (l.filter (fun tx => tx.status == Status.CANCELLED)).length = 0
      ↔ ∀ t ∈ l, t.status ≠ Status.CANCELLED := by
  rw [List.length_eq_zero, List.filter_eq_nil_iff]
  simp

/-! ## C30 -/

/-- C30: in the summary `dailyReconciliation` builds, for every table and
date, the counts of `by_status` add up to `total_transactions`, the counts of
`by_type` add up to `total_transactions`, and `successful_transactions +
failed_transactions + pending_transactions` is at most `total_transactions`,
with equality exactly when no selected transaction has status CANCELLED.  On
a day with one transaction of each status the three counts add up to 3 of
4. -/
theorem c30_summary_counts_add_up (s : Store) (date : Nat) :
    (((dailyReconciliation s date).summary.by_status.map Prod.snd).sum
        = (dailyReconciliation s date).summary.total_transactions)
    ∧ (((dailyReconciliation s date).summary.by_type.map Prod.snd).sum
        = (dailyReconciliation s date).summary.total_transactions)
    ∧ ((dailyReconciliation s date).summary.successful_transactions
        + (dailyReconciliation s date).summary.failed_transactions
        + (dailyReconciliation s date).summary.pending_transactions
        ≤ (dailyReconciliation s date).summary.total_transactions)
    ∧ ((dailyReconciliation s date).summary.successful_transactions
        + (dailyReconciliation s date).summary.failed_transactions
        + (dailyReconciliation s date).summary.pending_transactions
        = (dailyReconciliation s date).summary.total_transactions
      ↔ ∀ t ∈ (dailyReconciliation s date).transactions, t.status ≠ Status.CANCELLED)
    ∧ (dailyReconciliation cancelledDayStore exampleDate).summary.by_status
        = [(Status.SUCCESS, 1), (Status.FAILED, 1), (Status.PENDING, 1), (Status.CANCELLED, 1)]
    ∧ (dailyReconciliation cancelledDayStore exampleDate).summary.total_transactions = 4
    ∧ (dailyReconciliation cancelledDayStore exampleDate).summary.successful_transactions
        + (dailyReconciliation cancelledDayStore exampleDate).summary.failed_transactions
        + (dailyReconciliation cancelledDayStore exampleDate).summary.pending_transactions
        = 3 := by
  refine ⟨?_, ?_, ?_, ?_, by decide, by decide, by decide⟩
  · simp only [dailyReconciliation, groupByStatus]
    rw [foldl_countInto_sum (fun tx : Transaction => tx.status)]
    simp
  · simp only [dailyReconciliation, groupByType]
    rw [foldl_countInto_sum (fun tx : Transaction => tx.transaction_type)]
    simp
  · simp only [dailyReconciliation]
    have h := status_partition
      (findAllBetween s (fun _ => true) (startOfDay date) (endOfDay date))
    omega
  · simp only [dailyReconciliation]
    have h := status_partition
      (findAllBetween s (fun _ => true) (startOfDay date) (endOfDay date))
    rw [← cancelled_none]
    omega

/-! ## Lemmas on the validation chains and the initiation handlers -/

theorem mem_check {ok : Bool} {param msg : String} {e : ValidationError} :
    e ∈ check ok param msg ↔ ok = false ∧ e = ⟨param, msg⟩ := by
  unfold check
  cases ok <;> simp

theorem isFloat_none (min : Int) (max : Option Int) : isFloat min max none = false := rfl

/-- The amount chain of `stkPushValidation` passes exactly for a number of
at least 1. -/
theorem stkPushValidation_amount (isURL : String → Bool) (body : StkPushBody) :
    (∀ e ∈ stkPushValidation isURL body, e.param ≠ "amount")
      ↔ ∃ h, body.amount = some h ∧ 100 ≤ h := by
  have key : (∀ e ∈ stkPushValidation isURL body, e.param ≠ "amount")
      ↔ isFloat 1 none body.amount = true := by
    unfold stkPushValidation
    constructor
    · intro h
      by_contra hf
      have hf2 : isFloat 1 none body.amount = false := by simpa using hf
      exact h ⟨"amount", "Amount must be a positive number"⟩
        (by simp only [List.mem_append, mem_check, hf2, and_self, true_or]) rfl
    · intro hok e he
      simp only [List.mem_append, mem_check, hok] at he
      rcases he with (((he | he) | he) | he) | he
      · exact absurd he.1 (by decide)
      · rw [he.2]; decide
      · rw [he.2]; decide
      · rw [he.2]; decide
      · cases hu : body.callback_url with
        | none => simp [hu] at he
        | some url =>
          simp only [hu, mem_check] at he
          rw [he.2]; decide
  rw [key]
  cases ha : body.amount with
  | none => simp [isFloat_none]
  | some h => simp [isFloat_min]

/-- The amount chain of `b2cValidation` passes exactly for a number from 1 to
70000. -/
theorem b2cValidation_amount (body : B2cBody) :
    (∀ e ∈ b2cValidation body, e.param ≠ "amount")
      ↔ ∃ h, body.amount = some h ∧ 100 ≤ h ∧ h ≤ 7000000 := by
  have key : (∀ e ∈ b2cValidation body, e.param ≠ "amount")
      ↔ isFloat 1 (some 70000) body.amount = true := by
    unfold b2cValidation
    constructor
    · intro h
      by_contra hf
      have hf2 : isFloat 1 (some 70000) body.amount = false := by simpa using hf
      exact h ⟨"amount", "Amount must be between 1 and 70,000"⟩
        (by simp only [List.mem_append, mem_check, hf2, and_self, true_or]) rfl
    · intro hok e he
      simp only [List.mem_append, mem_check, hok] at he
      rcases he with ((he | he) | he) | he
      · exact absurd he.1 (by decide)
      · rw [he.2]; decide
      · rw [he.2]; decide
      · cases hu : body.occasion with
        | none => simp [hu] at he
        | some o =>
          simp only [hu, mem_check] at he
          rw [he.2]; decide
  rw [key]
  cases ha : body.amount with
  | none => simp [isFloat_none]
  | some h => simp [isFloat_min_max]

theorem stkPushValidation_nil {isURL : String → Bool} {body : StkPushBody}
    (h : stkPushValidation isURL body = []) :
    (∃ a, body.amount = some a ∧ 100 ≤ a) ∧ matchesPhone (body.phone.getD "") = true := by
  constructor
  · rw [← stkPushValidation_amount isURL body, h]
    intro e he
    exact absurd he (List.not_mem_nil _)
  · unfold stkPushValidation at h
    simp only [List.append_eq_nil] at h
    have hp := h.1.1.1.2
    unfold check at hp
    by_contra hm
    simp [hm] at hp

theorem matchesPhone_startsWith {p : String} (h : matchesPhone p = true) :
    startsWith p "254" = true := by
  unfold matchesPhone at h
  split at h
  · rename_i c rest hd
    rw [startsWith_iff, data_lit254, hd]
    rfl
  · exact absurd h (by simp)

theorem formattedPhone_of_254 {p : String} (h : startsWith p "254" = true) :
    formattedPhone p = p := by
  unfold formattedPhone
  rw [if_pos h]

theorem formattedPhone_of_0 {p : String} (h : startsWith p "0" = true) :
    formattedPhone p = "254" ++ substring1 p := by
  unfold formattedPhone
  have hn : ¬ startsWith p "254" = true := by
    intro h2
    rw [startsWith_iff] at h h2
    have e0 : ("0" : String).data = ['0'] := rfl
    rw [e0] at h
    rw [data_lit254] at h2
    have h3 := congrArg List.head? h
    have h4 := congrArg List.head? h2
    simp only [List.length_cons, List.length_nil, List.head?_take] at h3 h4
    simp at h3 h4
    rw [h3] at h4
    exact absurd h4 (by decide)
  rw [if_neg hn]

theorem lt_nextId (s : Store) : ∀ t ∈ s, t.id < nextId s := by
  unfold nextId
  induction s with
  | nil => intro t ht; exact absurd ht (List.not_mem_nil _)
  | cons u rest ih =>
    intro t ht
    simp only [List.map_cons, List.foldr_cons]
    rcases List.mem_cons.mp ht with rfl | hr
    · omega
    · have := ih t hr
      omega

/-- Every error `makeRequest` throws is without a `response`. -/
theorem makeRequest_error {α : Type} (authenticated : Bool) (post : HttpResult α)
    (e : JsError) (h : makeRequest authenticated post = Except.error e) :
    e.response = none := by
  unfold makeRequest at h
  cases authenticated with
  | false =>
    simp only [Bool.false_eq_true, if_false] at h
    cases h
    rfl
  | true =>
    simp only [if_true] at h
    cases post with
    | resolved data => cases h
    | rejectedWithResponse status errorMessage => cases h; rfl
    | rejectedWithoutResponse => cases h; rfl
    | rejectedBeforeSending => cases h; rfl

theorem stkPushFailure_of_no_response (e : JsError) (h : e.response = none) :
    stkPushFailure e = (500, InitiationBody.failed "Internal server error") := by
  unfold stkPushFailure
  rw [h]

/-! ## C22 -/

/-- C22 (code at the failing input): the route `POST /stk-push` of `index.js`
answers a request whose amount is at most 0 or whose phone does not match
`254[17]` and eight digits with HTTP 400 before any gateway call and before
any write to the table, but the body it sends is `errors: [...]` alone: it
has no `success` property.  For the repository test's request with phone
`invalid` the body lists the phone and the missing description, and
`response.body.success` is undefined, where the test expects `false`.  The
shared middleware `validateRequest` answers the same request with
`success: false`. -/
theorem c22_rejection_body_has_no_success_field :
    (∀ (isURL : String → Bool) (env : MpesaEnv) (m : Moment) (gateway : Gateway)
        (s : Store) (req : StkPushRequest),
        ((∃ a, req.body.amount = some a ∧ a ≤ 0)
          ∨ matchesPhone (req.body.phone.getD "") = false) →
        (postStkPush isURL env m gateway s req).status = 400
        ∧ (postStkPush isURL env m gateway s req).body
            = InitiationBody.errors (stkPushValidation isURL req.body)
        ∧ (postStkPush isURL env m gateway s req).body.success = none
        ∧ (postStkPush isURL env m gateway s req).store = s
        ∧ (postStkPush isURL env m gateway s req).gatewayCalls = [])
    ∧ postStkPush httpsURL exampleMpesaEnv exampleMoment acceptingGateway [pendingRow]
          invalidPhoneRequest
        = ⟨400, InitiationBody.errors
            [⟨"phone", "Phone number must be in format 2547XXXXXXXX"⟩,
              ⟨"transaction_desc",
                "Transaction description must be between 1 and 13 characters"⟩],
            [pendingRow], []⟩
    ∧ (postStkPush httpsURL exampleMpesaEnv exampleMoment acceptingGateway [pendingRow]
          invalidPhoneRequest).body.success = none
    ∧ (routerStkPushValidation httpsURL invalidPhoneRequest).map
          (fun answer => (answer.1, answer.2.success, answer.2.message))
        = some (400, some false, some "Validation failed") := by
  refine ⟨?_, by decide, by decide, by decide⟩
  intro isURL env m gateway s req hbad
  have hne : (stkPushValidation isURL req.body).isEmpty = false := by
    cases hl : stkPushValidation isURL req.body with
    | cons e rest => rfl
    | nil =>
      obtain ⟨⟨a, ha, ha100⟩, hp⟩ := stkPushValidation_nil hl
      rcases hbad with ⟨b, hb, hb0⟩ | hbad
      · rw [ha] at hb
        cases hb
        omega
      · rw [hbad] at hp
        cases hp
  unfold postStkPush
  simp only [hne, Bool.not_false, if_true, InitiationBody.success, and_self]

/-! ## C23 -/

/-- C23 (as stated, refuted): an STK push of 0.50, a positive amount, with the
other fields of the repository test's request is rejected by
`stkPushValidation` with the error on `amount`; the client's `validateAmount`
accepts the same amount. -/
theorem c23_half_shilling_is_rejected :
    stkPushValidation httpsURL (requestWithAmount 50).body
        = [⟨"amount", "Amount must be a positive number"⟩]
    ∧ validateAmount (some 50) = true
    ∧ stkPushValidation httpsURL (requestWithAmount 100).body = [] := by
  decide

/-- C23 (amended): `b2cValidation` accepts an amount exactly when it is a
number with `1 <= amount <= 70000`; `stkPushValidation` accepts an amount
exactly when it is a number with `amount >= 1`, with no upper bound; the
client's `validateAmount` accepts exactly the amounts greater than 0.
Amounts are in hundredths. -/
theorem c23_amount_bounds :
    (∀ body : B2cBody,
      (∀ e ∈ b2cValidation body, e.param ≠ "amount")
        ↔ ∃ h, body.amount = some h ∧ 100 ≤ h ∧ h ≤ 7000000)
    ∧ (∀ (isURL : String → Bool) (body : StkPushBody),
      (∀ e ∈ stkPushValidation isURL body, e.param ≠ "amount")
        ↔ ∃ h, body.amount = some h ∧ 100 ≤ h)
    ∧ (∀ h : Int, validateAmount (some h) = true ↔ 0 < h) :=
  ⟨b2cValidation_amount, stkPushValidation_amount, validateAmount_iff⟩

/-! ## C24 -/

/-- C24 (as stated, refuted): `b2cPayment` sends the business short code as
`PartyA`; the normalised phone goes to the gateway as `PartyB`. -/
theorem c24_b2c_party_a_is_the_short_code :
    (b2cPayment exampleMpesaEnv exampleMoment acceptingGateway [pendingRow]
        (b2cRequestTo "0712345678")).gatewayCalls.map (fun d => (d.PartyA, d.PartyB))
      = [(some "174379", "254712345678")]
    ∧ formattedPhone "0712345678" = "254712345678" := by
  decide

/-- C24 (amended): the normalised phone equals the input when the input
begins with 254, and is 254 followed by the input without its leading 0 when
the input begins with 0.  `stkPush` sends the normalised phone as `PartyA`
and `PhoneNumber` in every call of the gateway and stores it as
`phone_number` of the row it inserts; `b2cPayment` sends it as `PartyB` and
stores it as `phone_number`.  For `0712345678` both send and store
`254712345678`. -/
theorem c24_phone_normalisation (phone : String) :
    (startsWith phone "254" = true → formattedPhone phone = phone)
    ∧ (startsWith phone "0" = true → formattedPhone phone = "254" ++ substring1 phone)
    ∧ (∀ (env : MpesaEnv) (m : Moment) (gateway : Gateway) (s : Store)
        (req : StkPushRequest), req.body.phone = some phone →
        (∀ d ∈ (stkPush env m gateway s req).gatewayCalls,
          d.PartyA = formattedPhone phone ∧ d.PhoneNumber = formattedPhone phone)
        ∧ ((stkPush env m gateway s req).store = s
          ∨ ∃ row, (stkPush env m gateway s req).store = s ++ [row]
              ∧ row.phone_number = formattedPhone phone))
    ∧ (∀ (env : MpesaEnv) (m : Moment) (gateway : Gateway) (s : Store)
        (req : B2cRequest), req.body.phone = some phone →
        (∀ d ∈ (b2cPayment env m gateway s req).gatewayCalls,
          d.PartyB = formattedPhone phone)
        ∧ ((b2cPayment env m gateway s req).store = s
          ∨ ∃ row, (b2cPayment env m gateway s req).store = s ++ [row]
              ∧ row.phone_number = formattedPhone phone))
    ∧ (stkPush exampleMpesaEnv exampleMoment acceptingGateway [pendingRow]
        (requestWithPhone "0712345678")).gatewayCalls.map
          (fun d => (d.PartyA, d.PhoneNumber)) = [("254712345678", "254712345678")]
    ∧ (stkPush exampleMpesaEnv exampleMoment acceptingGateway [pendingRow]
        (requestWithPhone "0712345678")).store.map (fun t => t.phone_number)
          = ["254712345678", "254712345678"]
    ∧ (b2cPayment exampleMpesaEnv exampleMoment acceptingGateway [pendingRow]
        (b2cRequestTo "0712345678")).store.map (fun t => t.phone_number)
          = ["254712345678", "254712345678"] := by
  refine ⟨formattedPhone_of_254, formattedPhone_of_0, ?_, ?_, by decide, by decide,
    by decide⟩
  · intro env m gateway s req hphone
    unfold stkPush
    simp only [hphone]
    cases hreq : makeRequest gateway.authenticated
        (gateway.stkpush (stkPushData env m req.body phone)) with
    | error e =>
      simp only [List.mem_singleton, forall_eq, stkPushData, and_self, true_or]
    | ok stkResponse =>
      cases ha : req.body.amount with
      | none => simp only [List.mem_singleton, forall_eq, stkPushData, and_self, true_or]
      | some amount =>
        simp only
        cases hc : create s (newPending (nextId s) (some stkResponse.CheckoutRequestID)
            (some stkResponse.MerchantRequestID) amount (formattedPhone phone)
            req.body.account_reference (some req.json) (some stkResponse.json) m.now) with
        | none => simp only [List.mem_singleton, forall_eq, stkPushData, and_self, true_or]
        | some s1 =>
          simp only [List.mem_singleton, forall_eq, stkPushData, and_self, true_and]
          right
          unfold create at hc
          split at hc
          · cases hc
          · cases hc
            exact ⟨_, rfl, rfl⟩
  · intro env m gateway s req hphone
    unfold b2cPayment
    simp only [hphone]
    cases hcred : m.securityCredential with
    | none => simp
    | some securityCredential =>
      simp only
      cases hreq : makeRequest gateway.authenticated
          (gateway.b2c (b2cData env securityCredential req.body phone)) with
      | error e =>
        simp only [List.mem_singleton, forall_eq, b2cData, true_or, and_self]
      | ok b2cResponse =>
        cases ha : req.body.amount with
        | none => simp only [List.mem_singleton, forall_eq, b2cData, true_or, and_self]
        | some amount =>
          simp only
          cases hc : create s (newB2c (nextId s) b2cResponse.ConversationID
              b2cResponse.OriginatorConversationID amount (formattedPhone phone)
              (some req.json) (some b2cResponse.json) m.now) with
          | none => simp only [List.mem_singleton, forall_eq, b2cData, true_or, and_self]
          | some s1 =>
            simp only [List.mem_singleton, forall_eq, b2cData, true_and]
            right
            unfold create at hc
            split at hc
            · cases hc
            · cases hc
              exact ⟨_, rfl, rfl⟩

/-! ## C25 -/

/-- C25 (code at the failing input): the gateway answers the STK push with
HTTP 400 and `errorMessage: 'Bad Request - Invalid PhoneNumber'`.
`makeRequest` throws a new error that carries the message but no `response`,
so the `catch` of `stkPush` takes its last branch: the caller gets HTTP 500
with `message: 'Internal server error'`, not the gateway's message.  No
transaction is created.  The same holds whenever the gateway call fails:
every error `makeRequest` throws is without a `response`, and the answer is
the generic 500 with the table unchanged. -/
theorem c25_gateway_message_is_not_surfaced :
    (makeRequest true (HttpResult.rejectedWithResponse 400
        (some "Bad Request - Invalid PhoneNumber") : HttpResult StkResponse)
      = Except.error ⟨"Bad Request - Invalid PhoneNumber", none⟩)
    ∧ stkPush exampleMpesaEnv exampleMoment refusingGateway [pendingRow] testRequest
        = ⟨500, InitiationBody.failed "Internal server error", [pendingRow],
            [stkPushData exampleMpesaEnv exampleMoment testRequest.body "254712345678"]⟩
    ∧ stkPush exampleMpesaEnv exampleMoment silentGateway [pendingRow] testRequest
        = ⟨500, InitiationBody.failed "Internal server error", [pendingRow],
            [stkPushData exampleMpesaEnv exampleMoment testRequest.body "254712345678"]⟩
    ∧ (∀ (env : MpesaEnv) (m : Moment) (gateway : Gateway) (s : Store)
        (req : StkPushRequest) (phone : String), req.body.phone = some phone →
        (∀ r, makeRequest gateway.authenticated
            (gateway.stkpush (stkPushData env m req.body phone)) ≠ Except.ok r) →
        stkPush env m gateway s req
          = ⟨500, InitiationBody.failed "Internal server error", s,
              [stkPushData env m req.body phone]⟩) := by
  refine ⟨rfl, by decide, by decide, ?_⟩
  intro env m gateway s req phone hphone hfail
  unfold stkPush
  simp only [hphone]
  cases hreq : makeRequest gateway.authenticated
      (gateway.stkpush (stkPushData env m req.body phone)) with
  | ok r => exact absurd hreq (hfail r)
  | error e =>
    have hnone := makeRequest_error _ _ e hreq
    simp only [stkPushFailure_of_no_response e hnone]

/-! ## C26 -/

/-- C26 (as stated, refuted): the repository test's request is valid and the
gateway stand-in accepts it, returning the checkout id `test_checkout_id`
again.  On a table that already holds a transaction with that checkout id
(the table after the request was served once) the insert is refused by the
unique column: `stkPush` answers 500 'Internal server error' after its call
of the gateway and creates no transaction. -/
theorem c26_repeated_checkout_id_creates_no_row :
    stkPushValidation httpsURL testRequest.body = []
    ∧ (stkPush exampleMpesaEnv exampleMoment acceptingGateway [] testRequest).store
        = servedOnceStore
    ∧ acceptingGateway.stkpush
          (stkPushData exampleMpesaEnv exampleMoment testRequest.body "254712345678")
        = HttpResult.resolved testStkResponse
    ∧ stkPush exampleMpesaEnv exampleMoment acceptingGateway servedOnceStore testRequest
        = ⟨500, InitiationBody.failed "Internal server error", servedOnceStore,
            [stkPushData exampleMpesaEnv exampleMoment testRequest.body "254712345678"]⟩ := by
  decide

/-- C26 (amended): for every request that passes `stkPushValidation` and on
which the gateway accepts the push, returning a checkout id that no stored
transaction holds yet (the column is unique), `stkPush` adds exactly one row
to the table.  The row has status PENDING, type STK_PUSH, the amount of the request,
the normalised phone (which for a valid phone is the phone itself), the
gateway's `CheckoutRequestID` and `MerchantRequestID`, and a primary key no
other row has.  The answer is HTTP 200 with `success: true`, the same two
identifiers and the key of the new row, after one call of the gateway. -/
theorem c26_stk_push_creates_one_pending (isURL : String → Bool) (env : MpesaEnv)
    (m : Moment) (gateway : Gateway) (s : Store) (req : StkPushRequest) (phone : String)
    (stkResponse : StkResponse)
    (hvalid : stkPushValidation isURL req.body = [])
    (hphone : req.body.phone = some phone)
    (hauth : gateway.authenticated = true)
    (haccept : gateway.stkpush (stkPushData env m req.body phone)
      = HttpResult.resolved stkResponse)
    (hfresh : checkoutTaken s (some stkResponse.CheckoutRequestID) = false) :
    ∃ row : Transaction,
      (stkPush env m gateway s req).store = s ++ [row]
      ∧ row.status = Status.PENDING
      ∧ row.transaction_type = TransactionType.STK_PUSH
      ∧ some row.amount = req.body.amount
      ∧ row.phone_number = formattedPhone phone
      ∧ formattedPhone phone = phone
      ∧ row.checkout_request_id = some stkResponse.CheckoutRequestID
      ∧ row.merchant_request_id = some stkResponse.MerchantRequestID
      ∧ (∀ t ∈ s, t.id ≠ row.id)
      ∧ (stkPush env m gateway s req).status = 200
      ∧ (stkPush env m gateway s req).body
          = InitiationBody.stkInitiated stkResponse.CheckoutRequestID
              stkResponse.MerchantRequestID stkResponse.ResponseDescription (some row.id)
      ∧ (stkPush env m gateway s req).body.success = some true
      ∧ (stkPush env m gateway s req).gatewayCalls = [stkPushData env m req.body phone] := by
  obtain ⟨⟨a, ha, _⟩, hp⟩ := stkPushValidation_nil hvalid
  rw [hphone] at hp
  have h254 : formattedPhone phone = phone :=
    formattedPhone_of_254 (matchesPhone_startsWith hp)
  have hreq : makeRequest gateway.authenticated
      (gateway.stkpush (stkPushData env m req.body phone)) = Except.ok stkResponse := by
    rw [hauth, haccept]
    rfl
  have hcreate : ∀ row : Transaction,
      row.checkout_request_id = some stkResponse.CheckoutRequestID →
      create s row = some (s ++ [row]) := by
    intro row hrow
    unfold create
    rw [hrow, hfresh]
    rfl
  refine ⟨newPending (nextId s) (some stkResponse.CheckoutRequestID)
    (some stkResponse.MerchantRequestID) a (formattedPhone phone)
    req.body.account_reference (some req.json) (some stkResponse.json) m.now, ?_⟩
  have hc := hcreate (newPending (nextId s) (some stkResponse.CheckoutRequestID)
    (some stkResponse.MerchantRequestID) a (formattedPhone phone)
    req.body.account_reference (some req.json) (some stkResponse.json) m.now) rfl
  have hout : stkPush env m gateway s req
      = ⟨200, InitiationBody.stkInitiated stkResponse.CheckoutRequestID
          stkResponse.MerchantRequestID stkResponse.ResponseDescription
          (some (nextId s)),
        s ++ [newPending (nextId s) (some stkResponse.CheckoutRequestID)
          (some stkResponse.MerchantRequestID) a (formattedPhone phone)
          req.body.account_reference (some req.json) (some stkResponse.json) m.now],
        [stkPushData env m req.body phone]⟩ := by
    unfold stkPush
    simp only [hphone, hreq, ha, hc]
    rfl
  rw [hout]
  refine ⟨rfl, rfl, rfl, ha.symm, rfl, h254, rfl, rfl, ?_, rfl, rfl, rfl, rfl⟩
  intro t ht
  have := lt_nextId s t ht
  show t.id ≠ nextId s
  omega

/-- C26 witness: the repository test's request (1000 to `254712345678`)
against a table that holds one other transaction, with the gateway
stand-in of the test. -/
theorem c26_stk_push_creates_one_pending_witness :
    ∃ row : Transaction,
      (stkPush exampleMpesaEnv exampleMoment acceptingGateway [pendingRow]
          testRequest).store = [pendingRow] ++ [row]
      ∧ row.status = Status.PENDING
      ∧ row.transaction_type = TransactionType.STK_PUSH
      ∧ some row.amount = testRequest.body.amount
      ∧ row.phone_number = formattedPhone "254712345678"
      ∧ formattedPhone "254712345678" = "254712345678"
      ∧ row.checkout_request_id = some testStkResponse.CheckoutRequestID
      ∧ row.merchant_request_id = some testStkResponse.MerchantRequestID
      ∧ (∀ t ∈ [pendingRow], t.id ≠ row.id)
      ∧ (stkPush exampleMpesaEnv exampleMoment acceptingGateway [pendingRow]
          testRequest).status = 200
      ∧ (stkPush exampleMpesaEnv exampleMoment acceptingGateway [pendingRow]
          testRequest).body
          = InitiationBody.stkInitiated testStkResponse.CheckoutRequestID
              testStkResponse.MerchantRequestID testStkResponse.ResponseDescription
              (some row.id)
      ∧ (stkPush exampleMpesaEnv exampleMoment acceptingGateway [pendingRow]
          testRequest).body.success = some true
      ∧ (stkPush exampleMpesaEnv exampleMoment acceptingGateway [pendingRow]
          testRequest).gatewayCalls
          = [stkPushData exampleMpesaEnv exampleMoment testRequest.body "254712345678"] :=
  c26_stk_push_creates_one_pending httpsURL exampleMpesaEnv exampleMoment acceptingGateway
    [pendingRow] testRequest "254712345678" testStkResponse (by decide) rfl rfl rfl
    (by decide)

end SapMpesa
